import Mathlib

/-!
Verification of the `odmiany` Polish verb inflection engine.

This file shallowly embeds the resolution pipeline of the Go package
`pkg/verb` (present-tense heuristic chain, irregular/suppletive registry
with productive-prefix decomposition, homograph resolver, past-tense
chain with the dual-form `-nąć` resolver, and the softening machinery of
the verbal-noun deriver) and proves properties of the embedded code.

Go strings are modelled as lists of Unicode code points (`Str`); the Go
byte-level operations used by the engine (`strings.HasPrefix/HasSuffix/
TrimPrefix/TrimSuffix`, slicing by the byte length of an ASCII prefix)
coincide with the code-point-level operations on valid UTF-8 input,
except where a byte count is compared against a constant, for which
`utf8Len` computes the UTF-8 byte length explicitly.
-/

/-- A Go string, modelled as its sequence of Unicode code points. -/
abbrev Str : Type := List Char

/-- `strings.HasPrefix`. -/
def beginsWith : (s pre : Str) → Bool
  | _, [] => true
  | [], _ :: _ => false
  | c :: cs, p :: ps => c == p && beginsWith cs ps

/-- `strings.HasSuffix`. -/
def endsWith (s suf : Str) : Bool := beginsWith s.reverse suf.reverse

/-- `strings.TrimPrefix`. -/
def dropPre (s pre : Str) : Str := if beginsWith s pre then s.drop pre.length else s

/-- `strings.TrimSuffix`. -/
def trimSuf (s suf : Str) : Str := if endsWith s suf then s.take (s.length - suf.length) else s

/-- Number of bytes of the UTF-8 encoding of one code point. -/
def charBytes (c : Char) : Nat :=
  if c.val ≤ 0x7F then 1 else if c.val ≤ 0x7FF then 2 else if c.val ≤ 0xFFFF then 3 else 4

/-- `len(s)` for a Go string: the length of its UTF-8 encoding in bytes. -/
def utf8Len (s : Str) : Nat := (s.map charBytes).sum

/-- Association-list model of a Go map literal (all literal keys are distinct). -/
def lookupTbl {α : Type} (tbl : List (Str × α)) (k : Str) : Option α :=
  match tbl with
  | [] => none
  | (k', v) :: rest => if k = k' then some v else lookupTbl rest k

/-- Membership in a Go `map[string]bool` set literal. -/
def memStr (set : List Str) (k : Str) : Bool := decide (k ∈ set)

/-- The six-slot present-tense paradigm (`PresentTense` in the source). -/
structure PresentT where
  sg1 : Str
  sg2 : Str
  sg3 : Str
  pl1 : Str
  pl2 : Str
  pl3 : Str
deriving DecidableEq, Repr

/-- The thirteen-slot past-tense paradigm (`PastTense` in the source). -/
structure PastT where
  sg1M : Str
  sg1F : Str
  sg2M : Str
  sg2F : Str
  sg3M : Str
  sg3F : Str
  sg3N : Str
  pl1V : Str
  pl1NV : Str
  pl2V : Str
  pl2NV : Str
  pl3V : Str
  pl3NV : Str
deriving DecidableEq, Repr

/-- A present paradigm together with its disambiguating gloss
(the `Paradigm` struct embedded by `lookupHomograph`; its declaration is
not under `src/`, but its two fields are fixed by every use site). -/
structure Paradigm where
  pres : PresentT
  gloss : Str
deriving DecidableEq, Repr

/-- A past paradigm together with its disambiguating gloss
(the `PastParadigm` struct used by `ConjugatePast`). -/
structure PastParadigm where
  past : PastT
  gloss : Str
deriving DecidableEq, Repr
-- Generated tables transcribed from the Go source registries.

def irregularVerbsChunk0 : List (Str × PresentT) := [
  ("być".data, ⟨"jestem".data, "jesteś".data, "jest".data, "jesteśmy".data, "jesteście".data, "są".data⟩),
  ("mieć".data, ⟨"mam".data, "masz".data, "ma".data, "mamy".data, "macie".data, "mają".data⟩),
  ("musieć".data, ⟨"muszę".data, "musisz".data, "musi".data, "musimy".data, "musicie".data, "muszą".data⟩),
  ("jeść".data, ⟨"jem".data, "jesz".data, "je".data, "jemy".data, "jecie".data, "jedzą".data⟩),
  ("dać".data, ⟨"dam".data, "dasz".data, "da".data, "damy".data, "dacie".data, "dadzą".data⟩),
  ("sprzedać".data, ⟨"sprzedam".data, "sprzedasz".data, "sprzeda".data, "sprzedamy".data, "sprzedacie".data, "sprzedadzą".data⟩),
  ("wziąć".data, ⟨"wezmę".data, "weźmiesz".data, "weźmie".data, "weźmiemy".data, "weźmiecie".data, "wezmą".data⟩),
  ("ciąć".data, ⟨"tnę".data, "tniesz".data, "tnie".data, "tniemy".data, "tniecie".data, "tną".data⟩),
  ("iść".data, ⟨"idę".data, "idziesz".data, "idzie".data, "idziemy".data, "idziecie".data, "idą".data⟩),
  ("jechać".data, ⟨"jadę".data, "jedziesz".data, "jedzie".data, "jedziemy".data, "jedziecie".data, "jadą".data⟩),
  ("brać".data, ⟨"biorę".data, "bierzesz".data, "bierze".data, "bierzemy".data, "bierzecie".data, "biorą".data⟩),
  ("prać".data, ⟨"piorę".data, "pierzesz".data, "pierze".data, "pierzemy".data, "pierzecie".data, "piorą".data⟩),
  ("pisać".data, ⟨"piszę".data, "piszesz".data, "pisze".data, "piszemy".data, "piszecie".data, "piszą".data⟩),
  ("czesać".data, ⟨"czeszę".data, "czeszesz".data, "czesze".data, "czeszemy".data, "czeszecie".data, "czeszą".data⟩),
  ("kasać".data, ⟨"kasam".data, "kasasz".data, "kasa".data, "kasamy".data, "kasacie".data, "kasają".data⟩)]

def irregularVerbsChunk1 : List (Str × PresentT) := [
  ("kołysać".data, ⟨"kołyszę".data, "kołyszesz".data, "kołysze".data, "kołyszemy".data, "kołyszecie".data, "kołyszą".data⟩),
  ("ciosać".data, ⟨"ciosam".data, "ciosasz".data, "ciosa".data, "ciosamy".data, "ciosacie".data, "ciosają".data⟩),
  ("ciesać".data, ⟨"ciesam".data, "ciesasz".data, "ciesa".data, "ciesamy".data, "ciesacie".data, "ciesają".data⟩),
  ("krzesać".data, ⟨"krzesam".data, "krzesasz".data, "krzesa".data, "krzesamy".data, "krzesacie".data, "krzesają".data⟩),
  ("skakać".data, ⟨"skaczę".data, "skaczesz".data, "skacze".data, "skaczemy".data, "skaczecie".data, "skaczą".data⟩),
  ("płakać".data, ⟨"płaczę".data, "płaczesz".data, "płacze".data, "płaczemy".data, "płaczecie".data, "płaczą".data⟩),
  ("wiązać".data, ⟨"wiążę".data, "wiążesz".data, "wiąże".data, "wiążemy".data, "wiążecie".data, "wiążą".data⟩),
  ("kazać".data, ⟨"każę".data, "każesz".data, "każe".data, "każemy".data, "każecie".data, "każą".data⟩),
  ("mazać".data, ⟨"mażę".data, "mażesz".data, "maże".data, "mażemy".data, "mażecie".data, "mażą".data⟩),
  ("lizać".data, ⟨"liżę".data, "liżesz".data, "liże".data, "liżemy".data, "liżecie".data, "liżą".data⟩),
  ("naleźć".data, ⟨"najdę".data, "najdziesz".data, "najdzie".data, "najdziemy".data, "najdziecie".data, "najdą".data⟩),
  ("spać".data, ⟨"śpię".data, "śpisz".data, "śpi".data, "śpimy".data, "śpicie".data, "śpią".data⟩),
  ("bać".data, ⟨"boję".data, "boisz".data, "boi".data, "boimy".data, "boicie".data, "boją".data⟩),
  ("dziać".data, ⟨"dzieję".data, "dziejesz".data, "dzieje".data, "dziejemy".data, "dziejecie".data, "dzieją".data⟩),
  ("podobać".data, ⟨"podobam".data, "podobasz".data, "podoba".data, "podobamy".data, "podobacie".data, "podobają".data⟩)]

def irregularVerbsChunk2 : List (Str × PresentT) := [
  ("bić".data, ⟨"biję".data, "bijesz".data, "bije".data, "bijemy".data, "bijecie".data, "biją".data⟩),
  ("lić".data, ⟨"liję".data, "lijesz".data, "lije".data, "lijemy".data, "lijecie".data, "liją".data⟩),
  ("pić".data, ⟨"piję".data, "pijesz".data, "pije".data, "pijemy".data, "pijecie".data, "piją".data⟩),
  ("żyć".data, ⟨"żyję".data, "żyjesz".data, "żyje".data, "żyjemy".data, "żyjecie".data, "żyją".data⟩),
  ("myć".data, ⟨"myję".data, "myjesz".data, "myje".data, "myjemy".data, "myjecie".data, "myją".data⟩),
  ("ryć".data, ⟨"ryję".data, "ryjesz".data, "ryje".data, "ryjemy".data, "ryjecie".data, "ryją".data⟩),
  ("szyć".data, ⟨"szyję".data, "szyjesz".data, "szyje".data, "szyjemy".data, "szyjecie".data, "szyją".data⟩),
  ("wyć".data, ⟨"wyję".data, "wyjesz".data, "wyje".data, "wyjemy".data, "wyjecie".data, "wyją".data⟩),
  ("kryć".data, ⟨"kryję".data, "kryjesz".data, "kryje".data, "kryjemy".data, "kryjecie".data, "kryją".data⟩),
  ("wić".data, ⟨"wiję".data, "wijesz".data, "wije".data, "wijemy".data, "wijecie".data, "wiją".data⟩),
  ("opowić".data, ⟨"opowiję".data, "opowijesz".data, "opowije".data, "opowijemy".data, "opowijecie".data, "opowiją".data⟩),
  ("rozpowić".data, ⟨"rozpowiję".data, "rozpowijesz".data, "rozpowije".data, "rozpowijemy".data, "rozpowijecie".data, "rozpowiją".data⟩),
  ("spowić".data, ⟨"spowiję".data, "spowijesz".data, "spowije".data, "spowijemy".data, "spowijecie".data, "spowiją".data⟩),
  ("upowić".data, ⟨"upowiję".data, "upowijesz".data, "upowije".data, "upowijemy".data, "upowijecie".data, "upowiją".data⟩),
  ("pomnieć".data, ⟨"pomnę".data, "pomnisz".data, "pomni".data, "pomnimy".data, "pomnicie".data, "pomną".data⟩)]

def irregularVerbsChunk3 : List (Str × PresentT) := [
  ("mrzeć".data, ⟨"mrę".data, "mrzesz".data, "mrze".data, "mrzemy".data, "mrzecie".data, "mrą".data⟩),
  ("ciec".data, ⟨"cieknę".data, "ciekniesz".data, "cieknie".data, "ciekniemy".data, "ciekniecie".data, "ciekną".data⟩),
  ("woleć".data, ⟨"wolę".data, "wolisz".data, "woli".data, "wolimy".data, "wolicie".data, "wolą".data⟩),
  ("jąć".data, ⟨"jmę".data, "jmiesz".data, "jmie".data, "jmiemy".data, "jmiecie".data, "jmą".data⟩),
  ("zdjąć".data, ⟨"zdejmę".data, "zdejmiesz".data, "zdejmie".data, "zdejmiemy".data, "zdejmiecie".data, "zdejmą".data⟩),
  ("podjąć".data, ⟨"podejmę".data, "podejmiesz".data, "podejmie".data, "podejmiemy".data, "podejmiecie".data, "podejmą".data⟩),
  ("odjąć".data, ⟨"odejmę".data, "odejmiesz".data, "odejmie".data, "odejmiemy".data, "odejmiecie".data, "odejmą".data⟩),
  ("cząć".data, ⟨"cznę".data, "czniesz".data, "cznie".data, "czniemy".data, "czniecie".data, "czną".data⟩),
  ("począć".data, ⟨"pocznę".data, "poczniesz".data, "pocznie".data, "poczniemy".data, "poczniecie".data, "poczną".data⟩),
  ("odpocząć".data, ⟨"odpocznę".data, "odpoczniesz".data, "odpocznie".data, "odpoczniemy".data, "odpoczniecie".data, "odpoczną".data⟩),
  ("rozpocząć".data, ⟨"rozpocznę".data, "rozpoczniesz".data, "rozpocznie".data, "rozpoczniemy".data, "rozpoczniecie".data, "rozpoczną".data⟩),
  ("spocząć".data, ⟨"spocznę".data, "spoczniesz".data, "spocznie".data, "spoczniemy".data, "spoczniecie".data, "spoczną".data⟩),
  ("wypocząć".data, ⟨"wypocznę".data, "wypoczniesz".data, "wypocznie".data, "wypoczniemy".data, "wypoczniecie".data, "wypoczną".data⟩),
  ("wszcząć".data, ⟨"wszcznę".data, "wszczniesz".data, "wszcznie".data, "wszczniemy".data, "wszczniecie".data, "wszczną".data⟩),
  ("poczęć".data, ⟨"pocznę".data, "poczniesz".data, "pocznie".data, "poczniemy".data, "poczniecie".data, "poczną".data⟩)]

def irregularVerbsChunk4 : List (Str × PresentT) := [
  ("grzmieć".data, ⟨"grzmię".data, "grzmisz".data, "grzmi".data, "grzmimy".data, "grzmicie".data, "grzmią".data⟩),
  ("szumieć".data, ⟨"szumię".data, "szumisz".data, "szumi".data, "szumimy".data, "szumicie".data, "szumią".data⟩),
  ("tłumieć".data, ⟨"tłumię".data, "tłumisz".data, "tłumi".data, "tłumimy".data, "tłumicie".data, "tłumią".data⟩),
  ("patrzeć".data, ⟨"patrzę".data, "patrzysz".data, "patrzy".data, "patrzymy".data, "patrzycie".data, "patrzą".data⟩),
  ("starzeć".data, ⟨"starzeję".data, "starzejesz".data, "starzeje".data, "starzejemy".data, "starzejecie".data, "starzeją".data⟩),
  ("gorzeć".data, ⟨"gorzeję".data, "gorzejesz".data, "gorzeje".data, "gorzejemy".data, "gorzejecie".data, "gorzeją".data⟩),
  ("dorzeć".data, ⟨"dorzeję".data, "dorzejesz".data, "dorzeje".data, "dorzejemy".data, "dorzejecie".data, "dorzeją".data⟩),
  ("dobrzeć".data, ⟨"dobrzeję".data, "dobrzejesz".data, "dobrzeje".data, "dobrzejemy".data, "dobrzejecie".data, "dobrzeją".data⟩),
  ("rwać".data, ⟨"rwę".data, "rwiesz".data, "rwie".data, "rwiemy".data, "rwiecie".data, "rwą".data⟩),
  ("zwać".data, ⟨"zwę".data, "zwiesz".data, "zwie".data, "zwiemy".data, "zwiecie".data, "zwą".data⟩),
  ("dbać".data, ⟨"dbam".data, "dbasz".data, "dba".data, "dbamy".data, "dbacie".data, "dbają".data⟩),
  ("śmiać".data, ⟨"śmieję".data, "śmiejesz".data, "śmieje".data, "śmiejemy".data, "śmiejecie".data, "śmieją".data⟩),
  ("cierpieć".data, ⟨"cierpię".data, "cierpisz".data, "cierpi".data, "cierpimy".data, "cierpicie".data, "cierpią".data⟩),
  ("wisieć".data, ⟨"wiszę".data, "wisisz".data, "wisi".data, "wisimy".data, "wisicie".data, "wiszą".data⟩),
  ("tkwieć".data, ⟨"tkwię".data, "tkwisz".data, "tkwi".data, "tkwimy".data, "tkwicie".data, "tkwią".data⟩)]

def irregularVerbsChunk5 : List (Str × PresentT) := [
  ("śmierdzieć".data, ⟨"śmierdzę".data, "śmierdzisz".data, "śmierdzi".data, "śmierdzimy".data, "śmierdzicie".data, "śmierdzą".data⟩),
  ("jeździć".data, ⟨"jeżdżę".data, "jeździsz".data, "jeździ".data, "jeździmy".data, "jeździcie".data, "jeżdżą".data⟩),
  ("pachnieć".data, ⟨"pachnę".data, "pachniesz".data, "pachnie".data, "pachniemy".data, "pachniecie".data, "pachną".data⟩),
  ("strzec".data, ⟨"strzegę".data, "strzeżesz".data, "strzeże".data, "strzeżemy".data, "strzeżecie".data, "strzegą".data⟩),
  ("chować".data, ⟨"chowam".data, "chowasz".data, "chowa".data, "chowamy".data, "chowacie".data, "chowają".data⟩),
  ("okazać".data, ⟨"okażę".data, "okażesz".data, "okaże".data, "okażemy".data, "okażecie".data, "okażą".data⟩),
  ("karać".data, ⟨"karzę".data, "karzesz".data, "karze".data, "karzemy".data, "karzecie".data, "karzą".data⟩),
  ("kraść".data, ⟨"kradnę".data, "kradniesz".data, "kradnie".data, "kradniemy".data, "kradniecie".data, "kradną".data⟩),
  ("kłaść".data, ⟨"kładę".data, "kładziesz".data, "kładzie".data, "kładziemy".data, "kładziecie".data, "kładą".data⟩),
  ("uczcić".data, ⟨"uczczę".data, "uczcisz".data, "uczci".data, "uczcimy".data, "uczcicie".data, "uczczą".data⟩),
  ("czcić".data, ⟨"czczę".data, "czcisz".data, "czci".data, "czcimy".data, "czcicie".data, "czczą".data⟩),
  ("kpić".data, ⟨"kpię".data, "kpisz".data, "kpi".data, "kpimy".data, "kpicie".data, "kpią".data⟩),
  ("objąć".data, ⟨"obejmę".data, "obejmiesz".data, "obejmie".data, "obejmiemy".data, "obejmiecie".data, "obejmą".data⟩),
  ("ulec".data, ⟨"ulegnę".data, "ulegniesz".data, "ulegnie".data, "ulegniemy".data, "ulegniecie".data, "ulegną".data⟩),
  ("wściec".data, ⟨"wścieknę".data, "wściekniesz".data, "wścieknie".data, "wściekniemy".data, "wściekniecie".data, "wściekną".data⟩)]

def irregularVerbsChunk6 : List (Str × PresentT) := [
  ("dojrzeć".data, ⟨"dojrzeję".data, "dojrzejesz".data, "dojrzeje".data, "dojrzejemy".data, "dojrzejecie".data, "dojrzeją".data⟩),
  ("poboleć".data, ⟨"pobolę".data, "pobolisz".data, "poboli".data, "pobolimy".data, "pobolicie".data, "pobolą".data⟩),
  ("rozboleć".data, ⟨"rozbolę".data, "rozbolisz".data, "rozboli".data, "rozbolimy".data, "rozbolicie".data, "rozbolą".data⟩),
  ("zaboleć".data, ⟨"zabolę".data, "zabolisz".data, "zaboli".data, "zabolimy".data, "zabolicie".data, "zabolą".data⟩),
  ("oboleć".data, ⟨"oboleję".data, "obolejesz".data, "oboleje".data, "obolejemy".data, "obolejecie".data, "oboleją".data⟩),
  ("odboleć".data, ⟨"odboleję".data, "odbolejesz".data, "odboleje".data, "odbolejemy".data, "odbolejecie".data, "odboleją".data⟩),
  ("przeboleć".data, ⟨"przeboleję".data, "przebolejesz".data, "przeboleje".data, "przebolejemy".data, "przebolejecie".data, "przeboleją".data⟩),
  ("współboleć".data, ⟨"współboleję".data, "współbolejesz".data, "współboleje".data, "współbolejemy".data, "współbolejecie".data, "współboleją".data⟩),
  ("wyboleć".data, ⟨"wyboleję".data, "wybolejesz".data, "wyboleje".data, "wybolejemy".data, "wybolejecie".data, "wyboleją".data⟩),
  ("swędzieć".data, ⟨"swędzę".data, "swędzisz".data, "swędzi".data, "swędzimy".data, "swędzicie".data, "swędzą".data⟩),
  ("wspomnieć".data, ⟨"wspomnę".data, "wspomnisz".data, "wspomni".data, "wspomnimy".data, "wspomnicie".data, "wspomną".data⟩),
  ("opisać".data, ⟨"opiszę".data, "opiszesz".data, "opisze".data, "opiszemy".data, "opiszecie".data, "opiszą".data⟩),
  ("wskazać".data, ⟨"wskażę".data, "wskażesz".data, "wskaże".data, "wskażemy".data, "wskażecie".data, "wskażą".data⟩),
  ("odebrać".data, ⟨"odbiorę".data, "odbierzesz".data, "odbierze".data, "odbierzemy".data, "odbierzecie".data, "odbiorą".data⟩),
  ("zebrać".data, ⟨"zbiorę".data, "zbierzesz".data, "zbierze".data, "zbierzemy".data, "zbierzecie".data, "zbiorą".data⟩)]

def irregularVerbsChunk7 : List (Str × PresentT) := [
  ("rozebrać".data, ⟨"rozbiorę".data, "rozbierzesz".data, "rozbierze".data, "rozbierzemy".data, "rozbierzecie".data, "rozbiorą".data⟩),
  ("lać".data, ⟨"leję".data, "lejesz".data, "leje".data, "lejemy".data, "lejecie".data, "leją".data⟩),
  ("grześć".data, ⟨"grzebę".data, "grzebiesz".data, "grzebie".data, "grzebiemy".data, "grzebiecie".data, "grzebą".data⟩),
  ("żreć".data, ⟨"żrę".data, "żresz".data, "żre".data, "żremy".data, "żrecie".data, "żrą".data⟩),
  ("przeć".data, ⟨"prę".data, "przesz".data, "prze".data, "przemy".data, "przecie".data, "prą".data⟩),
  ("wrzeć".data, ⟨"wrę".data, "wrzesz".data, "wrze".data, "wrzemy".data, "wrzecie".data, "wrą".data⟩),
  ("śnić".data, ⟨"śnię".data, "śnisz".data, "śni".data, "śnimy".data, "śnicie".data, "śnią".data⟩),
  ("rzec".data, ⟨"rzeknę".data, "rzeczesz".data, "rzecze".data, "rzeczemy".data, "rzeczecie".data, "rzekną".data⟩),
  ("tłuc".data, ⟨"tłukę".data, "tłuczesz".data, "tłucze".data, "tłuczemy".data, "tłuczecie".data, "tłuką".data⟩),
  ("pleść".data, ⟨"plotę".data, "pleciesz".data, "plecie".data, "pleciemy".data, "pleciecie".data, "plotą".data⟩),
  ("kląć".data, ⟨"klnę".data, "klniesz".data, "klnie".data, "klniemy".data, "klniecie".data, "klną".data⟩),
  ("piąć".data, ⟨"pnę".data, "pniesz".data, "pnie".data, "pniemy".data, "pniecie".data, "pną".data⟩),
  ("wspiąć".data, ⟨"wespnę".data, "wespniesz".data, "wespnie".data, "wespniemy".data, "wespniecie".data, "wespną".data⟩),
  ("zapiąć".data, ⟨"zapnę".data, "zapniesz".data, "zapnie".data, "zapniemy".data, "zapniecie".data, "zapną".data⟩),
  ("przypiąć".data, ⟨"przypnę".data, "przypniesz".data, "przypnie".data, "przypniemy".data, "przypniecie".data, "przypną".data⟩)]

def irregularVerbsChunk8 : List (Str × PresentT) := [
  ("odpiąć".data, ⟨"odpnę".data, "odpniesz".data, "odpnie".data, "odpniemy".data, "odpniecie".data, "odpną".data⟩),
  ("dopiąć".data, ⟨"dopnę".data, "dopniesz".data, "dopnie".data, "dopniemy".data, "dopniecie".data, "dopną".data⟩),
  ("spiąć".data, ⟨"spnę".data, "spniesz".data, "spnie".data, "spniemy".data, "spniecie".data, "spną".data⟩),
  ("wpiąć".data, ⟨"wpnę".data, "wpniesz".data, "wpnie".data, "wpniemy".data, "wpniecie".data, "wpną".data⟩),
  ("napiąć".data, ⟨"napnę".data, "napniesz".data, "napnie".data, "napniemy".data, "napniecie".data, "napną".data⟩),
  ("rozpiąć".data, ⟨"rozpnę".data, "rozpniesz".data, "rozpnie".data, "rozpniemy".data, "rozpniecie".data, "rozpną".data⟩),
  ("wypiąć".data, ⟨"wypnę".data, "wypniesz".data, "wypnie".data, "wypniemy".data, "wypniecie".data, "wypną".data⟩),
  ("wiać".data, ⟨"wieję".data, "wiejesz".data, "wieje".data, "wiejemy".data, "wiejecie".data, "wieją".data⟩),
  ("chwiać".data, ⟨"chwieję".data, "chwiejesz".data, "chwieje".data, "chwiejemy".data, "chwiejecie".data, "chwieją".data⟩),
  ("krajać".data, ⟨"kraję".data, "krajesz".data, "kraje".data, "krajemy".data, "krajecie".data, "krają".data⟩),
  ("nająć".data, ⟨"najmę".data, "najmiesz".data, "najmie".data, "najmiemy".data, "najmiecie".data, "najmą".data⟩),
  ("tajać".data, ⟨"taję".data, "tajesz".data, "taje".data, "tajemy".data, "tajecie".data, "tają".data⟩),
  ("ćpać".data, ⟨"ćpam".data, "ćpasz".data, "ćpa".data, "ćpamy".data, "ćpacie".data, "ćpają".data⟩),
  ("bimbać".data, ⟨"bimbam".data, "bimbasz".data, "bimba".data, "bimbamy".data, "bimbacie".data, "bimbają".data⟩),
  ("gabać".data, ⟨"gabam".data, "gabasz".data, "gaba".data, "gabamy".data, "gabacie".data, "gabają".data⟩)]

def irregularVerbsChunk9 : List (Str × PresentT) := [
  ("chybać".data, ⟨"chybam".data, "chybasz".data, "chyba".data, "chybamy".data, "chybacie".data, "chybają".data⟩),
  ("gibać".data, ⟨"gibam".data, "gibasz".data, "giba".data, "gibamy".data, "gibacie".data, "gibają".data⟩),
  ("siorbać".data, ⟨"siorbam".data, "siorbasz".data, "siorba".data, "siorbamy".data, "siorbacie".data, "siorbają".data⟩),
  ("stąpać".data, ⟨"stąpam".data, "stąpasz".data, "stąpa".data, "stąpamy".data, "stąpacie".data, "stąpają".data⟩),
  ("pchlać".data, ⟨"pchlam".data, "pchlasz".data, "pchla".data, "pchlamy".data, "pchlacie".data, "pchlają".data⟩),
  ("rychlać".data, ⟨"rychlam".data, "rychlasz".data, "rychla".data, "rychlamy".data, "rychlacie".data, "rychlają".data⟩),
  ("gdybać".data, ⟨"gdybam".data, "gdybasz".data, "gdyba".data, "gdybamy".data, "gdybacie".data, "gdybają".data⟩),
  ("gnić".data, ⟨"gniję".data, "gnijesz".data, "gnije".data, "gnijemy".data, "gnijecie".data, "gniją".data⟩),
  ("siać".data, ⟨"sieję".data, "siejesz".data, "sieje".data, "siejemy".data, "siejecie".data, "sieją".data⟩),
  ("utajać".data, ⟨"utajam".data, "utajasz".data, "utaja".data, "utajamy".data, "utajacie".data, "utajają".data⟩),
  ("zatajać".data, ⟨"zatajam".data, "zatajasz".data, "zataja".data, "zatajamy".data, "zatajacie".data, "zatajają".data⟩),
  ("przytajać".data, ⟨"przytajam".data, "przytajasz".data, "przytaja".data, "przytajamy".data, "przytajacie".data, "przytajają".data⟩)]

def irregularVerbs : List (Str × PresentT) :=
  irregularVerbsChunk0 ++ irregularVerbsChunk1 ++ irregularVerbsChunk2 ++ irregularVerbsChunk3 ++ irregularVerbsChunk4 ++ irregularVerbsChunk5 ++ irregularVerbsChunk6 ++ irregularVerbsChunk7 ++ irregularVerbsChunk8 ++ irregularVerbsChunk9

def prefixableVerbsChunk0 : List Str := [
  "pisać".data,
  "brać".data,
  "jechać".data,
  "dać".data,
  "wziąć".data,
  "iść".data,
  "jeść".data,
  "prać".data,
  "czesać".data,
  "kasać".data,
  "ciosać".data,
  "ciesać".data,
  "skakać".data,
  "płakać".data,
  "wiązać".data,
  "kazać".data,
  "mazać".data,
  "lizać".data,
  "kołysać".data,
  "krzesać".data,
  "naleźć".data,
  "spać".data,
  "bać".data,
  "dziać".data,
  "podobać".data]

def prefixableVerbsChunk1 : List Str := [
  "bić".data,
  "lić".data,
  "pić".data,
  "żyć".data,
  "myć".data,
  "ryć".data,
  "szyć".data,
  "wyć".data,
  "kryć".data,
  "pomnieć".data,
  "mrzeć".data,
  "ciec".data,
  "woleć".data,
  "jąć".data,
  "cząć".data,
  "patrzeć".data,
  "rwać".data,
  "zwać".data,
  "dbać".data,
  "śmiać".data,
  "cierpieć".data,
  "wisieć".data,
  "jeździć".data,
  "pachnieć".data,
  "strzec".data]

def prefixableVerbsChunk2 : List Str := [
  "chować".data,
  "grzmieć".data,
  "szumieć".data,
  "tłumieć".data,
  "okazać".data,
  "karać".data,
  "kraść".data,
  "kłaść".data,
  "lać".data,
  "grześć".data,
  "przeć".data,
  "wrzeć".data,
  "śnić".data,
  "rzec".data,
  "wiać".data,
  "krajać".data,
  "słać".data,
  "nająć".data,
  "tłuc".data,
  "pleść".data,
  "kląć".data,
  "żreć".data,
  "chwiać".data,
  "starzeć".data,
  "gorzeć".data]

def prefixableVerbsChunk3 : List Str := [
  "dorzeć".data,
  "dobrzeć".data,
  "czcić".data,
  "kpić".data,
  "ulec".data,
  "wściec".data,
  "dojrzeć".data,
  "boleć".data,
  "swędzieć".data,
  "tajać".data,
  "ćpać".data,
  "wić".data,
  "bimbać".data,
  "gabać".data,
  "chybać".data,
  "gnić".data,
  "siać".data,
  "gibać".data,
  "siorbać".data,
  "stąpać".data,
  "pchlać".data,
  "rychlać".data,
  "gdybać".data]

def prefixableVerbs : List Str :=
  prefixableVerbsChunk0 ++ prefixableVerbsChunk1 ++ prefixableVerbsChunk2 ++ prefixableVerbsChunk3

def verbPrefixesChunk0 : List Str := [
  "prze".data,
  "przy".data,
  "roz".data,
  "roze".data,
  "wy".data,
  "za".data,
  "na".data,
  "po".data,
  "do".data,
  "od".data,
  "ode".data,
  "ob".data,
  "obe".data,
  "pod".data,
  "pode".data,
  "nad".data,
  "nade".data,
  "wz".data,
  "wze".data,
  "u".data,
  "s".data,
  "z".data,
  "ze".data,
  "w".data,
  "we".data]

def verbPrefixesChunk1 : List Str := [
  "o".data]

def verbPrefixes : List Str :=
  verbPrefixesChunk0 ++ verbPrefixesChunk1

def verbalPrefixes : List Str := [
  "prze".data,
  "przy".data,
  "po".data,
  "pod".data,
  "podo".data,
  "od".data,
  "ode".data,
  "do".data,
  "za".data,
  "na".data,
  "nad".data,
  "nade".data,
  "u".data,
  "w".data,
  "we".data,
  "wy".data,
  "z".data,
  "ze".data,
  "s".data,
  "roz".data,
  "roze".data,
  "o".data,
  "ob".data,
  "obe".data]

def stacValidPrefixes : List Str := [
  "do".data,
  "na".data,
  "o".data,
  "ob".data,
  "od".data,
  "ode".data,
  "po".data,
  "pod".data,
  "pode".data,
  "prze".data,
  "przy".data,
  "roz".data,
  "u".data,
  "w".data,
  "wy".data,
  "z".data,
  "za".data,
  "zo".data,
  "ze".data,
  "wz".data,
  "ws".data,
  "pow".data]

def allFormsEToAVerbs : List Str := [
  "blednąć".data,
  "bladnąć".data]

def eToAVerbs : List Str := [
  "blednąć".data,
  "bladnąć".data,
  "więdnąć".data,
  "zwiędnąć".data,
  "ziębnąć".data,
  "klęknąć".data,
  "klęsnąć".data,
  "lęgnąć".data,
  "lęknąć".data,
  "grzęznąć".data,
  "gręznąć".data,
  "grząznąć".data,
  "grąznąć".data,
  "przęgnąć".data,
  "strzęgnąć".data,
  "sięgnąć".data,
  "więznąć".data,
  "więzgnąć".data,
  "wiąznąć".data]

def oToOKreskaVerbs : List Str := [
  "moknąć".data,
  "chłodnąć".data]

def epentheticEVerbs : List Str := [
  "schnąć".data]

def sortedPrefixesEB : List Str := [
  "prze".data,
  "przy".data,
  "roze".data,
  "nade".data,
  "pode".data,
  "pode".data,
  "roz".data,
  "nad".data,
  "pod".data,
  "obe".data,
  "ode".data,
  "za".data,
  "na".data,
  "po".data,
  "do".data,
  "od".data,
  "ob".data,
  "wy".data,
  "u".data,
  "s".data,
  "z".data,
  "w".data,
  "o".data]

def nRetainingVerbs : List Str := [
  "smoknąć".data]

def dualFormNacVerbsVirileDroppedChunk0 : List Str := [
  "buchnąć".data,
  "cuchnąć".data,
  "gęstnąć".data,
  "głuchnąć".data,
  "klęknąć".data,
  "kwitnąć".data,
  "mierzchnąć".data,
  "niknąć".data,
  "pełznąć".data,
  "pierzchnąć".data,
  "pizdnąć".data,
  "rymsnąć".data,
  "rypnąć".data,
  "sieknąć".data,
  "siągnąć".data,
  "siąknąć".data,
  "sięknąć".data,
  "spełgnąć".data,
  "stęgnąć".data,
  "dosięgnąć".data,
  "napuchnąć".data,
  "ochlapnąć".data,
  "oklapnąć".data,
  "ostygnąć".data,
  "przesięgnąć".data]

def dualFormNacVerbsVirileDroppedChunk1 : List Str := [
  "przywyknąć".data,
  "spuchnąć".data,
  "ubodnąć".data,
  "wyziębnąć".data,
  "zgorzknąć".data,
  "wybuchnąć".data,
  "zacuchnąć".data,
  "zgęstnąć".data,
  "poklęknąć".data,
  "przyklęknąć".data,
  "uklęknąć".data,
  "zaklęknąć".data,
  "dokwitnąć".data,
  "okwitnąć".data,
  "przekwitnąć".data,
  "rozkwitnąć".data,
  "wykwitnąć".data,
  "zakwitnąć".data,
  "pomierzchnąć".data,
  "poniknąć".data,
  "wyniknąć".data,
  "zaniknąć".data,
  "zniknąć".data,
  "dopełznąć".data,
  "nadpełznąć".data]

def dualFormNacVerbsVirileDroppedChunk2 : List Str := [
  "odpełznąć".data,
  "opełznąć".data,
  "podpełznąć".data,
  "popełznąć".data,
  "przepełznąć".data,
  "przypełznąć".data,
  "rozpełznąć".data,
  "spełznąć".data,
  "wpełznąć".data,
  "wypełznąć".data,
  "zapełznąć".data,
  "rozpierzchnąć".data,
  "spierzchnąć".data,
  "dosiągnąć".data,
  "nasiąknąć".data,
  "osiąknąć".data,
  "podsiąknąć".data,
  "przesiąknąć".data,
  "wsiąknąć".data,
  "wysiąknąć".data,
  "przesięknąć".data,
  "wsięknąć".data]

def dualFormNacVerbsVirileDropped : List Str :=
  dualFormNacVerbsVirileDroppedChunk0 ++ dualFormNacVerbsVirileDroppedChunk1 ++ dualFormNacVerbsVirileDroppedChunk2

def dualFormNacVerbsVirileKeptChunk0 : List Str := [
  "brzęknąć".data,
  "chrypnąć".data,
  "prysnąć".data,
  "trysnąć".data,
  "trzasnąć".data,
  "wisnąć".data,
  "śliznąć".data,
  "rozbłysnąć".data,
  "rozplasnąć".data,
  "rozplusnąć".data,
  "zabłysnąć".data,
  "zabrzęknąć".data,
  "odprysnąć".data,
  "rozprysnąć".data,
  "sprysnąć".data,
  "wprysnąć".data,
  "wyprysnąć".data,
  "natrysnąć".data,
  "roztrysnąć".data,
  "wtrysnąć".data,
  "wytrysnąć".data,
  "nawisnąć".data,
  "obwisnąć".data,
  "owisnąć".data,
  "rozwisnąć".data]

def dualFormNacVerbsVirileKeptChunk1 : List Str := [
  "uwisnąć".data,
  "zawisnąć".data,
  "zwisnąć".data,
  "obśliznąć".data,
  "ośliznąć".data]

def dualFormNacVerbsVirileKept : List Str :=
  dualFormNacVerbsVirileKeptChunk0 ++ dualFormNacVerbsVirileKeptChunk1

def nDroppingNacVerbsChunk0 : List Str := [
  "blednąć".data,
  "bladnąć".data,
  "blaknąć".data,
  "brzęknąć".data,
  "brzydnąć".data,
  "cienknąć".data,
  "chłodnąć".data,
  "chrzypnąć".data,
  "chrypnąć".data,
  "chudnąć".data,
  "cichnąć".data,
  "ciemnąć".data,
  "cieknąć".data,
  "cierpnąć".data,
  "czeznąć".data,
  "ćwirknąć".data,
  "duchnąć".data,
  "gadnąć".data,
  "gasnąć".data,
  "gnuśnąć".data,
  "głuchnąć".data,
  "gorknąć".data,
  "grzęznąć".data,
  "grząznąć".data,
  "grąznąć".data]

def nDroppingNacVerbsChunk1 : List Str := [
  "gręznąć".data,
  "jaśnąć".data,
  "kisnąć".data,
  "klęknąć".data,
  "klęsnąć".data,
  "kostnąć".data,
  "kraśnąć".data,
  "krzepnąć".data,
  "krzesnąć".data,
  "kwaśnąć".data,
  "kwitnąć".data,
  "kładnąć".data,
  "lepnąć".data,
  "lęgnąć".data,
  "lęknąć".data,
  "marznąć".data,
  "mdlnąć".data,
  "mierznąć".data,
  "mierżnąć".data,
  "mięknąć".data,
  "milknąć".data,
  "moknąć".data,
  "pełznąć".data,
  "pęknąć".data,
  "pierzchnąć".data]

def nDroppingNacVerbsChunk2 : List Str := [
  "puchnąć".data,
  "przycichnąć".data,
  "przęgnąć".data,
  "rymsnąć".data,
  "rypnąć".data,
  "rzadnąć".data,
  "rzednąć".data,
  "sieknąć".data,
  "skrzepnąć".data,
  "słabnąć".data,
  "stęchnąć".data,
  "stęgnąć".data,
  "strzęgnąć".data,
  "stygnąć".data,
  "świrknąć".data,
  "ścichnąć".data,
  "ścierpnąć".data,
  "ślepnąć".data,
  "śmiardnąć".data,
  "śmierdnąć".data,
  "świerknąć".data,
  "tęchnąć".data,
  "twardnąć".data,
  "usechnąć".data,
  "usychnąć".data]

def nDroppingNacVerbsChunk3 : List Str := [
  "wiąznąć".data,
  "więzgnąć".data,
  "więznąć".data,
  "więdnąć".data,
  "wilgnąć".data,
  "wyknąć".data,
  "zbadnąć".data,
  "zdechnąć".data,
  "ziębnąć".data,
  "zmierzchnąć".data,
  "zwiędnąć".data,
  "żółknąć".data]

def nDroppingNacVerbs : List Str :=
  nDroppingNacVerbsChunk0 ++ nDroppingNacVerbsChunk1 ++ nDroppingNacVerbsChunk2 ++ nDroppingNacVerbsChunk3

def mixedNDropNacVerbs : List Str := [
  "buchnąć".data,
  "cuchnąć".data,
  "gęstnąć".data,
  "mierzchnąć".data,
  "niknąć".data,
  "pachnąć".data]

def pascPrefixes : List Str := [
  "do".data,
  "na".data,
  "od".data,
  "o".data,
  "pod".data,
  "po".data,
  "prze".data,
  "przy".data,
  "roz".data,
  "s".data,
  "u".data,
  "w".data,
  "wy".data,
  "za".data,
  "zaprze".data]

def wlecPrefixes : List Str := [
  "do".data,
  "na".data,
  "ob".data,
  "od".data,
  "o".data,
  "pod".data,
  "po".data,
  "prze".data,
  "przy".data,
  "roz".data,
  "u".data,
  "we".data,
  "w".data,
  "wy".data,
  "za".data,
  "ze".data,
  "z".data]

def irregularPastVerbsChunk0 : List (Str × PastT) := [
  ("pójść".data, ⟨"poszedłem".data, "poszłam".data, "poszedłeś".data, "poszłaś".data, "poszedł".data, "poszła".data, "poszło".data, "poszliśmy".data, "poszłyśmy".data, "poszliście".data, "poszłyście".data, "poszli".data, "poszły".data⟩),
  ("obejść".data, ⟨"obszedłem".data, "obeszłam".data, "obszedłeś".data, "obeszłaś".data, "obszedł".data, "obeszła".data, "obeszło".data, "obeszliśmy".data, "obeszłyśmy".data, "obeszliście".data, "obeszłyście".data, "obeszli".data, "obeszły".data⟩),
  ("odejść".data, ⟨"odszedłem".data, "odeszłam".data, "odszedłeś".data, "odeszłaś".data, "odszedł".data, "odeszła".data, "odeszło".data, "odeszliśmy".data, "odeszłyśmy".data, "odeszliście".data, "odeszłyście".data, "odeszli".data, "odeszły".data⟩),
  ("podejść".data, ⟨"podszedłem".data, "podeszłam".data, "podszedłeś".data, "podeszłaś".data, "podszedł".data, "podeszła".data, "podeszło".data, "podeszliśmy".data, "podeszłyśmy".data, "podeszliście".data, "podeszłyście".data, "podeszli".data, "podeszły".data⟩),
  ("nadejść".data, ⟨"nadszedłem".data, "nadeszłam".data, "nadszedłeś".data, "nadeszłaś".data, "nadszedł".data, "nadeszła".data, "nadeszło".data, "nadeszliśmy".data, "nadeszłyśmy".data, "nadeszliście".data, "nadeszłyście".data, "nadeszli".data, "nadeszły".data⟩),
  ("rozejść".data, ⟨"rozszedłem".data, "rozeszłam".data, "rozszedłeś".data, "rozeszłaś".data, "rozszedł".data, "rozeszła".data, "rozeszło".data, "rozeszliśmy".data, "rozeszłyśmy".data, "rozeszliście".data, "rozeszłyście".data, "rozeszli".data, "rozeszły".data⟩),
  ("znaleźć".data, ⟨"znalazłem".data, "znalazłam".data, "znalazłeś".data, "znalazłaś".data, "znalazł".data, "znalazła".data, "znalazło".data, "znaleźliśmy".data, "znalazłyśmy".data, "znaleźliście".data, "znalazłyście".data, "znaleźli".data, "znalazły".data⟩),
  ("odnaleźć".data, ⟨"odnalazłem".data, "odnalazłam".data, "odnalazłeś".data, "odnalazłaś".data, "odnalazł".data, "odnalazła".data, "odnalazło".data, "odnaleźliśmy".data, "odnalazłyśmy".data, "odnaleźliście".data, "odnalazłyście".data, "odnaleźli".data, "odnalazły".data⟩),
  ("wynaleźć".data, ⟨"wynalazłem".data, "wynalazłam".data, "wynalazłeś".data, "wynalazłaś".data, "wynalazł".data, "wynalazła".data, "wynalazło".data, "wynaleźliśmy".data, "wynalazłyśmy".data, "wynaleźliście".data, "wynalazłyście".data, "wynaleźli".data, "wynalazły".data⟩),
  ("sieść".data, ⟨"siadłem".data, "siadłam".data, "siadłeś".data, "siadłaś".data, "siadł".data, "siadła".data, "siadło".data, "siedliśmy".data, "siadłyśmy".data, "siedliście".data, "siadłyście".data, "siedli".data, "siadły".data⟩)]

def irregularPastVerbsChunk1 : List (Str × PastT) := [
  ("osiąść".data, ⟨"osiadłem".data, "osiadłam".data, "osiadłeś".data, "osiadłaś".data, "osiadł".data, "osiadła".data, "osiadło".data, "osiedliśmy".data, "osiadłyśmy".data, "osiedliście".data, "osiadłyście".data, "osiedli".data, "osiadły".data⟩),
  ("posieść".data, ⟨"posiadłem".data, "posiadłam".data, "posiadłeś".data, "posiadłaś".data, "posiadł".data, "posiadła".data, "posiadło".data, "posiedliśmy".data, "posiadłyśmy".data, "posiedliście".data, "posiadłyście".data, "posiedli".data, "posiadły".data⟩),
  ("osieść".data, ⟨"osiadłem".data, "osiadłam".data, "osiadłeś".data, "osiadłaś".data, "osiadł".data, "osiadła".data, "osiadło".data, "osiedliśmy".data, "osiadłyśmy".data, "osiedliście".data, "osiadłyście".data, "osiedli".data, "osiadły".data⟩),
  ("podupaść".data, ⟨"podupadłem".data, "podupadłam".data, "podupadłeś".data, "podupadłaś".data, "podupadł".data, "podupadła".data, "podupadło".data, "podupadliśmy".data, "podupadłyśmy".data, "podupadliście".data, "podupadłyście".data, "podupadli".data, "podupadły".data⟩),
  ("być".data, ⟨"byłem".data, "byłam".data, "byłeś".data, "byłaś".data, "był".data, "była".data, "było".data, "byliśmy".data, "byłyśmy".data, "byliście".data, "byłyście".data, "byli".data, "były".data⟩),
  ("iść".data, ⟨"szedłem".data, "szłam".data, "szedłeś".data, "szłaś".data, "szedł".data, "szła".data, "szło".data, "szliśmy".data, "szłyśmy".data, "szliście".data, "szłyście".data, "szli".data, "szły".data⟩),
  ("jeść".data, ⟨"jadłem".data, "jadłam".data, "jadłeś".data, "jadłaś".data, "jadł".data, "jadła".data, "jadło".data, "jedliśmy".data, "jadłyśmy".data, "jedliście".data, "jadłyście".data, "jedli".data, "jadły".data⟩),
  ("nadojeść".data, ⟨"nadojadłem".data, "nadojadłam".data, "nadojadłeś".data, "nadojadłaś".data, "nadojadł".data, "nadojadła".data, "nadojadło".data, "nadojedliśmy".data, "nadojadłyśmy".data, "nadojedliście".data, "nadojadłyście".data, "nadojedli".data, "nadojadły".data⟩),
  ("wziąć".data, ⟨"wziąłem".data, "wzięłam".data, "wziąłeś".data, "wzięłaś".data, "wziął".data, "wzięła".data, "wzięło".data, "wzięliśmy".data, "wzięłyśmy".data, "wzięliście".data, "wzięłyście".data, "wzięli".data, "wzięły".data⟩),
  ("przedsięwziąć".data, ⟨"przedsięwziąłem".data, "przedsięwzięłam".data, "przedsięwziąłeś".data, "przedsięwzięłaś".data, "przedsięwziął".data, "przedsięwzięła".data, "przedsięwzięło".data, "przedsięwzięliśmy".data, "przedsięwzięłyśmy".data, "przedsięwzięliście".data, "przedsięwzięłyście".data, "przedsięwzięli".data, "przedsięwzięły".data⟩)]

def irregularPastVerbsChunk2 : List (Str × PastT) := [
  ("jąć".data, ⟨"jąłem".data, "jęłam".data, "jąłeś".data, "jęłaś".data, "jął".data, "jęła".data, "jęło".data, "jęliśmy".data, "jęłyśmy".data, "jęliście".data, "jęłyście".data, "jęli".data, "jęły".data⟩),
  ("zdjąć".data, ⟨"zdjąłem".data, "zdjęłam".data, "zdjąłeś".data, "zdjęłaś".data, "zdjął".data, "zdjęła".data, "zdjęło".data, "zdjęliśmy".data, "zdjęłyśmy".data, "zdjęliście".data, "zdjęłyście".data, "zdjęli".data, "zdjęły".data⟩),
  ("rozdjąć".data, ⟨"rozdjąłem".data, "rozdjęłam".data, "rozdjąłeś".data, "rozdjęłaś".data, "rozdjął".data, "rozdjęła".data, "rozdjęło".data, "rozdjęliśmy".data, "rozdjęłyśmy".data, "rozdjęliście".data, "rozdjęłyście".data, "rozdjęli".data, "rozdjęły".data⟩),
  ("miąć".data, ⟨"miąłem".data, "mięłam".data, "miąłeś".data, "mięłaś".data, "miął".data, "mięła".data, "mięło".data, "mięliśmy".data, "mięłyśmy".data, "mięliście".data, "mięłyście".data, "mięli".data, "mięły".data⟩),
  ("nająć".data, ⟨"nająłem".data, "najęłam".data, "nająłeś".data, "najęłaś".data, "najął".data, "najęła".data, "najęło".data, "najęliśmy".data, "najęłyśmy".data, "najęliście".data, "najęłyście".data, "najęli".data, "najęły".data⟩),
  ("dąć".data, ⟨"dąłem".data, "dęłam".data, "dąłeś".data, "dęłaś".data, "dął".data, "dęła".data, "dęło".data, "dęliśmy".data, "dęłyśmy".data, "dęliście".data, "dęłyście".data, "dęli".data, "dęły".data⟩),
  ("ciąć".data, ⟨"ciąłem".data, "cięłam".data, "ciąłeś".data, "cięłaś".data, "ciął".data, "cięła".data, "cięło".data, "cięliśmy".data, "cięłyśmy".data, "cięliście".data, "cięłyście".data, "cięli".data, "cięły".data⟩),
  ("ściąć".data, ⟨"ściąłem".data, "ścięłam".data, "ściąłeś".data, "ścięłaś".data, "ściął".data, "ścięła".data, "ścięło".data, "ścięliśmy".data, "ścięłyśmy".data, "ścięliście".data, "ścięłyście".data, "ścięli".data, "ścięły".data⟩),
  ("giąć".data, ⟨"giąłem".data, "gięłam".data, "giąłeś".data, "gięłaś".data, "giął".data, "gięła".data, "gięło".data, "gięliśmy".data, "gięłyśmy".data, "gięliście".data, "gięłyście".data, "gięli".data, "gięły".data⟩),
  ("piąć".data, ⟨"piąłem".data, "pięłam".data, "piąłeś".data, "pięłaś".data, "piął".data, "pięła".data, "pięło".data, "pięliśmy".data, "pięłyśmy".data, "pięliście".data, "pięłyście".data, "pięli".data, "pięły".data⟩)]

def irregularPastVerbsChunk3 : List (Str × PastT) := [
  ("wspiąć".data, ⟨"wspiąłem".data, "wspięłam".data, "wspiąłeś".data, "wspięłaś".data, "wspiął".data, "wspięła".data, "wspięło".data, "wspięliśmy".data, "wspięłyśmy".data, "wspięliście".data, "wspięłyście".data, "wspięli".data, "wspięły".data⟩),
  ("żąć".data, ⟨"żąłem".data, "żęłam".data, "żąłeś".data, "żęłaś".data, "żął".data, "żęła".data, "żęło".data, "żęliśmy".data, "żęłyśmy".data, "żęliście".data, "żęłyście".data, "żęli".data, "żęły".data⟩),
  ("kląć".data, ⟨"kląłem".data, "klęłam".data, "kląłeś".data, "klęłaś".data, "klął".data, "klęła".data, "klęło".data, "klęliśmy".data, "klęłyśmy".data, "klęliście".data, "klęłyście".data, "klęli".data, "klęły".data⟩),
  ("siąść".data, ⟨"siadłem".data, "siadłam".data, "siadłeś".data, "siadłaś".data, "siadł".data, "siadła".data, "siadło".data, "siedliśmy".data, "siadłyśmy".data, "siedliście".data, "siadłyście".data, "siedli".data, "siadły".data⟩),
  ("kraść".data, ⟨"kradłem".data, "kradłam".data, "kradłeś".data, "kradłaś".data, "kradł".data, "kradła".data, "kradło".data, "kradliśmy".data, "kradłyśmy".data, "kradliście".data, "kradłyście".data, "kradli".data, "kradły".data⟩),
  ("kłaść".data, ⟨"kładłem".data, "kładłam".data, "kładłeś".data, "kładłaś".data, "kładł".data, "kładła".data, "kładło".data, "kładliśmy".data, "kładłyśmy".data, "kładliście".data, "kładłyście".data, "kładli".data, "kładły".data⟩),
  ("prząść".data, ⟨"prządłem".data, "przędłam".data, "prządłeś".data, "przędłaś".data, "prządł".data, "przędła".data, "przędło".data, "przędliśmy".data, "przędłyśmy".data, "przędliście".data, "przędłyście".data, "przędli".data, "przędły".data⟩),
  ("gryźć".data, ⟨"gryzłem".data, "gryzłam".data, "gryzłeś".data, "gryzłaś".data, "gryzł".data, "gryzła".data, "gryzło".data, "gryźliśmy".data, "gryzłyśmy".data, "gryźliście".data, "gryzłyście".data, "gryźli".data, "gryzły".data⟩),
  ("leźć".data, ⟨"lazłem".data, "lazłam".data, "lazłeś".data, "lazłaś".data, "lazł".data, "lazła".data, "lazło".data, "leźliśmy".data, "lazłyśmy".data, "leźliście".data, "lazłyście".data, "leźli".data, "lazły".data⟩),
  ("liźć".data, ⟨"lazłem".data, "lazłam".data, "lazłeś".data, "lazłaś".data, "lazł".data, "lazła".data, "lazło".data, "leźliśmy".data, "lazłyśmy".data, "leźliście".data, "lazłyście".data, "leźli".data, "lazły".data⟩)]

def irregularPastVerbsChunk4 : List (Str × PastT) := [
  ("wieźć".data, ⟨"wiozłem".data, "wiozłam".data, "wiozłeś".data, "wiozłaś".data, "wiózł".data, "wiozła".data, "wiozło".data, "wieźliśmy".data, "wiozłyśmy".data, "wieźliście".data, "wiozłyście".data, "wieźli".data, "wiozły".data⟩),
  ("nieść".data, ⟨"niosłem".data, "niosłam".data, "niosłeś".data, "niosłaś".data, "niósł".data, "niosła".data, "niosło".data, "nieśliśmy".data, "niosłyśmy".data, "nieśliście".data, "niosłyście".data, "nieśli".data, "niosły".data⟩),
  ("pleść".data, ⟨"plotłem".data, "plotłam".data, "plotłeś".data, "plotłaś".data, "plótł".data, "plotła".data, "plotło".data, "pletliśmy".data, "plotłyśmy".data, "pletliście".data, "plotłyście".data, "pletli".data, "plotły".data⟩),
  ("grześć".data, ⟨"grzebłem".data, "grzebłam".data, "grzebłeś".data, "grzebłaś".data, "grzebł".data, "grzebła".data, "grzebło".data, "grzebliśmy".data, "grzebłyśmy".data, "grzebliście".data, "grzebłyście".data, "grzebli".data, "grzebły".data⟩),
  ("tłuc".data, ⟨"tłukłem".data, "tłukłam".data, "tłukłeś".data, "tłukłaś".data, "tłukł".data, "tłukła".data, "tłukło".data, "tłukliśmy".data, "tłukłyśmy".data, "tłukliście".data, "tłukłyście".data, "tłukli".data, "tłukły".data⟩),
  ("przeć".data, ⟨"parłem".data, "parłam".data, "parłeś".data, "parłaś".data, "parł".data, "parła".data, "parło".data, "parliśmy".data, "parłyśmy".data, "parliście".data, "parłyście".data, "parli".data, "parły".data⟩),
  ("wrzeć".data, ⟨"wrzałem".data, "wrzałam".data, "wrzałeś".data, "wrzałaś".data, "wrzał".data, "wrzała".data, "wrzało".data, "wrzeliśmy".data, "wrzałyśmy".data, "wrzeliście".data, "wrzałyście".data, "wrzeli".data, "wrzały".data⟩),
  ("zawrzeć".data, ⟨"zawarłem".data, "zawarłam".data, "zawarłeś".data, "zawarłaś".data, "zawarł".data, "zawarła".data, "zawarło".data, "zawarliśmy".data, "zawarłyśmy".data, "zawarliście".data, "zawarłyście".data, "zawarli".data, "zawarły".data⟩),
  ("wywrzeć".data, ⟨"wywarłem".data, "wywarłam".data, "wywarłeś".data, "wywarłaś".data, "wywarł".data, "wywarła".data, "wywarło".data, "wywarliśmy".data, "wywarłyśmy".data, "wywarliście".data, "wywarłyście".data, "wywarli".data, "wywarły".data⟩),
  ("dowrzeć".data, ⟨"dowarłem".data, "dowarłam".data, "dowarłeś".data, "dowarłaś".data, "dowarł".data, "dowarła".data, "dowarło".data, "dowarliśmy".data, "dowarłyśmy".data, "dowarliście".data, "dowarłyście".data, "dowarli".data, "dowarły".data⟩)]

def irregularPastVerbsChunk5 : List (Str × PastT) := [
  ("zewrzeć".data, ⟨"zwarłem".data, "zwarłam".data, "zwarłeś".data, "zwarłaś".data, "zwarł".data, "zwarła".data, "zwarło".data, "zwarliśmy".data, "zwarłyśmy".data, "zwarliście".data, "zwarłyście".data, "zwarli".data, "zwarły".data⟩),
  ("odewrzeć".data, ⟨"odewarłem".data, "odewarłam".data, "odewarłeś".data, "odewarłaś".data, "odewarł".data, "odewarła".data, "odewarło".data, "odewarliśmy".data, "odewarłyśmy".data, "odewarliście".data, "odewarłyście".data, "odewarli".data, "odewarły".data⟩),
  ("trzeć".data, ⟨"tarłem".data, "tarłam".data, "tarłeś".data, "tarłaś".data, "tarł".data, "tarła".data, "tarło".data, "tarliśmy".data, "tarłyśmy".data, "tarliście".data, "tarłyście".data, "tarli".data, "tarły".data⟩),
  ("drzeć".data, ⟨"darłem".data, "darłam".data, "darłeś".data, "darłaś".data, "darł".data, "darła".data, "darło".data, "darliśmy".data, "darłyśmy".data, "darliście".data, "darłyście".data, "darli".data, "darły".data⟩),
  ("mrzeć".data, ⟨"marłem".data, "marłam".data, "marłeś".data, "marłaś".data, "marł".data, "marła".data, "marło".data, "marliśmy".data, "marłyśmy".data, "marliście".data, "marłyście".data, "marli".data, "marły".data⟩),
  ("umrzeć".data, ⟨"umarłem".data, "umarłam".data, "umarłeś".data, "umarłaś".data, "umarł".data, "umarła".data, "umarło".data, "umarliśmy".data, "umarłyśmy".data, "umarliście".data, "umarłyście".data, "umarli".data, "umarły".data⟩),
  ("mleć".data, ⟨"mełłem".data, "mełłam".data, "mełłeś".data, "mełłaś".data, "mełł".data, "mełła".data, "mełło".data, "mełliśmy".data, "mełłyśmy".data, "mełliście".data, "mełłyście".data, "mełli".data, "mełły".data⟩),
  ("pleć".data, ⟨"pełłem".data, "pełłam".data, "pełłeś".data, "pełłaś".data, "pełł".data, "pełła".data, "pełło".data, "pełliśmy".data, "pełłyśmy".data, "pełliście".data, "pełłyście".data, "pełli".data, "pełły".data⟩),
  ("żec".data, ⟨"żegłem".data, "żegłam".data, "żegłeś".data, "żegłaś".data, "żegł".data, "żegła".data, "żegło".data, "żegliśmy".data, "żegłyśmy".data, "żegliście".data, "żegłyście".data, "żegli".data, "żegły".data⟩),
  ("podżec".data, ⟨"podeżgłem".data, "podeżgłam".data, "podeżgłeś".data, "podeżgłaś".data, "podżegł".data, "podeżgła".data, "podeżgło".data, "podeżgliśmy".data, "podeżgłyśmy".data, "podeżgliście".data, "podeżgłyście".data, "podeżgli".data, "podeżgły".data⟩)]

def irregularPastVerbsChunk6 : List (Str × PastT) := [
  ("rozżec".data, ⟨"rozeżgłem".data, "rozeżgłam".data, "rozeżgłeś".data, "rozeżgłaś".data, "rozżegł".data, "rozeżgła".data, "rozeżgło".data, "rozeżgliśmy".data, "rozeżgłyśmy".data, "rozeżgliście".data, "rozeżgłyście".data, "rozeżgli".data, "rozeżgły".data⟩),
  ("zżec".data, ⟨"zeżgłem".data, "zeżgłam".data, "zeżgłeś".data, "zeżgłaś".data, "zżegł".data, "zeżgła".data, "zeżgło".data, "zeżgliśmy".data, "zeżgłyśmy".data, "zeżgliście".data, "zeżgłyście".data, "zeżgli".data, "zeżgły".data⟩),
  ("spostrzec".data, ⟨"spostrzegłem".data, "spostrzegłam".data, "spostrzegłeś".data, "spostrzegłaś".data, "spostrzegł".data, "spostrzegła".data, "spostrzegło".data, "spostrzegliśmy".data, "spostrzegłyśmy".data, "spostrzegliście".data, "spostrzegłyście".data, "spostrzegli".data, "spostrzegły".data⟩),
  ("zapobiec".data, ⟨"zapobiegłem".data, "zapobiegłam".data, "zapobiegłeś".data, "zapobiegłaś".data, "zapobiegł".data, "zapobiegła".data, "zapobiegło".data, "zapobiegliśmy".data, "zapobiegłyśmy".data, "zapobiegliście".data, "zapobiegłyście".data, "zapobiegli".data, "zapobiegły".data⟩),
  ("współubiec".data, ⟨"współubiegłem".data, "współubiegłam".data, "współubiegłeś".data, "współubiegłaś".data, "współubiegł".data, "współubiegła".data, "współubiegło".data, "współubiegliśmy".data, "współubiegłyśmy".data, "współubiegliście".data, "współubiegłyście".data, "współubiegli".data, "współubiegły".data⟩),
  ("sprzeć".data, ⟨"sprzałem".data, "sprzałam".data, "sprzałeś".data, "sprzałaś".data, "sprzał".data, "sprzała".data, "sprzało".data, "sprzeliśmy".data, "sprzałyśmy".data, "sprzeliście".data, "sprzałyście".data, "sprzeli".data, "sprzały".data⟩),
  ("zeprzeć".data, ⟨"sparłem".data, "sparłam".data, "sparłeś".data, "sparłaś".data, "sparł".data, "sparła".data, "sparło".data, "sparliśmy".data, "sparłyśmy".data, "sparliście".data, "sparłyście".data, "sparli".data, "sparły".data⟩),
  ("zetrzeć".data, ⟨"starłem".data, "starłam".data, "starłeś".data, "starłaś".data, "starł".data, "starła".data, "starło".data, "starliśmy".data, "starłyśmy".data, "starliście".data, "starłyście".data, "starli".data, "starły".data⟩),
  ("wesprzeć".data, ⟨"wsparłem".data, "wsparłam".data, "wsparłeś".data, "wsparłaś".data, "wsparł".data, "wsparła".data, "wsparło".data, "wsparliśmy".data, "wsparłyśmy".data, "wsparliście".data, "wsparłyście".data, "wsparli".data, "wsparły".data⟩),
  ("wetrzeć".data, ⟨"wtarłem".data, "wtarłam".data, "wtarłeś".data, "wtarłaś".data, "wtarł".data, "wtarła".data, "wtarło".data, "wtarliśmy".data, "wtarłyśmy".data, "wtarliście".data, "wtarłyście".data, "wtarli".data, "wtarły".data⟩)]

def irregularPastVerbsChunk7 : List (Str × PastT) := [
  ("otworzyć".data, ⟨"otwarłem".data, "otwarłam".data, "otwarłeś".data, "otwarłaś".data, "otwarł".data, "otwarła".data, "otwarło".data, "otwarliśmy".data, "otwarłyśmy".data, "otwarliście".data, "otwarłyście".data, "otwarli".data, "otwarły".data⟩),
  ("przetworzyć".data, ⟨"przetwarłem".data, "przetwarłam".data, "przetwarłeś".data, "przetwarłaś".data, "przetwarł".data, "przetwarła".data, "przetwarło".data, "przetwarliśmy".data, "przetwarłyśmy".data, "przetwarliście".data, "przetwarłyście".data, "przetwarli".data, "przetwarły".data⟩),
  ("roztworzyć".data, ⟨"roztworzył".data, "roztwarła".data, "roztworzyłeś".data, "roztwarłaś".data, "roztworzył".data, "roztwarła".data, "roztworzyło".data, "roztworzyli".data, "roztworzyły".data, "roztworzyliście".data, "roztworzyłyście".data, "roztworzyli".data, "roztworzyły".data⟩),
  ("obeprać".data, ⟨"obeprałem".data, "obeprałam".data, "obeprałeś".data, "obeprałaś".data, "obeprał".data, "obeprała".data, "obeprało".data, "obepraliśmy".data, "obeprałyśmy".data, "obepraliście".data, "obeprałyście".data, "obeprali".data, "obeprały".data⟩),
  ("odeprać".data, ⟨"odeprałem".data, "odeprałam".data, "odeprałeś".data, "odeprałaś".data, "odeprał".data, "odeprała".data, "odeprało".data, "odepraliśmy".data, "odeprałyśmy".data, "odepraliście".data, "odeprałyście".data, "odeprali".data, "odeprały".data⟩),
  ("podeprać".data, ⟨"podeprałem".data, "podeprałam".data, "podeprałeś".data, "podeprałaś".data, "podeprał".data, "podeprała".data, "podeprało".data, "podepraliśmy".data, "podeprałyśmy".data, "podepraliście".data, "podeprałyście".data, "podeprali".data, "podeprały".data⟩),
  ("wejść".data, ⟨"wszedłem".data, "weszłam".data, "wszedłeś".data, "weszłaś".data, "wszedł".data, "weszła".data, "weszło".data, "weszliśmy".data, "weszłyśmy".data, "weszliście".data, "weszłyście".data, "weszli".data, "weszły".data⟩),
  ("wznijść".data, ⟨"wzeszedłem".data, "wzeszłam".data, "wzeszedłeś".data, "wzeszłaś".data, "wzeszedł".data, "wzeszła".data, "wzeszło".data, "wzeszliśmy".data, "wzeszłyśmy".data, "wzeszliście".data, "wzeszłyście".data, "wzeszli".data, "wzeszły".data⟩),
  ("żreć".data, ⟨"żarłem".data, "żarłam".data, "żarłeś".data, "żarłaś".data, "żarł".data, "żarła".data, "żarło".data, "żarliśmy".data, "żarłyśmy".data, "żarliście".data, "żarłyście".data, "żarli".data, "żarły".data⟩),
  ("brać".data, ⟨"brałem".data, "brałam".data, "brałeś".data, "brałaś".data, "brał".data, "brała".data, "brało".data, "braliśmy".data, "brałyśmy".data, "braliście".data, "brałyście".data, "brali".data, "brały".data⟩)]

def irregularPastVerbsChunk8 : List (Str × PastT) := [
  ("prać".data, ⟨"prałem".data, "prałam".data, "prałeś".data, "prałaś".data, "prał".data, "prała".data, "prało".data, "praliśmy".data, "prałyśmy".data, "praliście".data, "prałyście".data, "prali".data, "prały".data⟩),
  ("dać".data, ⟨"dałem".data, "dałam".data, "dałeś".data, "dałaś".data, "dał".data, "dała".data, "dało".data, "daliśmy".data, "dałyśmy".data, "daliście".data, "dałyście".data, "dali".data, "dały".data⟩),
  ("stać".data, ⟨"stałem".data, "stałam".data, "stałeś".data, "stałaś".data, "stał".data, "stała".data, "stało".data, "staliśmy".data, "stałyśmy".data, "staliście".data, "stałyście".data, "stali".data, "stały".data⟩),
  ("mieć".data, ⟨"miałem".data, "miałam".data, "miałeś".data, "miałaś".data, "miał".data, "miała".data, "miało".data, "mieliśmy".data, "miałyśmy".data, "mieliście".data, "miałyście".data, "mieli".data, "miały".data⟩),
  ("chcieć".data, ⟨"chciałem".data, "chciałam".data, "chciałeś".data, "chciałaś".data, "chciał".data, "chciała".data, "chciało".data, "chcieliśmy".data, "chciałyśmy".data, "chcieliście".data, "chciałyście".data, "chcieli".data, "chciały".data⟩),
  ("wiedzieć".data, ⟨"wiedziałem".data, "wiedziałam".data, "wiedziałeś".data, "wiedziałaś".data, "wiedział".data, "wiedziała".data, "wiedziało".data, "wiedzieliśmy".data, "wiedziałyśmy".data, "wiedzieliście".data, "wiedziałyście".data, "wiedzieli".data, "wiedziały".data⟩),
  ("siedzieć".data, ⟨"siedziałem".data, "siedziałam".data, "siedziałeś".data, "siedziałaś".data, "siedział".data, "siedziała".data, "siedziało".data, "siedzieliśmy".data, "siedziałyśmy".data, "siedzieliście".data, "siedziałyście".data, "siedzieli".data, "siedziały".data⟩),
  ("widzieć".data, ⟨"widziałem".data, "widziałam".data, "widziałeś".data, "widziałaś".data, "widział".data, "widziała".data, "widziało".data, "widzieliśmy".data, "widziałyśmy".data, "widzieliście".data, "widziałyście".data, "widzieli".data, "widziały".data⟩),
  ("słyszeć".data, ⟨"słyszałem".data, "słyszałam".data, "słyszałeś".data, "słyszałaś".data, "słyszał".data, "słyszała".data, "słyszało".data, "słyszeliśmy".data, "słyszałyśmy".data, "słyszeliście".data, "słyszałyście".data, "słyszeli".data, "słyszały".data⟩),
  ("musieć".data, ⟨"musiałem".data, "musiałam".data, "musiałeś".data, "musiałaś".data, "musiał".data, "musiała".data, "musiało".data, "musieliśmy".data, "musiałyśmy".data, "musieliście".data, "musiałyście".data, "musieli".data, "musiały".data⟩)]

def irregularPastVerbsChunk9 : List (Str × PastT) := [
  ("móc".data, ⟨"mogłem".data, "mogłam".data, "mogłeś".data, "mogłaś".data, "mógł".data, "mogła".data, "mogło".data, "mogliśmy".data, "mogłyśmy".data, "mogliście".data, "mogłyście".data, "mogli".data, "mogły".data⟩),
  ("biec".data, ⟨"biegłem".data, "biegłam".data, "biegłeś".data, "biegłaś".data, "biegł".data, "biegła".data, "biegło".data, "biegliśmy".data, "biegłyśmy".data, "biegliście".data, "biegłyście".data, "biegli".data, "biegły".data⟩),
  ("lec".data, ⟨"ległem".data, "ległam".data, "ległeś".data, "ległaś".data, "legł".data, "legła".data, "legło".data, "legliśmy".data, "ległyśmy".data, "legliście".data, "ległyście".data, "legli".data, "legły".data⟩),
  ("rzec".data, ⟨"rzekłem".data, "rzekłam".data, "rzekłeś".data, "rzekłaś".data, "rzekł".data, "rzekła".data, "rzekło".data, "rzekliśmy".data, "rzekłyśmy".data, "rzekliście".data, "rzekłyście".data, "rzekli".data, "rzekły".data⟩),
  ("ciec".data, ⟨"ciekłem".data, "ciekłam".data, "ciekłeś".data, "ciekłaś".data, "ciekł".data, "ciekła".data, "ciekło".data, "ciekliśmy".data, "ciekłyśmy".data, "ciekliście".data, "ciekłyście".data, "ciekli".data, "ciekły".data⟩),
  ("strzec".data, ⟨"strzegłem".data, "strzegłam".data, "strzegłeś".data, "strzegłaś".data, "strzegł".data, "strzegła".data, "strzegło".data, "strzegliśmy".data, "strzegłyśmy".data, "strzegliście".data, "strzegłyście".data, "strzegli".data, "strzegły".data⟩),
  ("przesiąc".data, ⟨"przesiąkłem".data, "przesiąkłam".data, "przesiąkłeś".data, "przesiąkłaś".data, "przesiąkł".data, "przesiąkła".data, "przesiąkło".data, "przesiąkliśmy".data, "przesiąkłyśmy".data, "przesiąkliście".data, "przesiąkłyście".data, "przesiąkli".data, "przesiąkły".data⟩),
  ("schnąć".data, ⟨"schłem".data, "schłam".data, "schłeś".data, "schłaś".data, "sechł".data, "schła".data, "schło".data, "schliśmy".data, "schłyśmy".data, "schliście".data, "schłyście".data, "schli".data, "schły".data⟩),
  ("przysięgnąć".data, ⟨"przysiągłem".data, "przysięgłam".data, "przysiągłeś".data, "przysięgłaś".data, "przysiągł".data, "przysięgła".data, "przysięgło".data, "przysięgliśmy".data, "przysięgłyśmy".data, "przysięgliście".data, "przysięgłyście".data, "przysięgli".data, "przysięgły".data⟩),
  ("piec".data, ⟨"piekłem".data, "piekłam".data, "piekłeś".data, "piekłaś".data, "piekł".data, "piekła".data, "piekło".data, "piekliśmy".data, "piekłyśmy".data, "piekliście".data, "piekłyście".data, "piekli".data, "piekły".data⟩)]

def irregularPastVerbsChunk10 : List (Str × PastT) := [
  ("usiąść".data, ⟨"usiadłem".data, "usiadłam".data, "usiadłeś".data, "usiadłaś".data, "usiadł".data, "usiadła".data, "usiadło".data, "usiedliśmy".data, "usiadłyśmy".data, "usiedliście".data, "usiadłyście".data, "usiedli".data, "usiadły".data⟩),
  ("wysieść".data, ⟨"wysiadłem".data, "wysiadłam".data, "wysiadłeś".data, "wysiadłaś".data, "wysiadł".data, "wysiadła".data, "wysiadło".data, "wysiedliśmy".data, "wysiadłyśmy".data, "wysiedliście".data, "wysiadłyście".data, "wysiedli".data, "wysiadły".data⟩),
  ("zsieść".data, ⟨"zsiadłem".data, "zsiadłam".data, "zsiadłeś".data, "zsiadłaś".data, "zsiadł".data, "zsiadła".data, "zsiadło".data, "zsiedliśmy".data, "zsiadłyśmy".data, "zsiedliście".data, "zsiadłyście".data, "zsiedli".data, "zsiadły".data⟩),
  ("rosnąć".data, ⟨"rosłem".data, "rosłam".data, "rosłeś".data, "rosłaś".data, "rósł".data, "rosła".data, "rosło".data, "rośliśmy".data, "rosłyśmy".data, "rośliście".data, "rosłyście".data, "rośli".data, "rosły".data⟩),
  ("rość".data, ⟨"rosłem".data, "rosłam".data, "rosłeś".data, "rosłaś".data, "rósł".data, "rosła".data, "rosło".data, "rośliśmy".data, "rosłyśmy".data, "rośliście".data, "rosłyście".data, "rośli".data, "rosły".data⟩)]

def irregularPastVerbs : List (Str × PastT) :=
  irregularPastVerbsChunk0 ++ irregularPastVerbsChunk1 ++ irregularPastVerbsChunk2 ++ irregularPastVerbsChunk3 ++ irregularPastVerbsChunk4 ++ irregularPastVerbsChunk5 ++ irregularPastVerbsChunk6 ++ irregularPastVerbsChunk7 ++ irregularPastVerbsChunk8 ++ irregularPastVerbsChunk9 ++ irregularPastVerbsChunk10

def pastPrefixableVerbsChunk0 : List Str := [
  "być".data,
  "iść".data,
  "jeść".data,
  "brać".data,
  "prać".data,
  "jąć".data,
  "dąć".data,
  "ciąć".data,
  "giąć".data,
  "piąć".data,
  "miąć".data,
  "nająć".data,
  "żąć".data,
  "kląć".data,
  "wziąć".data,
  "siąść".data,
  "paść".data,
  "kraść".data,
  "kłaść".data,
  "prząść".data,
  "gryźć".data,
  "leźć".data,
  "wieźć".data,
  "nieść".data,
  "pleść".data]

def pastPrefixableVerbsChunk1 : List Str := [
  "grześć".data,
  "tłuc".data,
  "przeć".data,
  "wrzeć".data,
  "trzeć".data,
  "drzeć".data,
  "mrzeć".data,
  "żreć".data,
  "dać".data,
  "stać".data,
  "mieć".data,
  "wiedzieć".data,
  "siedzieć".data,
  "widzieć".data,
  "biec".data,
  "lec".data,
  "rzec".data,
  "ciec".data,
  "strzec".data,
  "piec".data,
  "wlec".data,
  "rosnąć".data,
  "rość".data,
  "schnąć".data,
  "przysięgnąć".data]

def pastPrefixableVerbsChunk2 : List Str := [
  "umrzeć".data,
  "mleć".data,
  "pleć".data,
  "żec".data]

def pastPrefixableVerbs : List Str :=
  pastPrefixableVerbsChunk0 ++ pastPrefixableVerbsChunk1 ++ pastPrefixableVerbsChunk2
/-! ## Present-tense engine (`pkg/verb/verb.go`, `pkg/verb/irregular.go`) -/

/-- `softConsonants` from `verb.go`. -/
def softConsonants : List Str :=
  [['s','z','c','z'], ['d','ż'], ['d','ź'],
   ['s','z'], ['ż'], ['c','z'], ['r','z'], ['d','z'],
   ['ś'], ['ź'], ['ć'], ['ń'], ['l'], ['j']]

/-- `endsInSoftConsonant` from `verb.go`. -/
def endsInSoftConsonant (stem : Str) : Bool :=
  softConsonants.any (fun soft => endsWith stem soft)

/-- `endsInNonSoftenableC` from `verb.go`. -/
def endsInNonSoftenableC (stem : Str) : Bool :=
  if !endsWith stem "c".data then false
  else if endsWith stem "śc".data || endsWith stem "źc".data then false
  else true

/-- `softeningMap` from `verb.go`. -/
def softeningMap : List (Str × Str) :=
  [(['ś','c'], ['s','z','c','z']), (['ź','c'], ['ż','d','ż']), (['s','t'], ['s','z','c','z']),
   (['s'], ['s','z']), (['z'], ['ż']), (['ź'], ['ż']),
   (['d'], ['d','z']), (['t'], ['c']), (['c','h'], ['s','z']),
   (['k'], ['c','z']), (['g'], ['ż']), (['r'], ['r','z']),
   (['s','ł'], ['ś','l']), (['z','ł'], ['ź','l']), (['s','n'], ['ś','n']),
   (['z','n'], ['ź','n'])]

/-- `applySoftening` from `verb.go`: `none` models the Go `("", false)` result. -/
def applySoftening (stem : Str) : Option Str :=
  if endsInSoftConsonant stem then none
  else if ([['c','z'], ['s','z'], ['ż'], ['r','z'], ['d','z']] : List Str).any
      (fun soft => endsWith stem (soft ++ ['n'])) then none
  else
    match ([['ś','c'], ['ź','c'], ['s','t'], ['s','ł'], ['z','ł'], ['s','n'], ['z','n'],
            ['c','h']] : List Str).findSome? (fun p =>
        if endsWith stem p then
          (lookupTbl softeningMap p).map (fun soft => trimSuf stem p ++ soft)
        else none) with
    | some r => some r
    | none =>
      ([['s'], ['z'], ['ź'], ['d'], ['t'], ['k'], ['g'],
        ['r']] : List Str).findSome? (fun p =>
        if endsWith stem p then
          (lookupTbl softeningMap p).map (fun soft => trimSuf stem p ++ soft)
        else none)

/-- Whether the second-from-last code point is `k` or `p` (the cluster test
inside `applySofteningForVN`). -/
def secondFromEndKP (stem : Str) : Bool :=
  match stem.reverse with
  | _ :: b :: _ => b = 'k' || b = 'p'
  | _ => false

/-- `applySofteningForVN` from `verbal_noun.go`: like the present-tense
softening, but `s` in a `ks`/`ps` cluster does not soften. -/
def applySofteningForVN (stem : Str) : Option Str :=
  if endsInSoftConsonant stem then none
  else if endsWith stem ['s'] && secondFromEndKP stem then none
  else applySoftening stem

/-- `presentEEsz` from `verb.go`. -/
def presentEEsz (stem : Str) : PresentT :=
  ⟨stem ++ "ę".data, stem ++ "esz".data, stem ++ "e".data,
   stem ++ "emy".data, stem ++ "ecie".data, stem ++ "ą".data⟩

/-- `presentIEIesz` from `verb.go`. -/
def presentIEIesz (stem : Str) : PresentT :=
  ⟨stem ++ "ię".data, stem ++ "iesz".data, stem ++ "ie".data,
   stem ++ "iemy".data, stem ++ "iecie".data, stem ++ "ią".data⟩

mutual

/-- The prefix loop of `canStripAllPrefixes` from `verb.go`, by well-founded
recursion on the string length; the `p ≠ []` and `s ≠ []` conjuncts in the
guard are redundant at every call site (the entries of `verbalPrefixes` are
non-empty and a non-empty prefix never begins an empty string) and only
feed the termination argument. -/
def stripLoop (s : Str) (ps : List Str) : Bool :=
  match ps with
  | [] => false
  | p :: rest =>
    (if _h : beginsWith s p = true ∧ p ≠ [] ∧ s ≠ [] then
      canStripAllPrefixes (s.drop p.length)
    else false)
    || stripLoop s rest
termination_by (s.length, ps.length)
decreasing_by
  · have hp : 0 < p.length := List.length_pos.mpr _h.2.1
    have hs : 0 < s.length := List.length_pos.mpr _h.2.2
    apply Prod.Lex.left
    simp only [List.length_drop]
    omega
  · apply Prod.Lex.right
    simp only [List.length_cons]
    omega

/-- `canStripAllPrefixes` from `verb.go`: true iff the string is a
concatenation of known verbal prefixes. -/
def canStripAllPrefixes (s : Str) : Bool :=
  if s = [] then true
  else stripLoop s verbalPrefixes
termination_by (s.length, verbalPrefixes.length + 1)
decreasing_by
  apply Prod.Lex.right
  omega

end

/-- `isPrefixedBywac` from `verb.go`. -/
def isPrefixedBywac (inf : Str) : Bool :=
  let base := trimSuf inf "bywać".data
  if base = [] then true else canStripAllPrefixes base

/-- `isPrefixedMywac` from `verb.go`. -/
def isPrefixedMywac (inf : Str) : Bool :=
  let base := trimSuf inf "mywać".data
  if base = [] then true else canStripAllPrefixes base

/-- `isPrefixedRywac` from `verb.go`. -/
def isPrefixedRywac (inf : Str) : Bool :=
  if endsWith inf "grywać".data || endsWith inf "krywać".data ||
     endsWith inf "srywać".data || endsWith inf "drywać".data then true
  else
    let base := trimSuf inf "rywać".data
    if base = [] then true else canStripAllPrefixes base

/-- `isPrefixedZywac` from `verb.go`. -/
def isPrefixedZywac (inf : Str) : Bool :=
  let base := trimSuf inf "zywać".data
  if base = [] then true else canStripAllPrefixes base

/-- `usesYwacWamPattern` from `verb.go` (the `stem` parameter is unused there too). -/
def usesYwacWamPattern (inf _stem : Str) : Bool :=
  if endsWith inf "bywać".data then isPrefixedBywac inf
  else if endsWith inf "mywać".data then isPrefixedMywac inf
  else if endsWith inf "rywać".data then isPrefixedRywac inf
  else if endsWith inf "ływać".data then true
  else if endsWith inf "żywać".data then true
  else if endsWith inf "czywać".data then true
  else if endsWith inf "szywać".data then true
  else if endsWith inf "zywać".data then isPrefixedZywac inf
  else false

/-- `heuristicOwac` from `verb.go`. -/
def heuristicOwac (inf : Str) : Option PresentT :=
  if !endsWith inf "ować".data then none
  else
    let stem := trimSuf inf "ować".data
    some ⟨stem ++ "uję".data, stem ++ "ujesz".data, stem ++ "uje".data,
          stem ++ "ujemy".data, stem ++ "ujecie".data, stem ++ "ują".data⟩

/-- `heuristicYwacIwac` from `verb.go`. -/
def heuristicYwacIwac (inf : Str) : Option PresentT :=
  let stem? : Option Str :=
    if endsWith inf "ywać".data then some (trimSuf inf "ywać".data)
    else if endsWith inf "iwać".data then some (trimSuf inf "iwać".data)
    else none
  match stem? with
  | none => none
  | some stem =>
    if usesYwacWamPattern inf stem then
      let fullStem := trimSuf inf "ć".data
      some ⟨fullStem ++ "m".data, fullStem ++ "sz".data, fullStem,
            fullStem ++ "my".data, fullStem ++ "cie".data, fullStem ++ "ją".data⟩
    else
      some ⟨stem ++ "uję".data, stem ++ "ujesz".data, stem ++ "uje".data,
            stem ++ "ujemy".data, stem ++ "ujecie".data, stem ++ "ują".data⟩

/-- `heuristicAwac` from `verb.go`. -/
def heuristicAwac (inf : Str) : Option PresentT :=
  if !endsWith inf "awać".data then none
  else if endsWith inf "ywać".data || endsWith inf "iwać".data then none
  else
    let stem := trimSuf inf "wać".data
    some ⟨stem ++ "ję".data, stem ++ "jesz".data, stem ++ "je".data,
          stem ++ "jemy".data, stem ++ "jecie".data, stem ++ "ją".data⟩

/-- `heuristicOtac` from `verb.go`. -/
def heuristicOtac (inf : Str) : Option PresentT :=
  if !endsWith inf "otać".data then none
  else
    let stem := trimSuf inf "tać".data
    some ⟨stem ++ "czę".data, stem ++ "cesz".data, stem ++ "ce".data,
          stem ++ "cemy".data, stem ++ "cecie".data, stem ++ "czą".data⟩

/-- `heuristicEptac` from `verb.go`. -/
def heuristicEptac (inf : Str) : Option PresentT :=
  if !endsWith inf "ptać".data then none
  else
    let stem := trimSuf inf "tać".data
    some ⟨stem ++ "czę".data, stem ++ "cesz".data, stem ++ "ce".data,
          stem ++ "cemy".data, stem ++ "cecie".data, stem ++ "czą".data⟩

/-- `heuristicLamac` from `verb.go`. -/
def heuristicLamac (inf : Str) : Option PresentT :=
  if !endsWith inf "łamać".data && !endsWith inf "kłamać".data then none
  else
    let stem := trimSuf inf "ać".data
    some ⟨stem ++ "ię".data, stem ++ "iesz".data, stem ++ "ie".data,
          stem ++ "iemy".data, stem ++ "iecie".data, stem ++ "ią".data⟩

/-- `heuristicAcAlternating` from `verb.go`. -/
def heuristicAcAlternating (inf : Str) : Option PresentT :=
  if !endsWith inf "ać".data then none
  else if endsWith inf "ować".data || endsWith inf "ywać".data ||
          endsWith inf "iwać".data || endsWith inf "awać".data ||
          endsWith inf "otać".data then none
  else
    let stem := trimSuf inf "ać".data
    if endsWith stem "p".data then some (presentIEIesz stem)
    else if endsWith stem "b".data then some (presentIEIesz stem)
    else none

/-- `softenBeforeN` from `verb.go`. -/
def softenBeforeN (stem : Str) : Str :=
  if endsWith stem "sn".data then trimSuf stem "sn".data ++ "śn".data
  else if endsWith stem "zn".data then
    match stem.reverse with
    | _ :: _ :: v :: _ =>
      if v = 'i' ∨ v = 'ę' then trimSuf stem "zn".data ++ "źn".data else stem
    | _ => stem
  else stem

/-- `heuristicNac` from `verb.go`. -/
def heuristicNac (inf : Str) : Option PresentT :=
  if !endsWith inf "nąć".data then none
  else
    let stem := trimSuf inf "ąć".data
    let softStem := softenBeforeN stem
    some ⟨stem ++ "ę".data, softStem ++ "iesz".data, softStem ++ "ie".data,
          softStem ++ "iemy".data, softStem ++ "iecie".data, stem ++ "ą".data⟩

/-- `heuristicAsc` from `verb.go`. -/
def heuristicAsc (inf : Str) : Option PresentT :=
  if !endsWith inf "ąść".data then none
  else if endsWith inf "siąść".data then
    let stem := trimSuf inf "ąść".data
    some ⟨stem ++ "ądę".data, stem ++ "ądziesz".data, stem ++ "ądzie".data,
          stem ++ "ądziemy".data, stem ++ "ądziecie".data, stem ++ "ądą".data⟩
  else if endsWith inf "trząść".data then
    let stem := trimSuf inf "ąść".data
    some ⟨stem ++ "ęsę".data, stem ++ "ęsiesz".data, stem ++ "ęsie".data,
          stem ++ "ęsiemy".data, stem ++ "ęsiecie".data, stem ++ "ęsą".data⟩
  else if endsWith inf "prząść".data then
    let stem := trimSuf inf "ąść".data
    some ⟨stem ++ "ędę".data, stem ++ "ędziesz".data, stem ++ "ędzie".data,
          stem ++ "ędziemy".data, stem ++ "ędziecie".data, stem ++ "ędą".data⟩
  else none

/-- `heuristicJsc` from `verb.go`. -/
def heuristicJsc (inf : Str) : Option PresentT :=
  if !endsWith inf "jść".data then none
  else
    let pre := trimSuf inf "jść".data
    if pre = [] then none
    else
      some ⟨pre ++ "jdę".data, pre ++ "jdziesz".data, pre ++ "jdzie".data,
            pre ++ "jdziemy".data, pre ++ "jdziecie".data, pre ++ "jdą".data⟩

/-- `heuristicByc` from `verb.go`. -/
def heuristicByc (inf : Str) : Option PresentT :=
  if !endsWith inf "być".data then none
  else
    let pre := trimSuf inf "być".data
    if pre = [] then none
    else
      some ⟨pre ++ "będę".data, pre ++ "będziesz".data, pre ++ "będzie".data,
            pre ++ "będziemy".data, pre ++ "będziecie".data, pre ++ "będą".data⟩

/-- `heuristicCiac` from `verb.go`. -/
def heuristicCiac (inf : Str) : Option PresentT :=
  if !endsWith inf "ciąć".data then none
  else
    let pre := trimSuf inf "ciąć".data
    if pre = [] then none
    else if pre = "ś".data then
      some ⟨"zetnę".data, "zetniesz".data, "zetnie".data,
            "zetniemy".data, "zetniecie".data, "zetną".data⟩
    else
      let lastChar := pre.getLastD ' '
      let needsE := !(lastChar ∈ (['a', 'e', 'i', 'o', 'u', 'y', 'ó'] : List Char))
      let stem := if needsE then pre ++ "etn".data else pre ++ "tn".data
      some ⟨stem ++ "ę".data, stem ++ "iesz".data, stem ++ "ie".data,
            stem ++ "iemy".data, stem ++ "iecie".data, stem ++ "ą".data⟩

/-- `heuristicGiac` from `verb.go`. -/
def heuristicGiac (inf : Str) : Option PresentT :=
  if !endsWith inf "giąć".data then none
  else
    let pre := trimSuf inf "iąć".data
    some ⟨pre ++ "nę".data, pre ++ "niesz".data, pre ++ "nie".data,
          pre ++ "niemy".data, pre ++ "niecie".data, pre ++ "ną".data⟩

/-- `heuristicPasc` from `verb.go`. -/
def heuristicPasc (inf : Str) : Option PresentT :=
  if !endsWith inf "paść".data then none
  else
    let pre := trimSuf inf "ść".data
    some ⟨pre ++ "dnę".data, pre ++ "dniesz".data, pre ++ "dnie".data,
          pre ++ "dniemy".data, pre ++ "dniecie".data, pre ++ "dną".data⟩

/-- `heuristicStacNastal` from `verb.go`. -/
def heuristicStacNastal (inf : Str) : Option PresentT :=
  if !endsWith inf "stać".data then none
  else
    let pre := trimSuf inf "stać".data
    if pre = [] then none
    else if !memStr stacValidPrefixes pre then none
    else
      some ⟨pre ++ "stanę".data, pre ++ "staniesz".data, pre ++ "stanie".data,
            pre ++ "staniemy".data, pre ++ "staniecie".data, pre ++ "staną".data⟩

/-- `heuristicBiec` from `verb.go`. -/
def heuristicBiec (inf : Str) : Option PresentT :=
  if !endsWith inf "biec".data then none
  else
    let stem := trimSuf inf "c".data
    some ⟨stem ++ "gnę".data, stem ++ "gniesz".data, stem ++ "gnie".data,
          stem ++ "gniemy".data, stem ++ "gniecie".data, stem ++ "gną".data⟩

/-- `heuristicSlac` from `verb.go`. -/
def heuristicSlac (inf : Str) : Option PresentT :=
  if !endsWith inf "słać".data then none
  else
    let pre := trimSuf inf "słać".data
    some ⟨pre ++ "ścielę".data, pre ++ "ścielesz".data, pre ++ "ściele".data,
          pre ++ "ścielemy".data, pre ++ "ścielecie".data, pre ++ "ścielą".data⟩

/-- `heuristicTrzec` from `verb.go`. -/
def heuristicTrzec (inf : Str) : Option PresentT :=
  if endsWith inf "trzeć".data then
    let pre := trimSuf inf "trzeć".data
    some ⟨pre ++ "trę".data, pre ++ "trzesz".data, pre ++ "trze".data,
          pre ++ "trzemy".data, pre ++ "trzecie".data, pre ++ "trą".data⟩
  else if endsWith inf "drzeć".data then
    let pre := trimSuf inf "drzeć".data
    some ⟨pre ++ "drę".data, pre ++ "drzesz".data, pre ++ "drze".data,
          pre ++ "drzemy".data, pre ++ "drzecie".data, pre ++ "drą".data⟩
  else none

/-- `heuristicSc` from `verb.go`. -/
def heuristicSc (inf : Str) : Option PresentT :=
  if endsWith inf "mieść".data then
    let stem := trimSuf inf "ieść".data
    some ⟨stem ++ "iotę".data, stem ++ "ieciesz".data, stem ++ "iecie".data,
          stem ++ "ieciemy".data, stem ++ "ieciecie".data, stem ++ "iotą".data⟩
  else if endsWith inf "gnieść".data then
    let stem := trimSuf inf "ieść".data
    some ⟨stem ++ "iotę".data, stem ++ "ieciesz".data, stem ++ "iecie".data,
          stem ++ "ieciemy".data, stem ++ "ieciecie".data, stem ++ "iotą".data⟩
  else if endsWith inf "wieść".data then
    let stem := trimSuf inf "ieść".data
    some ⟨stem ++ "iodę".data, stem ++ "iedziesz".data, stem ++ "iedzie".data,
          stem ++ "iedziemy".data, stem ++ "iedziecie".data, stem ++ "iodą".data⟩
  else if endsWith inf "ieść".data then
    let stem := trimSuf inf "ieść".data
    some ⟨stem ++ "iosę".data, stem ++ "iesiesz".data, stem ++ "iesie".data,
          stem ++ "iesiemy".data, stem ++ "iesiecie".data, stem ++ "iosą".data⟩
  else if endsWith inf "ieźć".data then
    let stem := trimSuf inf "ieźć".data
    some ⟨stem ++ "iozę".data, stem ++ "ieziesz".data, stem ++ "iezie".data,
          stem ++ "ieziemy".data, stem ++ "ieziecie".data, stem ++ "iozą".data⟩
  else if endsWith inf "yźć".data then
    let stem := trimSuf inf "źć".data
    some ⟨stem ++ "zę".data, stem ++ "ziesz".data, stem ++ "zie".data,
          stem ++ "ziemy".data, stem ++ "ziecie".data, stem ++ "zą".data⟩
  else if endsWith inf "eźć".data then
    let stem := trimSuf inf "źć".data
    some ⟨stem ++ "zę".data, stem ++ "ziesz".data, stem ++ "zie".data,
          stem ++ "ziemy".data, stem ++ "ziecie".data, stem ++ "zą".data⟩
  else none

/-- `heuristicC` from `verb.go`. -/
def heuristicC (inf : Str) : Option PresentT :=
  if !endsWith inf "c".data then none
  else if endsWith inf "ść".data || endsWith inf "źć".data ||
          endsWith inf "ać".data || endsWith inf "eć".data ||
          endsWith inf "ić".data || endsWith inf "yć".data ||
          endsWith inf "ąć".data then none
  else if endsWith inf "óc".data then
    let stem := trimSuf inf "óc".data
    some ⟨stem ++ "ogę".data, stem ++ "ożesz".data, stem ++ "oże".data,
          stem ++ "ożemy".data, stem ++ "ożecie".data, stem ++ "ogą".data⟩
  else if endsWith inf "ec".data then
    let stem := trimSuf inf "ec".data
    some ⟨stem ++ "ekę".data, stem ++ "eczesz".data, stem ++ "ecze".data,
          stem ++ "eczemy".data, stem ++ "eczecie".data, stem ++ "eką".data⟩
  else none

/-- `heuristicIc` from `verb.go`. -/
def heuristicIc (inf : Str) : Option PresentT :=
  if !endsWith inf "ić".data then none
  else
    let stem := trimSuf inf "ić".data
    if stem.length ≤ 2 then
      some ⟨stem ++ "iję".data, stem ++ "ijesz".data, stem ++ "ije".data,
            stem ++ "ijemy".data, stem ++ "ijecie".data, stem ++ "iją".data⟩
    else
      let sg1pl3 : Str × Str :=
        match applySoftening stem with
        | some softStem => (softStem ++ "ę".data, softStem ++ "ą".data)
        | none =>
          if endsInSoftConsonant stem || endsInNonSoftenableC stem then
            (stem ++ "ę".data, stem ++ "ą".data)
          else (stem ++ "ię".data, stem ++ "ią".data)
      some ⟨sg1pl3.1, stem ++ "isz".data, stem ++ "i".data,
            stem ++ "imy".data, stem ++ "icie".data, sg1pl3.2⟩

/-- `heuristicYc` from `verb.go`. -/
def heuristicYc (inf : Str) : Option PresentT :=
  if !endsWith inf "yć".data then none
  else
    let stem := trimSuf inf "yć".data
    if stem.length ≤ 2 then
      let fullStem := stem ++ "y".data
      some ⟨fullStem ++ "ję".data, fullStem ++ "jesz".data, fullStem ++ "je".data,
            fullStem ++ "jemy".data, fullStem ++ "jecie".data, fullStem ++ "ją".data⟩
    else if endsInSoftConsonant stem then
      some ⟨stem ++ "ę".data, stem ++ "ysz".data, stem ++ "y".data,
            stem ++ "ymy".data, stem ++ "ycie".data, stem ++ "ą".data⟩
    else
      let fullStem := stem ++ "y".data
      some ⟨fullStem ++ "ję".data, fullStem ++ "jesz".data, fullStem ++ "je".data,
            fullStem ++ "jemy".data, fullStem ++ "jecie".data, fullStem ++ "ją".data⟩

/-- `heuristicEc` from `verb.go`. -/
def heuristicEc (inf : Str) : Option PresentT :=
  if !endsWith inf "eć".data then none
  else if endsWith inf "ieć".data then
    if endsWith inf "umieć".data then
      let stem := trimSuf inf "ć".data
      some ⟨stem ++ "m".data, stem ++ "sz".data, stem,
            stem ++ "my".data, stem ++ "cie".data, stem ++ "ją".data⟩
    else if endsWith inf "wiedzieć".data then
      let stem := trimSuf inf "iedzieć".data
      some ⟨stem ++ "iem".data, stem ++ "iesz".data, stem ++ "ie".data,
            stem ++ "iemy".data, stem ++ "iecie".data, stem ++ "iedzą".data⟩
    else if inf = "śmieć".data ∨ endsWith inf "ośmieć".data then
      let stem := trimSuf inf "ć".data
      some ⟨stem ++ "m".data, stem ++ "sz".data, stem,
            stem ++ "my".data, stem ++ "cie".data, stem ++ "ją".data⟩
    else if endsWith inf "chcieć".data then
      let stem := trimSuf inf "ieć".data
      some ⟨stem ++ "ę".data, stem ++ "esz".data, stem ++ "e".data,
            stem ++ "emy".data, stem ++ "ecie".data, stem ++ "ą".data⟩
    else if inf = "mieć".data ∨ (endsWith inf "mieć".data ∧ ¬endsWith inf "umieć".data) then
      none
    else
      let stem := trimSuf inf "ć".data
      some ⟨stem ++ "ję".data, stem ++ "jesz".data, stem ++ "je".data,
            stem ++ "jemy".data, stem ++ "jecie".data, stem ++ "ją".data⟩
  else if endsWith inf "leć".data || endsWith inf "szeć".data then
    let stem := trimSuf inf "ć".data
    some ⟨stem ++ "ję".data, stem ++ "jesz".data, stem ++ "je".data,
          stem ++ "jemy".data, stem ++ "jecie".data, stem ++ "ją".data⟩
  else if endsInSoftConsonant (trimSuf inf "eć".data) then
    let stem := trimSuf inf "eć".data
    some ⟨stem ++ "ę".data, stem ++ "ysz".data, stem ++ "y".data,
          stem ++ "ymy".data, stem ++ "ycie".data, stem ++ "ą".data⟩
  else
    let stem := trimSuf inf "ć".data
    some ⟨stem ++ "m".data, stem ++ "sz".data, stem,
          stem ++ "my".data, stem ++ "cie".data, stem ++ "ją".data⟩

/-- `heuristicAc` from `verb.go` — the fallback for plain `-ać` verbs. -/
def heuristicAc (inf : Str) : Option PresentT :=
  if !endsWith inf "ać".data then none
  else
    let stem := trimSuf inf "ć".data
    some ⟨stem ++ "m".data, stem ++ "sz".data, stem,
          stem ++ "my".data, stem ++ "cie".data, stem ++ "ją".data⟩

/-- `heuristics` from `verb.go` — the ordered present-tense matcher chain. -/
def heuristics : List (Str → Option PresentT) :=
  [heuristicOwac, heuristicYwacIwac, heuristicAwac, heuristicOtac, heuristicEptac,
   heuristicLamac, heuristicAcAlternating, heuristicNac, heuristicAsc, heuristicJsc,
   heuristicByc, heuristicCiac, heuristicGiac, heuristicPasc, heuristicStacNastal,
   heuristicBiec, heuristicSlac, heuristicTrzec, heuristicSc, heuristicC,
   heuristicIc, heuristicYc, heuristicEc, heuristicAc]

/-- Applies a prefix verbatim to all six slots (the inlined loop body of
`lookupIrregularWithPrefix` in `irregular.go`). -/
def applyPreToPresent (pre : Str) (p : PresentT) : PresentT :=
  ⟨pre ++ p.sg1, pre ++ p.sg2, pre ++ p.sg3, pre ++ p.pl1, pre ++ p.pl2, pre ++ p.pl3⟩

/-- `lookupIrregularWithPrefix` from `irregular.go`. -/
def lookupIrregularWithPrefix (inf : Str) : Option PresentT :=
  match lookupTbl irregularVerbs inf with
  | some p => some p
  | none =>
    verbPrefixes.findSome? (fun pre =>
      if pre.length < inf.length ∧ beginsWith inf pre = true then
        let base := inf.drop pre.length
        if memStr prefixableVerbs base then
          (lookupTbl irregularVerbs base).map (applyPreToPresent pre)
        else none
      else none)

/-- `ConjugatePresent` from `verb.go` (registry first, then the ordered
heuristic chain; the error carries the offending infinitive). -/
def ConjugatePresent (inf : Str) : Except Str PresentT :=
  match lookupIrregularWithPrefix inf with
  | some p => .ok p
  | none =>
    match heuristics.findSome? (fun h => h inf) with
    | some p => .ok p
    | none => .error ("no heuristic matched: ".data ++ inf)

/-- `homographs` from `irregular.go`. -/
def homographs : List (Str × List Paradigm) :=
  [("stać".data,
    [⟨⟨"stoję".data, "stoisz".data, "stoi".data, "stoimy".data, "stoicie".data, "stoją".data⟩,
      "to stand".data⟩,
     ⟨⟨"stanę".data, "staniesz".data, "stanie".data, "staniemy".data, "staniecie".data, "staną".data⟩,
      "to become, to afford".data⟩]),
   ("słać".data,
    [⟨⟨"ślę".data, "ślesz".data, "śle".data, "ślemy".data, "ślecie".data, "ślą".data⟩,
      "to send".data⟩,
     ⟨⟨"ścielę".data, "ścielesz".data, "ściele".data, "ścielemy".data, "ścielecie".data, "ścielą".data⟩,
      "to spread (bedding)".data⟩]),
   ("boleć".data,
    [⟨⟨"bolę".data, "bolisz".data, "boli".data, "bolimy".data, "bolicie".data, "bolą".data⟩,
      "to hurt (physical pain)".data⟩,
     ⟨⟨"boleję".data, "bolejesz".data, "boleje".data, "bolejemy".data, "bolejecie".data, "boleją".data⟩,
      "to grieve, to worry".data⟩]),
   ("stajać".data,
    [⟨⟨"staję".data, "stajesz".data, "staje".data, "stajemy".data, "stajecie".data, "stają".data⟩,
      "to keep standing/stopping (frequentative)".data⟩,
     ⟨⟨"stajam".data, "stajasz".data, "staja".data, "stajamy".data, "stajacie".data, "stajają".data⟩,
      "to keep standing/stopping (variant)".data⟩]),
   ("chlać".data,
    [⟨⟨"chlam".data, "chlasz".data, "chla".data, "chlamy".data, "chlacie".data, "chlają".data⟩,
      "to gulp/slurp (vulgar)".data⟩,
     ⟨⟨"chleję".data, "chlejesz".data, "chleje".data, "chlejemy".data, "chlejecie".data, "chleją".data⟩,
      "to gulp/slurp (variant)".data⟩])]

/-- `lookupHomograph` from `irregular.go`: direct hit, else prefix expansion
restricted to the `słać`/`chlać` bases. -/
def lookupHomograph (inf : Str) : Option (List Paradigm) :=
  match lookupTbl homographs inf with
  | some ps => some ps
  | none =>
    verbPrefixes.findSome? (fun pre =>
      if pre.length < inf.length ∧ beginsWith inf pre = true then
        let base := inf.drop pre.length
        if base = "słać".data ∨ base = "chlać".data then
          (lookupTbl homographs base).map (fun ps =>
            ps.map (fun bp => ⟨applyPreToPresent pre bp.pres, bp.gloss⟩))
        else none
      else none)

/-- Modelled from the spec: the repository's current top-level present-tense
entry point, returning `([]Paradigm, error)`, is not under `src/` (only its
CLI callers and an older single-paradigm `ConjugatePresent` are). Per the
spec's control flow — "homograph lookup → irregular lookup (direct, then via
prefix decomposition) → the ordered heuristic chain (first match wins) →
failure" — it returns every homograph paradigm on a homograph hit and
otherwise wraps the single-paradigm resolution with an empty gloss. -/
def ConjugatePresentAll (inf : Str) : Except Str (List Paradigm) :=
  match lookupHomograph inf with
  | some ps => .ok ps
  | none =>
    match ConjugatePresent inf with
    | .ok p => .ok [⟨p, []⟩]
    | .error e => .error e
/-! ## Past-tense engine (`ConjugatePast` and its registries) -/

/-- `buildPastTense` from the past-tense chain: expands an l-participle stem. -/
def buildPastTense (stem : Str) : PastT :=
  ⟨stem ++ "łem".data, stem ++ "łam".data, stem ++ "łeś".data, stem ++ "łaś".data,
   stem ++ "ł".data, stem ++ "ła".data, stem ++ "ło".data,
   stem ++ "liśmy".data, stem ++ "łyśmy".data, stem ++ "liście".data,
   stem ++ "łyście".data, stem ++ "li".data, stem ++ "ły".data⟩

/-- `applyEToA` helper: rightmost `ę→ą` / `e→a` on the reversed stem. -/
def applyEToARev (s : Str) : Option Str :=
  match s with
  | [] => none
  | c :: rest =>
    if c = 'ę' then some ('ą' :: rest)
    else if c = 'e' then some ('a' :: rest)
    else (applyEToARev rest).map (c :: ·)

/-- `applyEToA` from the past-tense chain. -/
def applyEToA (stem : Str) : Str :=
  match applyEToARev stem.reverse with
  | some r => r.reverse
  | none => stem

/-- `extractBase` from the past-tense chain. The `len(candidate) >= 4` test in
the Go source counts UTF-8 bytes, modelled by `utf8Len`. -/
def extractBase (inf : Str) : Str :=
  match sortedPrefixesEB.findSome? (fun pre =>
      if beginsWith inf pre then
        let cand := inf.drop pre.length
        if 4 ≤ utf8Len cand ∧ endsWith cand "nąć".data = true then some cand else none
      else none) with
  | some c => c
  | none => inf

/-- `applyMascSgAlternation` from the past-tense chain. -/
def applyMascSgAlternation (stem inf : Str) : Str :=
  if memStr eToAVerbs inf then applyEToA stem
  else
    let base := extractBase inf
    if base ≠ inf ∧ memStr eToAVerbs base = true then applyEToA stem
    else stem

/-- Rightmost `o→ó` on the reversed stem (the loop inside
`applySg3MOnlyAlternation`). -/
def oToOKreskaRev (s : Str) : Option Str :=
  match s with
  | [] => none
  | c :: rest =>
    if c = 'o' then some ('ó' :: rest)
    else (oToOKreskaRev rest).map (c :: ·)

/-- `applySg3MOnlyAlternation` from the past-tense chain: `o→ó` or an
epenthetic `e` before the final consonant, only in the sg3m slot. -/
def applySg3MOnlyAlternation (stem inf : Str) : Str :=
  let base := extractBase inf
  let isOtoO := memStr oToOKreskaVerbs inf ||
    (decide (base ≠ inf) && memStr oToOKreskaVerbs base)
  let isEpen := memStr epentheticEVerbs inf ||
    (decide (base ≠ inf) && memStr epentheticEVerbs base)
  match (if isOtoO then oToOKreskaRev stem.reverse else none) with
  | some r => r.reverse
  | none =>
    if isEpen then
      match stem.reverse with
      | last :: c :: rest => (last :: 'e' :: c :: rest).reverse
      | _ => stem
    else stem

/-- `palatalizeForVirile` from the past-tense chain. -/
def palatalizeForVirile (stem inf : Str) : Str :=
  match stem.reverse with
  | [] => stem
  | last :: rest =>
    if last = 's' then ('ś' :: rest).reverse
    else if last = 'n' then ('ń' :: rest).reverse
    else if last = 'z' ∧ 'ę' ∈ inf then ('ź' :: rest).reverse
    else stem

/-- `buildPastTenseNDropped` from the past-tense chain. -/
def buildPastTenseNDropped (stem inf : Str) : PastT :=
  let base := extractBase inf
  let useAltForAll := memStr allFormsEToAVerbs inf ||
    (decide (base ≠ inf) && memStr allFormsEToAVerbs base)
  let virileStem := palatalizeForVirile stem inf
  let mascStem := applyMascSgAlternation stem inf
  let sg3mStem := applySg3MOnlyAlternation mascStem inf
  let otherStem := if useAltForAll then mascStem else stem
  ⟨mascStem ++ "łem".data, otherStem ++ "łam".data,
   mascStem ++ "łeś".data, otherStem ++ "łaś".data,
   sg3mStem ++ "ł".data, otherStem ++ "ła".data, otherStem ++ "ło".data,
   virileStem ++ "liśmy".data, otherStem ++ "łyśmy".data,
   virileStem ++ "liście".data, otherStem ++ "łyście".data,
   virileStem ++ "li".data, otherStem ++ "ły".data⟩

/-- `buildPastTenseMixedNDrop` from the past-tense chain. -/
def buildPastTenseMixedNDrop (stemWithoutNac inf : Str) : PastT :=
  let virileStem := palatalizeForVirile stemWithoutNac inf
  let mascStem := stemWithoutNac ++ "ną".data
  let femStem := stemWithoutNac ++ "nę".data
  ⟨mascStem ++ "łem".data, femStem ++ "łam".data,
   mascStem ++ "łeś".data, femStem ++ "łaś".data,
   mascStem ++ "ł".data, femStem ++ "ła".data, femStem ++ "ło".data,
   virileStem ++ "liśmy".data, femStem ++ "łyśmy".data,
   virileStem ++ "liście".data, femStem ++ "łyście".data,
   virileStem ++ "li".data, femStem ++ "ły".data⟩

/-- `buildPastTenseWithAlternation` from the past-tense chain. -/
def buildPastTenseWithAlternation (mascStem femStem : Str) : PastT :=
  ⟨mascStem ++ "łem".data, femStem ++ "łam".data,
   mascStem ++ "łeś".data, femStem ++ "łaś".data,
   mascStem ++ "ł".data, femStem ++ "ła".data, femStem ++ "ło".data,
   femStem ++ "liśmy".data, femStem ++ "łyśmy".data,
   femStem ++ "liście".data, femStem ++ "łyście".data,
   femStem ++ "li".data, femStem ++ "ły".data⟩

/-- `isKnownNDroppingVerb` from the past-tense chain. -/
def isKnownNDroppingVerb (inf : Str) : Bool :=
  if memStr nRetainingVerbs inf then false
  else if memStr nDroppingNacVerbs inf then true
  else verbPrefixes.any (fun pre =>
    beginsWith inf pre && memStr nDroppingNacVerbs (inf.drop pre.length))

/-- `isKnownMixedNDropVerb` from the past-tense chain. -/
def isKnownMixedNDropVerb (inf : Str) : Bool :=
  if memStr mixedNDropNacVerbs inf then true
  else verbPrefixes.any (fun pre =>
    beginsWith inf pre && memStr mixedNDropNacVerbs (inf.drop pre.length))

/-- `isDualFormNacVerb` from the past-tense chain: direct membership only,
no prefix matching. -/
def isDualFormNacVerb (inf : Str) : Bool :=
  if !endsWith inf "nąć".data then false
  else memStr dualFormNacVerbsVirileDropped inf || memStr dualFormNacVerbsVirileKept inf

/-- `isDualFormVirileKept` from the past-tense chain. -/
def isDualFormVirileKept (inf : Str) : Bool :=
  memStr dualFormNacVerbsVirileKept inf

/-- `buildDualFormNacParadigms` from the past-tense chain: the two standard
variants of a dual-form `-nąć` verb, differing only in sg3m. -/
def buildDualFormNacParadigms (inf : Str) : List PastParadigm :=
  let stemWithoutNac := trimSuf inf "nąć".data
  let baseStem := trimSuf inf "ąć".data
  let mascNKeptStem := baseStem ++ "ą".data
  let femStem := baseStem ++ "ę".data
  let virileStem :=
    if isDualFormVirileKept inf then femStem
    else palatalizeForVirile stemWithoutNac inf
  let mascStemDropped := applyMascSgAlternation stemWithoutNac inf
  let hasAlternation := mascStemDropped ≠ stemWithoutNac
  let sg1m := if hasAlternation then mascStemDropped ++ "łem".data else mascNKeptStem ++ "łem".data
  let sg2m := if hasAlternation then mascStemDropped ++ "łeś".data else mascNKeptStem ++ "łeś".data
  let mascSg3MDropped := mascStemDropped ++ "ł".data
  let paradigm1 : PastT :=
    ⟨sg1m, femStem ++ "łam".data, sg2m, femStem ++ "łaś".data,
     mascSg3MDropped, femStem ++ "ła".data, femStem ++ "ło".data,
     virileStem ++ "liśmy".data, femStem ++ "łyśmy".data,
     virileStem ++ "liście".data, femStem ++ "łyście".data,
     virileStem ++ "li".data, femStem ++ "ły".data⟩
  let paradigm2 : PastT :=
    ⟨sg1m, femStem ++ "łam".data, sg2m, femStem ++ "łaś".data,
     mascNKeptStem ++ "ł".data, femStem ++ "ła".data, femStem ++ "ło".data,
     virileStem ++ "liśmy".data, femStem ++ "łyśmy".data,
     virileStem ++ "liście".data, femStem ++ "łyście".data,
     virileStem ++ "li".data, femStem ++ "ły".data⟩
  [⟨paradigm1, "sg3m n-dropped variant".data⟩, ⟨paradigm2, "sg3m n-kept variant".data⟩]

/-- `heuristicPastAsc`. -/
def heuristicPastAsc (inf : Str) : Option PastT :=
  if endsWith inf "ząść".data then
    let pre := trimSuf inf "ząść".data
    some ⟨pre ++ "ząsłem".data, pre ++ "zęsłam".data, pre ++ "ząsłeś".data, pre ++ "zęsłaś".data,
          pre ++ "ząsł".data, pre ++ "zęsła".data, pre ++ "zęsło".data,
          pre ++ "zęśliśmy".data, pre ++ "zęsłyśmy".data, pre ++ "zęśliście".data,
          pre ++ "zęsłyście".data, pre ++ "zęśli".data, pre ++ "zęsły".data⟩
  else if endsWith inf "prząść".data then
    let pre := trimSuf inf "prząść".data
    some ⟨pre ++ "prządłem".data, pre ++ "przędłam".data, pre ++ "prządłeś".data, pre ++ "przędłaś".data,
          pre ++ "prządł".data, pre ++ "przędła".data, pre ++ "przędło".data,
          pre ++ "przędliśmy".data, pre ++ "przędłyśmy".data, pre ++ "przędliście".data,
          pre ++ "przędłyście".data, pre ++ "przędli".data, pre ++ "przędły".data⟩
  else if endsWith inf "siąść".data then
    let pre := trimSuf inf "siąść".data
    some ⟨pre ++ "siadłem".data, pre ++ "siadłam".data, pre ++ "siadłeś".data, pre ++ "siadłaś".data,
          pre ++ "siadł".data, pre ++ "siadła".data, pre ++ "siadło".data,
          pre ++ "siedliśmy".data, pre ++ "siadłyśmy".data, pre ++ "siedliście".data,
          pre ++ "siadłyście".data, pre ++ "siedli".data, pre ++ "siadły".data⟩
  else none

/-- `heuristicPastCzac`. -/
def heuristicPastCzac (inf : Str) : Option PastT :=
  if !endsWith inf "cząć".data then none
  else
    let pre := trimSuf inf "cząć".data
    some ⟨pre ++ "cząłem".data, pre ++ "częłam".data, pre ++ "cząłeś".data, pre ++ "częłaś".data,
          pre ++ "czął".data, pre ++ "częła".data, pre ++ "częło".data,
          pre ++ "częliśmy".data, pre ++ "częłyśmy".data, pre ++ "częliście".data,
          pre ++ "częłyście".data, pre ++ "częli".data, pre ++ "częły".data⟩

/-- `heuristicPastStrzyc`. -/
def heuristicPastStrzyc (inf : Str) : Option PastT :=
  if !endsWith inf "strzyc".data then none
  else
    let pre := trimSuf inf "strzyc".data
    some ⟨pre ++ "strzygłem".data, pre ++ "strzygłam".data, pre ++ "strzygłeś".data, pre ++ "strzygłaś".data,
          pre ++ "strzygł".data, pre ++ "strzygła".data, pre ++ "strzygło".data,
          pre ++ "strzygli".data ++ "śmy".data, pre ++ "strzygłyśmy".data,
          pre ++ "strzygli".data ++ "ście".data, pre ++ "strzygłyście".data,
          pre ++ "strzygli".data, pre ++ "strzygły".data⟩

/-- `heuristicPastBosc`. -/
def heuristicPastBosc (inf : Str) : Option PastT :=
  if !endsWith inf "bość".data && !endsWith inf "bóść".data then none
  else
    let pre := if endsWith inf "bóść".data then trimSuf inf "bóść".data else trimSuf inf "bość".data
    some ⟨pre ++ "bodłem".data, pre ++ "bodłam".data, pre ++ "bodłeś".data, pre ++ "bodłaś".data,
          pre ++ "bódł".data, pre ++ "bodła".data, pre ++ "bodło".data,
          pre ++ "bodliśmy".data, pre ++ "bodłyśmy".data, pre ++ "bodliście".data,
          pre ++ "bodłyście".data, pre ++ "bodli".data, pre ++ "bodły".data⟩

/-- `heuristicPastNac`: mixed n-drop, full n-drop, or n-retaining with the
`ą→ę` alternation. -/
def heuristicPastNac (inf : Str) : Option PastT :=
  if !endsWith inf "nąć".data then none
  else
    let stemWithoutNac := trimSuf inf "nąć".data
    if isKnownMixedNDropVerb inf then some (buildPastTenseMixedNDrop stemWithoutNac inf)
    else if isKnownNDroppingVerb inf then some (buildPastTenseNDropped stemWithoutNac inf)
    else if 'ą' ∈ stemWithoutNac then
      let baseStem := trimSuf inf "ąć".data
      some (buildPastTenseWithAlternation (baseStem ++ "ą".data) (baseStem ++ "ę".data))
    else
      let baseStem := trimSuf inf "ąć".data
      some (buildPastTenseWithAlternation (baseStem ++ "ą".data) (baseStem ++ "ę".data))

/-- `heuristicPastSc`. -/
def heuristicPastSc (inf : Str) : Option PastT :=
  if endsWith inf "mieść".data then
    let pre := trimSuf inf "mieść".data
    some ⟨pre ++ "miotłem".data, pre ++ "miotłam".data, pre ++ "miotłeś".data, pre ++ "miotłaś".data,
          pre ++ "miótł".data, pre ++ "miotła".data, pre ++ "miotło".data,
          pre ++ "mietliśmy".data, pre ++ "miotłyśmy".data, pre ++ "mietliście".data,
          pre ++ "miotłyście".data, pre ++ "mietli".data, pre ++ "miotły".data⟩
  else if endsWith inf "gnieść".data then
    let pre := trimSuf inf "gnieść".data
    some ⟨pre ++ "gniotłem".data, pre ++ "gniotłam".data, pre ++ "gniotłeś".data, pre ++ "gniotłaś".data,
          pre ++ "gniótł".data, pre ++ "gniotła".data, pre ++ "gniotło".data,
          pre ++ "gnietliśmy".data, pre ++ "gniotłyśmy".data, pre ++ "gnietliście".data,
          pre ++ "gniotłyście".data, pre ++ "gnietli".data, pre ++ "gniotły".data⟩
  else if endsWith inf "wieść".data then
    let pre := trimSuf inf "wieść".data
    some ⟨pre ++ "wiodłem".data, pre ++ "wiodłam".data, pre ++ "wiodłeś".data, pre ++ "wiodłaś".data,
          pre ++ "wiódł".data, pre ++ "wiodła".data, pre ++ "wiodło".data,
          pre ++ "wiedliśmy".data, pre ++ "wiodłyśmy".data, pre ++ "wiedliście".data,
          pre ++ "wiodłyście".data, pre ++ "wiedli".data, pre ++ "wiodły".data⟩
  else if endsWith inf "ieść".data then
    let pre := trimSuf inf "ieść".data
    some ⟨pre ++ "iosłem".data, pre ++ "iosłam".data, pre ++ "iosłeś".data, pre ++ "iosłaś".data,
          pre ++ "iósł".data, pre ++ "iosła".data, pre ++ "iosło".data,
          pre ++ "ieśliśmy".data, pre ++ "iosłyśmy".data, pre ++ "ieśliście".data,
          pre ++ "iosłyście".data, pre ++ "ieśli".data, pre ++ "iosły".data⟩
  else if endsWith inf "ieźć".data then
    let pre := trimSuf inf "ieźć".data
    some ⟨pre ++ "iozłem".data, pre ++ "iozłam".data, pre ++ "iozłeś".data, pre ++ "iozłaś".data,
          pre ++ "iózł".data, pre ++ "iozła".data, pre ++ "iozło".data,
          pre ++ "ieźliśmy".data, pre ++ "iozłyśmy".data, pre ++ "ieźliście".data,
          pre ++ "iozłyście".data, pre ++ "ieźli".data, pre ++ "iozły".data⟩
  else if endsWith inf "yźć".data then
    let stem := trimSuf inf "źć".data
    some ⟨stem ++ "złem".data, stem ++ "złam".data, stem ++ "złeś".data, stem ++ "złaś".data,
          stem ++ "zł".data, stem ++ "zła".data, stem ++ "zło".data,
          stem ++ "źliśmy".data, stem ++ "złyśmy".data, stem ++ "źliście".data,
          stem ++ "złyście".data, stem ++ "źli".data, stem ++ "zły".data⟩
  else if endsWith inf "eźć".data then
    let stem := trimSuf inf "źć".data
    some ⟨stem ++ "złem".data, stem ++ "złam".data, stem ++ "złeś".data, stem ++ "złaś".data,
          stem ++ "zł".data, stem ++ "zła".data, stem ++ "zło".data,
          stem ++ "źliśmy".data, stem ++ "złyśmy".data, stem ++ "źliście".data,
          stem ++ "złyście".data, stem ++ "źli".data, stem ++ "zły".data⟩
  else none

/-- `heuristicPastC`. -/
def heuristicPastC (inf : Str) : Option PastT :=
  if !endsWith inf "c".data then none
  else if endsWith inf "ść".data || endsWith inf "źć".data ||
          endsWith inf "ać".data || endsWith inf "eć".data ||
          endsWith inf "ić".data || endsWith inf "yć".data ||
          endsWith inf "uć".data || endsWith inf "ąć".data then none
  else if endsWith inf "óc".data then
    let pre := trimSuf inf "óc".data
    some ⟨pre ++ "ogłem".data, pre ++ "ogłam".data, pre ++ "ogłeś".data, pre ++ "ogłaś".data,
          pre ++ "ógł".data, pre ++ "ogła".data, pre ++ "ogło".data,
          pre ++ "ogliśmy".data, pre ++ "ogłyśmy".data, pre ++ "ogliście".data,
          pre ++ "ogłyście".data, pre ++ "ogli".data, pre ++ "ogły".data⟩
  else if endsWith inf "ec".data then
    let stem := trimSuf inf "c".data
    some ⟨stem ++ "kłem".data, stem ++ "kłam".data, stem ++ "kłeś".data, stem ++ "kłaś".data,
          stem ++ "kł".data, stem ++ "kła".data, stem ++ "kło".data,
          stem ++ "kliśmy".data, stem ++ "kłyśmy".data, stem ++ "kliście".data,
          stem ++ "kłyście".data, stem ++ "kli".data, stem ++ "kły".data⟩
  else none

/-- `heuristicPastOwac`. -/
def heuristicPastOwac (inf : Str) : Option PastT :=
  if !endsWith inf "ować".data then none
  else some (buildPastTense (trimSuf inf "ć".data))

/-- `heuristicPastYwacIwac`. -/
def heuristicPastYwacIwac (inf : Str) : Option PastT :=
  if !endsWith inf "ywać".data && !endsWith inf "iwać".data then none
  else some (buildPastTense (trimSuf inf "ć".data))

/-- `heuristicPastAwac`. -/
def heuristicPastAwac (inf : Str) : Option PastT :=
  if !endsWith inf "awać".data then none
  else if endsWith inf "ywać".data || endsWith inf "iwać".data then none
  else some (buildPastTense (trimSuf inf "ć".data))

/-- `heuristicPastIc`. -/
def heuristicPastIc (inf : Str) : Option PastT :=
  if !endsWith inf "ić".data then none
  else some (buildPastTense (trimSuf inf "ć".data))

/-- `heuristicPastYc`. -/
def heuristicPastYc (inf : Str) : Option PastT :=
  if !endsWith inf "yć".data then none
  else some (buildPastTense (trimSuf inf "ć".data))

/-- `heuristicPastUc`. -/
def heuristicPastUc (inf : Str) : Option PastT :=
  if !endsWith inf "uć".data then none
  else some (buildPastTense (trimSuf inf "ć".data))

/-- `heuristicPastEc`. -/
def heuristicPastEc (inf : Str) : Option PastT :=
  if !endsWith inf "eć".data then none
  else
    let baseStem := trimSuf inf "eć".data
    let aStem :=
      if endsWith inf "ieć".data then trimSuf inf "ieć".data ++ "ia".data
      else baseStem ++ "a".data
    let eStem := baseStem ++ "e".data
    some ⟨aStem ++ "łem".data, aStem ++ "łam".data, aStem ++ "łeś".data, aStem ++ "łaś".data,
          aStem ++ "ł".data, aStem ++ "ła".data, aStem ++ "ło".data,
          eStem ++ "liśmy".data, aStem ++ "łyśmy".data, eStem ++ "liście".data,
          aStem ++ "łyście".data, eStem ++ "li".data, aStem ++ "ły".data⟩

/-- `heuristicPastAc` — the `-ać` fallback. -/
def heuristicPastAc (inf : Str) : Option PastT :=
  if !endsWith inf "ać".data then none
  else some (buildPastTense (trimSuf inf "ć".data))

/-- `pastHeuristics` — the ordered past-tense matcher chain. -/
def pastHeuristics : List (Str → Option PastT) :=
  [heuristicPastAsc, heuristicPastCzac, heuristicPastStrzyc, heuristicPastBosc,
   heuristicPastNac, heuristicPastSc, heuristicPastC, heuristicPastOwac,
   heuristicPastYwacIwac, heuristicPastAwac, heuristicPastIc, heuristicPastYc,
   heuristicPastUc, heuristicPastEc, heuristicPastAc]

/-- `stripEpentheticVowel`: decides between the full and shortened prefix
variant from the leading characters of the attached form. -/
def epentheticTbl : List (Str × Str) :=
  [("ze".data, "z".data), ("we".data, "w".data), ("ode".data, "od".data),
   ("obe".data, "ob".data), ("pode".data, "pod".data), ("nade".data, "nad".data),
   ("roze".data, "roz".data), ("wze".data, "wz".data)]

/-- `stripEpentheticVowel` from the past-tense registry. -/
def stripEpentheticVowel (pre baseForm : Str) : Str :=
  match lookupTbl epentheticTbl pre with
  | none => pre
  | some stripped =>
    let baseFirst := match baseForm with | [] => Char.ofNat 0 | c :: _ => c
    if beginsWith baseForm "sech".data then stripped
    else if pre = "ze".data then
      if baseFirst ∈ (['s', 'ś', 'z', 'ź', 'ż', 'b', 'p', 'w'] : List Char) then pre else stripped
    else if pre = "ode".data ∨ pre = "pode".data ∨ pre = "nade".data ∨
            pre = "obe".data ∨ pre = "we".data ∨ pre = "roze".data then
      if baseFirst = 'b' ∨ baseFirst = 's' ∨ baseFirst = 'ś' then pre else stripped
    else stripped

/-- `applyPrefixToPast`: one prefix variant, chosen from the base paradigm's
sg3m form, concatenated to every slot. -/
def applyPrefixToPast (pre : Str) (base : PastT) : PastT :=
  let p := stripEpentheticVowel pre base.sg3M
  ⟨p ++ base.sg1M, p ++ base.sg1F, p ++ base.sg2M, p ++ base.sg2F,
   p ++ base.sg3M, p ++ base.sg3F, p ++ base.sg3N,
   p ++ base.pl1V, p ++ base.pl1NV, p ++ base.pl2V, p ++ base.pl2NV,
   p ++ base.pl3V, p ++ base.pl3NV⟩

/-- `buildJscPast`. -/
def buildJscPast (pre : Str) : PastT :=
  ⟨pre ++ "szedłem".data, pre ++ "szłam".data, pre ++ "szedłeś".data, pre ++ "szłaś".data,
   pre ++ "szedł".data, pre ++ "szła".data, pre ++ "szło".data,
   pre ++ "szliśmy".data, pre ++ "szłyśmy".data, pre ++ "szliście".data,
   pre ++ "szłyście".data, pre ++ "szli".data, pre ++ "szły".data⟩

/-- `buildSchnacPast`. The Go source iterates over a four-entry map literal
to shorten an epenthetic prefix ending; the only overlapping endings are
`roze`/`ze`, for which both give the same result, so the fixed order below
is faithful. -/
def buildSchnacPast (inf : Str) : PastT :=
  let pre := trimSuf inf "schnąć".data
  let sg3mPrefix :=
    match ([("obe".data, "ob".data), ("pode".data, "pod".data),
            ("roze".data, "roz".data), ("ze".data, "z".data)] : List (Str × Str)).findSome?
        (fun fs => if endsWith pre fs.1 then
            some (pre.take (pre.length - fs.1.length) ++ fs.2)
          else none) with
    | some r => r
    | none => pre
  if inf = "zeschnąć".data then
    ⟨"zeschłem".data, "zeschłam".data, "zeschłeś".data, "zeschłaś".data,
     "ssechł".data, "zeschła".data, "zeschło".data,
     "zeschliśmy".data, "zeschłyśmy".data, "zeschliście".data,
     "zeschłyście".data, "zeschli".data, "zeschły".data⟩
  else
    ⟨pre ++ "schłem".data, pre ++ "schłam".data, pre ++ "schłeś".data, pre ++ "schłaś".data,
     sg3mPrefix ++ "sechł".data, pre ++ "schła".data, pre ++ "schło".data,
     pre ++ "schliśmy".data, pre ++ "schłyśmy".data, pre ++ "schliście".data,
     pre ++ "schłyście".data, pre ++ "schli".data, pre ++ "schły".data⟩

/-- `lookupPastIrregularWithPrefix`: direct hit, the `-jść`/`-niść`/`-nijść`
and prefixed `-schnąć` families, then prefix stripping against the
registered prefixable bases. -/
def lookupPastIrregularWithPrefix (inf : Str) : Option PastT :=
  match lookupTbl irregularPastVerbs inf with
  | some p => some p
  | none =>
    if endsWith inf "nijść".data ∧ trimSuf inf "nijść".data ≠ [] then
      some (buildJscPast (trimSuf inf "nijść".data))
    else if endsWith inf "jść".data ∧ trimSuf inf "jść".data ≠ [] then
      some (buildJscPast (trimSuf inf "jść".data))
    else if endsWith inf "niść".data ∧ trimSuf inf "niść".data ≠ [] then
      some (buildJscPast (trimSuf inf "niść".data))
    else if endsWith inf "schnąć".data ∧ inf ≠ "schnąć".data then
      some (buildSchnacPast inf)
    else
      verbPrefixes.findSome? (fun pre =>
        if pre.length < inf.length ∧ beginsWith inf pre = true then
          let base := inf.drop pre.length
          if memStr pastPrefixableVerbs base then
            (lookupTbl irregularPastVerbs base).map (applyPrefixToPast pre)
          else none
        else none)

/-- The two base entries of `pastHomographs`. -/
def wlecBaseEntry : List PastParadigm :=
  [⟨⟨"wlekłem".data, "wlekłam".data, "wlekłeś".data, "wlekłaś".data,
     "wlekł".data, "wlekła".data, "wlekło".data,
     "wlekliśmy".data, "wlekłyśmy".data, "wlekliście".data,
     "wlekłyście".data, "wlekli".data, "wlekły".data⟩,
    "sg3m wlekł variant".data⟩,
   ⟨⟨"wlekłem".data, "wlekłam".data, "wlekłeś".data, "wlekłaś".data,
     "wlókł".data, "wlekła".data, "wlekło".data,
     "wlekliśmy".data, "wlekłyśmy".data, "wlekliście".data,
     "wlekłyście".data, "wlekli".data, "wlekły".data⟩,
    "sg3m wlókł variant".data⟩]

/-- The `paść` base entry of `pastHomographs`. -/
def pascBaseEntry : List PastParadigm :=
  [⟨⟨"pasłem".data, "pasłam".data, "pasłeś".data, "pasłaś".data,
     "pasł".data, "pasła".data, "pasło".data,
     "paśliśmy".data, "pasłyśmy".data, "paśliście".data,
     "pasłyście".data, "paśli".data, "pasły".data⟩,
    "to graze (animals)".data⟩,
   ⟨⟨"padłem".data, "padłam".data, "padłeś".data, "padłaś".data,
     "padł".data, "padła".data, "padło".data,
     "padliśmy".data, "padłyśmy".data, "padliście".data,
     "padłyście".data, "padli".data, "padły".data⟩,
    "to fall".data⟩]

/-- `buildPascHomograph`. -/
def buildPascHomograph (pre : Str) : List PastParadigm :=
  [⟨⟨pre ++ "padłem".data, pre ++ "padłam".data, pre ++ "padłeś".data, pre ++ "padłaś".data,
     pre ++ "padł".data, pre ++ "padła".data, pre ++ "padło".data,
     pre ++ "padliśmy".data, pre ++ "padłyśmy".data, pre ++ "padliście".data,
     pre ++ "padłyście".data, pre ++ "padli".data, pre ++ "padły".data⟩,
    "to fall".data⟩,
   ⟨⟨pre ++ "pasłem".data, pre ++ "padłam".data, pre ++ "pasłeś".data, pre ++ "padłaś".data,
     pre ++ "pasł".data, pre ++ "padła".data, pre ++ "padło".data,
     pre ++ "padliśmy".data, pre ++ "padłyśmy".data, pre ++ "padliście".data,
     pre ++ "padłyście".data, pre ++ "padli".data, pre ++ "padły".data⟩,
    "to fall (variant)".data⟩]

/-- `buildWlecHomograph`. -/
def buildWlecHomograph (pre : Str) : List PastParadigm :=
  [⟨⟨pre ++ "wlekłem".data, pre ++ "wlekłam".data, pre ++ "wlekłeś".data, pre ++ "wlekłaś".data,
     pre ++ "wlekł".data, pre ++ "wlekła".data, pre ++ "wlekło".data,
     pre ++ "wlekliśmy".data, pre ++ "wlekłyśmy".data, pre ++ "wlekliście".data,
     pre ++ "wlekłyście".data, pre ++ "wlekli".data, pre ++ "wlekły".data⟩,
    "sg3m wlekł variant".data⟩,
   ⟨⟨pre ++ "wlekłem".data, pre ++ "wlekłam".data, pre ++ "wlekłeś".data, pre ++ "wlekłaś".data,
     pre ++ "wlókł".data, pre ++ "wlekła".data, pre ++ "wlekło".data,
     pre ++ "wlekliśmy".data, pre ++ "wlekłyśmy".data, pre ++ "wlekliście".data,
     pre ++ "wlekłyście".data, pre ++ "wlekli".data, pre ++ "wlekły".data⟩,
    "sg3m wlókł variant".data⟩]

/-- `pastHomographs` after `init`: the two base entries plus the generated
prefixed `-paść` and `-wlec` entries. -/
def pastHomographs : List (Str × List PastParadigm) :=
  [("wlec".data, wlecBaseEntry), ("paść".data, pascBaseEntry)]
  ++ pascPrefixes.map (fun p => (p ++ "paść".data, buildPascHomograph p))
  ++ wlecPrefixes.map (fun p => (p ++ "wlec".data, buildWlecHomograph p))

/-- `lookupPastHomograph`. -/
def lookupPastHomograph (inf : Str) : Option (List PastParadigm) :=
  lookupTbl pastHomographs inf

/-- `ConjugatePast`: homographs → irregular registry (direct, then prefixed)
→ dual-form `-nąć` resolver → ordered heuristic chain → failure. -/
def ConjugatePast (inf : Str) : Except Str (List PastParadigm) :=
  match lookupPastHomograph inf with
  | some ps => .ok ps
  | none =>
    match lookupPastIrregularWithPrefix inf with
    | some p => .ok [⟨p, []⟩]
    | none =>
      if isDualFormNacVerb inf then .ok (buildDualFormNacParadigms inf)
      else
        match pastHeuristics.findSome? (fun h => h inf) with
        | some p => .ok [⟨p, []⟩]
        | none => .error ("no past tense heuristic matched: ".data ++ inf)
/-! ## Definitions used by the claim statements -/

/-- The spec's per-slot prefix composition for present paradigms, written
from its words for comparison with the code: "the base Paradigm with the
prefix concatenated to every slot, modulo the epenthetic-vowel correction
for that specific slot's leading phoneme". -/
def specPerSlotPresent (pre : Str) (p : PresentT) : PresentT :=
  ⟨stripEpentheticVowel pre p.sg1 ++ p.sg1, stripEpentheticVowel pre p.sg2 ++ p.sg2,
   stripEpentheticVowel pre p.sg3 ++ p.sg3, stripEpentheticVowel pre p.pl1 ++ p.pl1,
   stripEpentheticVowel pre p.pl2 ++ p.pl2, stripEpentheticVowel pre p.pl3 ++ p.pl3⟩

/-- The spec's per-slot prefix composition for past paradigms, written from
its words for comparison with the code: every slot receives the prefix
variant chosen by the epenthetic-vowel correction keyed on that slot's own
leading phonemes. -/
def specPerSlotPast (pre : Str) (b : PastT) : PastT :=
  ⟨stripEpentheticVowel pre b.sg1M ++ b.sg1M, stripEpentheticVowel pre b.sg1F ++ b.sg1F,
   stripEpentheticVowel pre b.sg2M ++ b.sg2M, stripEpentheticVowel pre b.sg2F ++ b.sg2F,
   stripEpentheticVowel pre b.sg3M ++ b.sg3M, stripEpentheticVowel pre b.sg3F ++ b.sg3F,
   stripEpentheticVowel pre b.sg3N ++ b.sg3N, stripEpentheticVowel pre b.pl1V ++ b.pl1V,
   stripEpentheticVowel pre b.pl1NV ++ b.pl1NV, stripEpentheticVowel pre b.pl2V ++ b.pl2V,
   stripEpentheticVowel pre b.pl2NV ++ b.pl2NV, stripEpentheticVowel pre b.pl3V ++ b.pl3V,
   stripEpentheticVowel pre b.pl3NV ++ b.pl3NV⟩

/-- The first prefix in the authored `verbPrefixes` order whose stripping
leaves a base that is registered and marked present-prefixable, together
with that base — the decomposition `lookupIrregularWithPrefix` acts on. -/
def firstChosenPresent (inf : Str) : Option (Str × Str) :=
  verbPrefixes.findSome? (fun pre =>
    if pre.length < inf.length ∧ beginsWith inf pre = true then
      let base := inf.drop pre.length
      if memStr prefixableVerbs base && (lookupTbl irregularVerbs base).isSome then
        some (pre, base)
      else none
    else none)

/-- The prefixed-base resolution described by the chosen decomposition. -/
def resolveChosenPresent (inf : Str) : Option PresentT :=
  (firstChosenPresent inf).bind (fun pb =>
    (lookupTbl irregularVerbs pb.2).map (applyPreToPresent pb.1))

/-- The first prefix in the authored `verbPrefixes` order whose stripping
leaves a base that is registered and marked past-prefixable. -/
def firstChosenPast (inf : Str) : Option (Str × Str) :=
  verbPrefixes.findSome? (fun pre =>
    if pre.length < inf.length ∧ beginsWith inf pre = true then
      let base := inf.drop pre.length
      if memStr pastPrefixableVerbs base && (lookupTbl irregularPastVerbs base).isSome then
        some (pre, base)
      else none
    else none)

/-- Checks the prefix-composition law for one past (prefix, base) pair:
whenever the pair is the decomposition the past registry actually acts on
(base registered and prefixable, prefix+base not itself a registry key,
no `-jść`/`-niść`/`-nijść`/`-schnąć` rule firing, and the pair first in the
authored prefix order), resolution must equal the base paradigm with the
per-slot epenthetic-corrected prefix concatenated to every slot. -/
def pastCompositionCheck (pre base : Str) : Bool :=
  match lookupTbl irregularPastVerbs base with
  | none => true
  | some bp =>
    let inf := pre ++ base
    if memStr pastPrefixableVerbs base
        && (lookupTbl irregularPastVerbs inf).isNone
        && !(endsWith inf "nijść".data) && !(endsWith inf "jść".data)
        && !(endsWith inf "niść".data)
        && !(endsWith inf "schnąć".data && decide (inf ≠ "schnąć".data))
        && decide (firstChosenPast inf = some (pre, base)) then
      decide (lookupPastIrregularWithPrefix inf = some (specPerSlotPast pre bp))
    else true

/-- Checks the present analogue for one (prefix, base) pair: on the chosen
decomposition the present registry concatenates the prefix text verbatim to
every slot (no epenthetic correction exists on this path). -/
def presentCompositionCheck (pre base : Str) : Bool :=
  match lookupTbl irregularVerbs base with
  | none => true
  | some bp =>
    let inf := pre ++ base
    if memStr prefixableVerbs base
        && (lookupTbl irregularVerbs inf).isNone
        && decide (firstChosenPresent inf = some (pre, base)) then
      decide (lookupIrregularWithPrefix inf = some (applyPreToPresent pre bp))
    else true

/-- Whether the epenthetic-vowel correction chooses the same prefix variant
for every slot of a base paradigm as it does for its sg3m slot. -/
def sameVariantAcrossSlots (pre : Str) (b : PastT) : Bool :=
  ([b.sg1M, b.sg1F, b.sg2M, b.sg2F, b.sg3F, b.sg3N, b.pl1V, b.pl1NV,
    b.pl2V, b.pl2NV, b.pl3V, b.pl3NV] : List Str).all
    (fun s => stripEpentheticVowel pre s == stripEpentheticVowel pre b.sg3M)

/-- The curated dual-standard `-nąć` membership set, as one list. -/
def dualFormList : List Str :=
  dualFormNacVerbsVirileDropped ++ dualFormNacVerbsVirileKept

/-- Checks the dual-form contract for one curated infinitive: past-tense
resolution returns exactly two paradigms, with distinct non-empty glosses,
agreeing on every slot except sg3m, where the first carries the n-dropped
form and the second the n-kept form. -/
def dualClaimCheck (v : Str) : Bool :=
  match ConjugatePast v with
  | .ok [p1, p2] =>
    decide (lookupPastHomograph v = none)
    && !p1.gloss.isEmpty && !p2.gloss.isEmpty && decide (p1.gloss ≠ p2.gloss)
    && decide (p1.past.sg3M ≠ p2.past.sg3M)
    && decide (p1.past.sg3M = applyMascSgAlternation (trimSuf v "nąć".data) v ++ "ł".data)
    && decide (p2.past.sg3M = trimSuf v "ć".data ++ "ł".data)
    && decide (p1.past.sg1M = p2.past.sg1M) && decide (p1.past.sg1F = p2.past.sg1F)
    && decide (p1.past.sg2M = p2.past.sg2M) && decide (p1.past.sg2F = p2.past.sg2F)
    && decide (p1.past.sg3F = p2.past.sg3F) && decide (p1.past.sg3N = p2.past.sg3N)
    && decide (p1.past.pl1V = p2.past.pl1V) && decide (p1.past.pl1NV = p2.past.pl1NV)
    && decide (p1.past.pl2V = p2.past.pl2V) && decide (p1.past.pl2NV = p2.past.pl2NV)
    && decide (p1.past.pl3V = p2.past.pl3V) && decide (p1.past.pl3NV = p2.past.pl3NV)
  | _ => false

/-- All six present slots populated. -/
def presentAllSlotsFilled (p : PresentT) : Bool :=
  !p.sg1.isEmpty && !p.sg2.isEmpty && !p.sg3.isEmpty &&
  !p.pl1.isEmpty && !p.pl2.isEmpty && !p.pl3.isEmpty

/-- All thirteen past slots populated. -/
def pastAllSlotsFilled (p : PastT) : Bool :=
  !p.sg1M.isEmpty && !p.sg1F.isEmpty && !p.sg2M.isEmpty && !p.sg2F.isEmpty &&
  !p.sg3M.isEmpty && !p.sg3F.isEmpty && !p.sg3N.isEmpty &&
  !p.pl1V.isEmpty && !p.pl1NV.isEmpty && !p.pl2V.isEmpty && !p.pl2NV.isEmpty &&
  !p.pl3V.isEmpty && !p.pl3NV.isEmpty
/-! ## Supporting lemmas -/

theorem beginsWith_iff : ∀ {s pre : Str}, beginsWith s pre = true ↔ pre <+: s
  | _, [] => by simp [beginsWith, List.nil_prefix]
  | [], _ :: _ => by simp [beginsWith, List.prefix_nil]
  | c :: cs, p :: ps => by
    simp only [beginsWith, Bool.and_eq_true, beq_iff_eq, List.cons_prefix_cons]
    exact and_congr (eq_comm) (@beginsWith_iff cs ps)

theorem endsWith_iff {s suf : Str} : endsWith s suf = true ↔ suf <:+ s := by
  rw [endsWith, beginsWith_iff, List.reverse_prefix]

theorem endsWith_append (t p : Str) : endsWith (t ++ p) p = true :=
  endsWith_iff.mpr ⟨t, rfl⟩

theorem exists_of_endsWith {s p : Str} (h : endsWith s p = true) : ∃ t, s = t ++ p := by
  obtain ⟨t, ht⟩ := endsWith_iff.mp h
  exact ⟨t, ht.symm⟩

theorem trimSuf_append (t p : Str) : trimSuf (t ++ p) p = t := by
  unfold trimSuf
  rw [endsWith_append, if_pos rfl]
  simp [List.length_append, List.take_left]

theorem lookupTbl_mem {α : Type} {tbl : List (Str × α)} {k : Str} {v : α}
    (h : lookupTbl tbl k = some v) : (k, v) ∈ tbl := by
  induction tbl with
  | nil => simp [lookupTbl] at h
  | cons e rest ih =>
    obtain ⟨k', v'⟩ := e
    rw [lookupTbl] at h
    by_cases hk : k = k'
    · subst hk
      rw [if_pos rfl] at h
      injection h with h
      subst h
      exact List.mem_cons_self _ _
    · rw [if_neg hk] at h
      exact List.mem_cons_of_mem _ (ih h)

theorem findSome?_eq_bind {α β γ : Type} (l : List α) (g : α → Option β)
    (sel : α → Option γ) (use : γ → Option β)
    (h1 : ∀ p ∈ l, g p = (sel p).bind use)
    (h2 : ∀ p ∈ l, ∀ c, sel p = some c → (use c).isSome = true) :
    l.findSome? g = (l.findSome? sel).bind use := by
  induction l with
  | nil => rfl
  | cons p t ih =>
    rw [List.findSome?_cons, List.findSome?_cons]
    cases hsel : sel p with
    | none =>
      have hg : g p = none := by rw [h1 p (by simp), hsel]; rfl
      rw [hg]
      exact ih (fun q hq => h1 q (by simp [hq])) (fun q hq => h2 q (by simp [hq]))
    | some c =>
      have hg : g p = use c := by rw [h1 p (by simp), hsel]; rfl
      have := h2 p (by simp) c hsel
      cases hu : use c with
      | none => rw [hu] at this; simp at this
      | some b =>
        rw [hg, hu]
        simp [hu]

/-! ## Claim theorems -/

/-- Claim C1: present-tense resolution of "stać" returns two Paradigms — one
glossed "to stand" with stoję/stoisz/stoi/stoimy/stoicie/stoją and one glossed
"to become, to afford" with stanę/staniesz/stanie/staniemy/staniecie/staną —
and, in general, resolution returns more than one Paradigm only when the
homograph resolver recognises the infinitive. -/
theorem stac_two_paradigms_multiplicity_only_homographs :
    ConjugatePresentAll "stać".data = .ok
      [⟨⟨"stoję".data, "stoisz".data, "stoi".data, "stoimy".data, "stoicie".data, "stoją".data⟩,
        "to stand".data⟩,
       ⟨⟨"stanę".data, "staniesz".data, "stanie".data, "staniemy".data, "staniecie".data, "staną".data⟩,
        "to become, to afford".data⟩]
    ∧ ∀ inf ps, ConjugatePresentAll inf = .ok ps → 1 < ps.length →
        (lookupHomograph inf).isSome = true := by
  refine ⟨rfl, ?_⟩
  intro inf ps h hlen
  unfold ConjugatePresentAll at h
  cases hh : lookupHomograph inf with
  | some l => rfl
  | none =>
    rw [hh] at h
    cases hc : ConjugatePresent inf with
    | ok p =>
      rw [hc] at h
      injection h with h
      rw [← h] at hlen
      simp at hlen
    | error e => rw [hc] at h; exact absurd h (by simp)

/-- Claim C1 witness: the general part applied to the concrete homograph. -/
theorem stac_two_paradigms_multiplicity_only_homographs_witness :
    (lookupHomograph "stać".data).isSome = true :=
  stac_two_paradigms_multiplicity_only_homographs.2 "stać".data _
    stac_two_paradigms_multiplicity_only_homographs.1 (by decide)

/-- Claim C3 counterexample: "podbać" decomposes both as po+dbać and as the
longer pod+bać — both bases registered and marked prefixable — yet the
registry resolves it via the shorter prefix po (first in the authored list),
producing podbam…, not the pod+bać paradigm podboję…. -/
theorem podbac_shorter_prefix_wins :
    lookupTbl irregularVerbs "podbać".data = none
    ∧ memStr prefixableVerbs "dbać".data = true ∧ ("po".data ∈ verbPrefixes)
    ∧ memStr prefixableVerbs "bać".data = true ∧ ("pod".data ∈ verbPrefixes)
    ∧ lookupIrregularWithPrefix "podbać".data =
        some ⟨"podbam".data, "podbasz".data, "podba".data,
              "podbamy".data, "podbacie".data, "podbają".data⟩
    ∧ (lookupTbl irregularVerbs "bać".data).map (applyPreToPresent "pod".data) ≠
        lookupIrregularWithPrefix "podbać".data :=
  ⟨rfl, rfl, by decide, rfl, by decide, rfl, by decide⟩

/-- Claim C3 as amended: on a direct-registry miss, the registry resolves a
prefixed infinitive by the FIRST prefix in the authored `verbPrefixes` order
whose stripping leaves a registered prefixable base (that order is not
length-sorted, so this is not longest-match stripping). -/
theorem prefix_stripping_uses_authored_order :
    ∀ inf, lookupTbl irregularVerbs inf = none →
      lookupIrregularWithPrefix inf = resolveChosenPresent inf := by
  intro inf h
  unfold lookupIrregularWithPrefix resolveChosenPresent firstChosenPresent
  rw [h]
  refine findSome?_eq_bind _ _ _ _ (fun pre _ => ?_) (fun pre _ c hc => ?_)
  · by_cases hg : pre.length < inf.length ∧ beginsWith inf pre = true
    · rw [if_pos hg, if_pos hg]
      by_cases hm : memStr prefixableVerbs (inf.drop pre.length) = true
      · simp only [hm, Bool.true_and]
        cases hl : lookupTbl irregularVerbs (inf.drop pre.length) with
        | none => simp [hl]
        | some bp => simp [hl]
      · simp only [Bool.not_eq_true] at hm
        simp [hm]
    · rw [if_neg hg, if_neg hg]
      rfl
  · by_cases hg : pre.length < inf.length ∧ beginsWith inf pre = true
    · rw [if_pos hg] at hc
      dsimp only at hc
      by_cases hm : memStr prefixableVerbs (inf.drop pre.length) = true
      · rw [hm] at hc
        cases hl : lookupTbl irregularVerbs (inf.drop pre.length) with
        | none => rw [hl] at hc; simp at hc
        | some bp =>
          rw [hl] at hc
          simp only [Option.isSome_some, Bool.and_true, if_true] at hc
          injection hc with hc
          rw [← hc]
          simp [hl]
      · simp only [Bool.not_eq_true] at hm
        rw [hm] at hc
        simp at hc
    · rw [if_neg hg] at hc
      exact absurd hc (by simp)

/-- Claim C3 amended-theorem witness, at the counterexample input. -/
theorem prefix_stripping_uses_authored_order_witness :
    lookupIrregularWithPrefix "podbać".data = resolveChosenPresent "podbać".data :=
  prefix_stripping_uses_authored_order "podbać".data rfl

/-- Claim C7: no infinitive is both a key of the past homograph table
(including the prefixed -paść and -wlec entries added at initialisation) and
a member of the dual-form -nąć sets, so the homograph-multi-paradigm and
dual-form-multi-paradigm outcomes are mutually exclusive. -/
theorem past_homograph_dual_form_disjoint :
    pastHomographs.all (fun e => !isDualFormNacVerb e.1) = true
    ∧ dualFormList.all (fun v => (lookupPastHomograph v).isNone) = true
    ∧ ∀ inf, (lookupPastHomograph inf).isSome = false ∨ isDualFormNacVerb inf = false := by
  refine ⟨by decide, by decide, ?_⟩
  intro inf
  cases hh : lookupPastHomograph inf with
  | none => left; rfl
  | some ps =>
    right
    have hmem : (inf, ps) ∈ pastHomographs := lookupTbl_mem hh
    have hall := List.all_eq_true.mp (by decide :
      pastHomographs.all (fun e => !isDualFormNacVerb e.1) = true) _ hmem
    simpa using hall

/-- Claim C8: the -ować matcher runs before the generic -ać fallback: every
infinitive ending in "ować" that the registries do not resolve gets the
stem+uję… paradigm from the first matcher in the chain, and "czytać" falls
through to the generic -ać fallback, yielding czytam…. -/
theorem owac_precedes_ac_fallback :
    (∀ inf, endsWith inf "ować".data = true → lookupIrregularWithPrefix inf = none →
      ConjugatePresent inf = .ok
        ⟨trimSuf inf "ować".data ++ "uję".data, trimSuf inf "ować".data ++ "ujesz".data,
         trimSuf inf "ować".data ++ "uje".data, trimSuf inf "ować".data ++ "ujemy".data,
         trimSuf inf "ować".data ++ "ujecie".data, trimSuf inf "ować".data ++ "ują".data⟩)
    ∧ ConjugatePresent "czytać".data = .ok
        ⟨"czytam".data, "czytasz".data, "czyta".data,
         "czytamy".data, "czytacie".data, "czytają".data⟩ := by
  constructor
  · intro inf h hnone
    unfold ConjugatePresent
    rw [hnone]
    have how : heuristicOwac inf = some
        ⟨trimSuf inf "ować".data ++ "uję".data, trimSuf inf "ować".data ++ "ujesz".data,
         trimSuf inf "ować".data ++ "uje".data, trimSuf inf "ować".data ++ "ujemy".data,
         trimSuf inf "ować".data ++ "ujecie".data, trimSuf inf "ować".data ++ "ują".data⟩ := by
      unfold heuristicOwac
      rw [h]
      rfl
    unfold heuristics
    rw [List.findSome?_cons, how]
  · rfl

/-- Claim C8 witness: the -ować part applied at "pracować". -/
theorem owac_precedes_ac_fallback_witness :
    ConjugatePresent "pracować".data = .ok
      ⟨trimSuf "pracować".data "ować".data ++ "uję".data,
       trimSuf "pracować".data "ować".data ++ "ujesz".data,
       trimSuf "pracować".data "ować".data ++ "uje".data,
       trimSuf "pracować".data "ować".data ++ "ujemy".data,
       trimSuf "pracować".data "ować".data ++ "ujecie".data,
       trimSuf "pracować".data "ować".data ++ "ują".data⟩ :=
  owac_precedes_ac_fallback.1 "pracować".data (by decide) rfl

/-- Decomposes the prefix-stripping loop shared by the present and past
registries: the first-match resolution equals looking up the first chosen
(prefix, base) decomposition and applying the prefix to the base entry. -/
theorem chosen_decomp {β : Type} (l : List Str) (inf : Str) (tbl : List (Str × β))
    (pv : List Str) (ap : Str → β → β) :
    l.findSome? (fun pre =>
      if pre.length < inf.length ∧ beginsWith inf pre = true then
        let base := inf.drop pre.length
        if memStr pv base then (lookupTbl tbl base).map (ap pre) else none
      else none)
    = (l.findSome? (fun pre =>
        if pre.length < inf.length ∧ beginsWith inf pre = true then
          let base := inf.drop pre.length
          if memStr pv base && (lookupTbl tbl base).isSome then some (pre, base) else none
        else none)).bind
      (fun pb => (lookupTbl tbl pb.2).map (ap pb.1)) := by
  refine findSome?_eq_bind _ _ _ _ (fun pre _ => ?_) (fun pre _ c hc => ?_)
  · by_cases hg : pre.length < inf.length ∧ beginsWith inf pre = true
    · rw [if_pos hg, if_pos hg]
      by_cases hm : memStr pv (inf.drop pre.length) = true
      · simp only [hm, Bool.true_and]
        cases hl : lookupTbl tbl (inf.drop pre.length) with
        | none => simp [hl]
        | some bp => simp [hl]
      · simp only [Bool.not_eq_true] at hm
        simp [hm]
    · rw [if_neg hg, if_neg hg]
      rfl
  · by_cases hg : pre.length < inf.length ∧ beginsWith inf pre = true
    · rw [if_pos hg] at hc
      dsimp only at hc
      by_cases hm : memStr pv (inf.drop pre.length) = true
      · rw [hm] at hc
        cases hl : lookupTbl tbl (inf.drop pre.length) with
        | none => rw [hl] at hc; simp at hc
        | some bp =>
          rw [hl] at hc
          simp only [Option.isSome_some, Bool.and_true, if_true] at hc
          injection hc with hc
          rw [← hc]
          simp [hl]
      · simp only [Bool.not_eq_true] at hm
        rw [hm] at hc
        simp at hc
    · rw [if_neg hg] at hc
      exact absurd hc (by simp)

/-- The epenthetic-vowel correction leaves every prefix outside its
epenthetic table unchanged, regardless of the attached form. -/
theorem strip_id_of_not_epenthetic (pre x : Str)
    (h : lookupTbl epentheticTbl pre = none) : stripEpentheticVowel pre x = pre := by
  unfold stripEpentheticVowel
  rw [h]

/-- Every entry of the past registry outside the `schnąć` family (which a
dedicated rule intercepts before prefix composition) receives the same
prefix variant on every slot as on its sg3m slot, for every epenthetic
prefix. -/
theorem sameVariant_on_registry :
    epentheticTbl.all (fun e => irregularPastVerbs.all
      (fun kv => endsWith kv.1 "schnąć".data || sameVariantAcrossSlots e.1 kv.2)) = true := by
  decide

/-- When the correction chooses the same variant for every slot, the
implementation's once-keyed composition agrees with the spec's per-slot
composition. -/
theorem applyPrefix_eq_spec_of_sameVariant (pre : Str) (b : PastT)
    (h : sameVariantAcrossSlots pre b = true) :
    applyPrefixToPast pre b = specPerSlotPast pre b := by
  simp only [sameVariantAcrossSlots, List.all_cons, List.all_nil, Bool.and_true,
    Bool.and_eq_true, beq_iff_eq] at h
  obtain ⟨e1, e2, e3, e4, e5, e6, e7, e8, e9, e10, e11, e12⟩ := h
  unfold applyPrefixToPast specPerSlotPast
  rw [e1, e2, e3, e4, e5, e6, e7, e8, e9, e10, e11, e12]

/-- Claim C2 counterexample: brać is marked prefixable and ze is in the
known-prefix set, yet the Paradigm resolved for ze+brać is the direct
registry entry zbiorę… — it equals neither the base brać paradigm with the
prefix concatenated verbatim to every slot nor the variant corrected
per-slot by the epenthetic-vowel rule (both give zebiorę…). -/
theorem zebrac_breaks_prefix_composition :
    memStr prefixableVerbs "brać".data = true
    ∧ ("ze".data ∈ verbPrefixes)
    ∧ lookupIrregularWithPrefix "zebrać".data =
        some ⟨"zbiorę".data, "zbierzesz".data, "zbierze".data,
              "zbierzemy".data, "zbierzecie".data, "zbiorą".data⟩
    ∧ (lookupTbl irregularVerbs "brać".data).map (specPerSlotPresent "ze".data) ≠
        lookupIrregularWithPrefix "zebrać".data
    ∧ (lookupTbl irregularVerbs "brać".data).map (applyPreToPresent "ze".data) ≠
        lookupIrregularWithPrefix "zebrać".data :=
  ⟨rfl, by decide, rfl, by decide, by decide⟩

/-- Claim C2 as amended: the prefix-composition law holds exactly for the
decomposition the resolver chooses (prefix+base not itself a registry key,
no more specific suffix rule firing, and the pair first in the authored
prefix order). There, the past registry's resolution equals the base
Paradigm with the epenthetically corrected prefix concatenated to every
slot per-slot (the implementation keys the correction once, on the base's
sg3m slot, which coincides with per-slot keying on the whole registry), and
the present registry concatenates the prefix text verbatim, with no
correction. -/
theorem prefix_composition_chosen_only :
    (∀ inf pre base bp,
      lookupTbl irregularPastVerbs inf = none →
      endsWith inf "nijść".data = false → endsWith inf "jść".data = false →
      endsWith inf "niść".data = false → endsWith inf "schnąć".data = false →
      firstChosenPast inf = some (pre, base) →
      lookupTbl irregularPastVerbs base = some bp →
      lookupPastIrregularWithPrefix inf = some (specPerSlotPast pre bp))
    ∧ (∀ inf pre base bp,
      lookupTbl irregularVerbs inf = none →
      firstChosenPresent inf = some (pre, base) →
      lookupTbl irregularVerbs base = some bp →
      lookupIrregularWithPrefix inf = some (applyPreToPresent pre bp)) := by
  constructor
  · intro inf pre base bp h h1 h2 h3 h4 hfc hbp
    have hd : lookupPastIrregularWithPrefix inf =
        (firstChosenPast inf).bind (fun pb =>
          (lookupTbl irregularPastVerbs pb.2).map (applyPrefixToPast pb.1)) := by
      unfold lookupPastIrregularWithPrefix firstChosenPast
      rw [h]
      rw [if_neg (by simp [h1]), if_neg (by simp [h2]), if_neg (by simp [h3]),
        if_neg (by simp [h4])]
      exact chosen_decomp verbPrefixes inf irregularPastVerbs pastPrefixableVerbs
        applyPrefixToPast
    rw [hd, hfc]
    have hnotschnac : endsWith base "schnąć".data = false := by
      obtain ⟨p, hpmem, hp⟩ := List.exists_of_findSome?_eq_some hfc
      by_cases hg : p.length < inf.length ∧ beginsWith inf p = true
      · rw [if_pos hg] at hp
        dsimp only at hp
        have hpb : p = pre ∧ inf.drop p.length = base := by
          by_cases hm : (memStr pastPrefixableVerbs (inf.drop p.length) &&
              (lookupTbl irregularPastVerbs (inf.drop p.length)).isSome) = true
          · rw [if_pos hm] at hp
            injection hp with hp
            exact ⟨congrArg Prod.fst hp, congrArg Prod.snd hp⟩
          · rw [if_neg hm] at hp
            exact absurd hp (by simp)
        obtain ⟨hpp, hdb⟩ := hpb
        subst hpp
        obtain ⟨t, ht⟩ := beginsWith_iff.mp hg.2
        have hdt : inf.drop p.length = t := by rw [← ht, List.drop_left]
        have hbt : base = t := by rw [← hdb, hdt]
        subst hbt
        by_contra hcon
        rw [Bool.not_eq_false] at hcon
        have hsuf : ("schnąć".data : Str) <:+ base := endsWith_iff.mp hcon
        have hbs : base <:+ inf := ⟨p, ht⟩
        have : endsWith inf "schnąć".data = true := endsWith_iff.mpr (hsuf.trans hbs)
        rw [this] at h4
        exact absurd h4 (by simp)
      · rw [if_neg hg] at hp
        exact absurd hp (by simp)
    have hs : applyPrefixToPast pre bp = specPerSlotPast pre bp := by
      apply applyPrefix_eq_spec_of_sameVariant
      cases he : lookupTbl epentheticTbl pre with
      | none =>
        have hid : ∀ x, stripEpentheticVowel pre x = pre :=
          fun x => strip_id_of_not_epenthetic pre x he
        simp [sameVariantAcrossSlots, hid]
      | some v =>
        have hmemE : (pre, v) ∈ epentheticTbl := lookupTbl_mem he
        have hmemB : (base, bp) ∈ irregularPastVerbs := lookupTbl_mem hbp
        have h5 := List.all_eq_true.mp sameVariant_on_registry _ hmemE
        have h6 := List.all_eq_true.mp h5 _ hmemB
        rw [hnotschnac] at h6
        simpa using h6
    simp [hbp, hs]
  · intro inf pre base bp h hfc hbp
    have hd : lookupIrregularWithPrefix inf =
        (firstChosenPresent inf).bind (fun pb =>
          (lookupTbl irregularVerbs pb.2).map (applyPreToPresent pb.1)) := by
      unfold lookupIrregularWithPrefix firstChosenPresent
      rw [h]
      exact chosen_decomp verbPrefixes inf irregularVerbs prefixableVerbs applyPreToPresent
    rw [hd, hfc]
    simp [hbp]

/-- Claim C2 amended-theorem witness: za+nieść, resolved by the past
registry as the nieść paradigm with za concatenated per-slot. -/
theorem prefix_composition_chosen_only_witness :
    lookupPastIrregularWithPrefix "zanieść".data =
      some (specPerSlotPast "za".data
        ⟨"niosłem".data, "niosłam".data, "niosłeś".data, "niosłaś".data,
         "niósł".data, "niosła".data, "niosło".data,
         "nieśliśmy".data, "niosłyśmy".data, "nieśliście".data,
         "niosłyście".data, "nieśli".data, "niosły".data⟩) :=
  prefix_composition_chosen_only.1 "zanieść".data "za".data "nieść".data _
    rfl rfl rfl rfl rfl rfl rfl

/-- Claim C4: every infinitive in the curated dual-standard -nąć set misses
the past homograph table and resolves to exactly two thirteen-slot
paradigms with distinct non-empty glosses, agreeing on every slot except
sg3m, where the first carries the n-dropped form and the second the n-kept
form. -/
theorem dual_form_two_standard_paradigms :
    dualFormList.all dualClaimCheck = true := by decide

theorem stripLoop_eq_any (s : Str) (hs : s ≠ []) :
    ∀ ps : List Str, (∀ p ∈ ps, p ≠ []) →
      stripLoop s ps =
        ps.any (fun p => beginsWith s p && canStripAllPrefixes (s.drop p.length)) := by
  intro ps
  induction ps with
  | nil =>
    intro _
    rw [stripLoop]
    rfl
  | cons p t ih =>
    intro hps
    have hp : p ≠ [] := hps p (by simp)
    have ht := ih (fun q hq => hps q (by simp [hq]))
    rw [stripLoop, List.any_cons, ht]
    by_cases hb : beginsWith s p = true
    · rw [dif_pos ⟨hb, hp, hs⟩, hb, Bool.true_and]
    · have hb' : beginsWith s p = false := by
        cases hbb : beginsWith s p
        · rfl
        · exact absurd hbb hb
      rw [dif_neg (fun hcon => hb hcon.1), hb', Bool.false_and]

theorem canStrip_recurrence (s : Str) :
    canStripAllPrefixes s =
      (s.isEmpty ||
        verbalPrefixes.any (fun p => beginsWith s p && canStripAllPrefixes (s.drop p.length))) := by
  by_cases hs : s = []
  · subst hs
    rw [canStripAllPrefixes, if_pos rfl]
    rfl
  · have he : s.isEmpty = false := by
      rw [Bool.eq_false_iff]
      rw [ne_eq, List.isEmpty_eq_true]
      exact hs
    rw [canStripAllPrefixes, if_neg hs, he, Bool.false_or]
    exact stripLoop_eq_any s hs verbalPrefixes (by decide)

/-- Claim C10: every entry of `verbalPrefixes` is non-empty, so the
recursive prefix decomposer `canStripAllPrefixes` terminates on every input
— it is a total function satisfying the source's recurrence for every
string — and consequently the ywać-pattern classifier
`usesYwacWamPattern` built on it is total as well. -/
theorem canStrip_terminates_usesYwacWam_total :
    verbalPrefixes.all (fun p => !p.isEmpty) = true
    ∧ (∀ s, canStripAllPrefixes s =
        (s.isEmpty ||
          verbalPrefixes.any (fun p => beginsWith s p && canStripAllPrefixes (s.drop p.length))))
    ∧ (∀ inf stem, usesYwacWamPattern inf stem = true ∨ usesYwacWamPattern inf stem = false) := by
  refine ⟨by decide, canStrip_recurrence, ?_⟩
  intro inf stem
  cases h : usesYwacWamPattern inf stem
  · right; rfl
  · left; rfl

/-- Claim C5: present-tense resolution succeeds on every infinitive ending
in "ać" (the fallback matcher always fires), and it fails exactly when the
registry misses and every heuristic declines, in which case the result is a
returned error value whose message carries the offending infinitive. -/
theorem present_total_on_ac_and_error_carries_infinitive :
    (∀ inf, endsWith inf "ać".data = true → ∃ p, ConjugatePresent inf = .ok p)
    ∧ (∀ inf, ConjugatePresent inf = .error ("no heuristic matched: ".data ++ inf) ↔
        (lookupIrregularWithPrefix inf = none ∧ ∀ h ∈ heuristics, h inf = none))
    ∧ (∀ inf e, ConjugatePresent inf = .error e → e = "no heuristic matched: ".data ++ inf) := by
  refine ⟨?_, ?_, ?_⟩
  · intro inf h
    unfold ConjugatePresent
    cases hl : lookupIrregularWithPrefix inf with
    | some p => exact ⟨p, rfl⟩
    | none =>
      cases hf : heuristics.findSome? (fun h => h inf) with
      | some p => exact ⟨p, rfl⟩
      | none =>
        exfalso
        have hAc : heuristicAc inf = none :=
          List.findSome?_eq_none_iff.mp hf heuristicAc (by simp [heuristics])
        unfold heuristicAc at hAc
        rw [h] at hAc
        simp at hAc
  · intro inf
    constructor
    · intro herr
      unfold ConjugatePresent at herr
      cases hl : lookupIrregularWithPrefix inf with
      | some p => rw [hl] at herr; exact absurd herr (by simp)
      | none =>
        rw [hl] at herr
        cases hf : heuristics.findSome? (fun h => h inf) with
        | some p => rw [hf] at herr; exact absurd herr (by simp)
        | none => exact ⟨rfl, List.findSome?_eq_none_iff.mp hf⟩
    · rintro ⟨hl, hall⟩
      unfold ConjugatePresent
      rw [hl, List.findSome?_eq_none_iff.mpr hall]
  · intro inf e herr
    unfold ConjugatePresent at herr
    cases hl : lookupIrregularWithPrefix inf with
    | some p => rw [hl] at herr; exact absurd herr (by simp)
    | none =>
      rw [hl] at herr
      cases hf : heuristics.findSome? (fun h => h inf) with
      | some p => rw [hf] at herr; exact absurd herr (by simp)
      | none =>
        rw [hf] at herr
        injection herr with herr
        exact herr.symm

/-- Claim C5 witness: totality applied at "czytać". -/
theorem present_total_on_ac_and_error_carries_infinitive_witness :
    (ConjugatePresent "czytać".data).isOk = true := by
  obtain ⟨p, hp⟩ :=
    present_total_on_ac_and_error_carries_infinitive.1 "czytać".data (by decide)
  rw [hp]
  rfl

/-- Claim C6: the verbal-noun softening function maps a stem-final consonant
or cluster to its soft counterpart — s→sz, z→ż, t→c, k→cz, and "śc"→"szcz"
as a single unit — while a "ks"/"ps" cluster blocks s-softening entirely
(such stems get no softening). The side conditions on the neighbouring
consonant exclude exactly the clusters the function curates separately. -/
theorem softening_unit_rules_with_ks_ps_block :
    (∀ t a, a = 'k' ∨ a = 'p' → applySofteningForVN (t ++ [a, 's']) = none)
    ∧ (∀ t, applySofteningForVN (t ++ ['ś', 'c']) = some (t ++ ['s','z','c','z']))
    ∧ (∀ t c, c ≠ 'k' → c ≠ 'p' →
        applySofteningForVN (t ++ [c, 's']) = some (t ++ [c] ++ ['s','z']))
    ∧ (∀ t c, c ≠ 's' → c ≠ 'c' → c ≠ 'r' → c ≠ 'd' →
        applySofteningForVN (t ++ [c, 'z']) = some (t ++ [c] ++ ['ż']))
    ∧ (∀ t c, c ≠ 's' →
        applySofteningForVN (t ++ [c, 't']) = some (t ++ [c] ++ ['c']))
    ∧ (∀ t, applySofteningForVN (t ++ ['k']) = some (t ++ ['c','z'])) := by
  refine ⟨?_, ?_, ?_, ?_, ?_, ?_⟩
  · intro t a ha
    have hkp : secondFromEndKP (t ++ [a, 's']) = true := by
      unfold secondFromEndKP
      rw [show (t ++ [a, 's'] : Str).reverse = 's' :: a :: t.reverse by simp]
      rcases ha with h | h <;> simp [h]
    simp [applySofteningForVN, endsInSoftConsonant, softConsonants,
          endsWith, beginsWith, hkp]
  · intro t
    simp [applySofteningForVN, applySoftening, endsInSoftConsonant, softConsonants,
          endsWith, beginsWith, secondFromEndKP, softeningMap, lookupTbl,
          trimSuf_append]
  · intro t c h1 h2
    have hkp : secondFromEndKP (t ++ [c, 's']) = false := by
      unfold secondFromEndKP
      rw [show (t ++ [c, 's'] : Str).reverse = 's' :: c :: t.reverse by simp]
      simp [h1, h2]
    have htr : trimSuf (t ++ [c, 's']) ['s'] = t ++ [c] := by
      rw [show (t ++ [c, 's'] : Str) = (t ++ [c]) ++ ['s'] by simp]
      exact trimSuf_append _ _
    simp [applySofteningForVN, applySoftening, endsInSoftConsonant, softConsonants,
          endsWith, beginsWith, hkp, softeningMap, lookupTbl, htr]
  · intro t c h1 h2 h3 h4
    have htr : trimSuf (t ++ [c, 'z']) ['z'] = t ++ [c] := by
      rw [show (t ++ [c, 'z'] : Str) = (t ++ [c]) ++ ['z'] by simp]
      exact trimSuf_append _ _
    simp [applySofteningForVN, applySoftening, endsInSoftConsonant, softConsonants,
          endsWith, beginsWith, secondFromEndKP, softeningMap, lookupTbl,
          htr, h1, h2, h3, h4]
  · intro t c h1
    have htr : trimSuf (t ++ [c, 't']) ['t'] = t ++ [c] := by
      rw [show (t ++ [c, 't'] : Str) = (t ++ [c]) ++ ['t'] by simp]
      exact trimSuf_append _ _
    simp [applySofteningForVN, applySoftening, endsInSoftConsonant, softConsonants,
          endsWith, beginsWith, secondFromEndKP, softeningMap, lookupTbl,
          htr, h1]
  · intro t
    simp [applySofteningForVN, applySoftening, endsInSoftConsonant, softConsonants,
          endsWith, beginsWith, secondFromEndKP, softeningMap, lookupTbl,
          trimSuf_append]

/-- Claim C6 witness: s→sz on "nos" and the ks-cluster block on "ks". -/
theorem softening_unit_rules_with_ks_ps_block_witness :
    applySofteningForVN "nos".data = some "nosz".data
    ∧ applySofteningForVN "ks".data = none := by
  constructor
  · exact softening_unit_rules_with_ks_ps_block.2.2.1 ['n'] 'o' (by decide) (by decide)
  · exact softening_unit_rules_with_ks_ps_block.1 [] 'k' (Or.inl rfl)

/-! ## Slot-population invariant (claim C9) -/

theorem filled_append (x y : Str) (hy : y ≠ []) : (x ++ y).isEmpty = false := by
  rw [Bool.eq_false_iff, ne_eq, List.isEmpty_eq_true, List.append_eq_nil]
  rintro ⟨-, h2⟩
  exact hy h2

theorem filled_append_of_right (x y : Str) (hy : y.isEmpty = false) :
    (x ++ y).isEmpty = false := by
  rw [Bool.eq_false_iff, ne_eq, List.isEmpty_eq_true] at hy
  rw [Bool.eq_false_iff, ne_eq, List.isEmpty_eq_true, List.append_eq_nil]
  rintro ⟨-, h2⟩
  exact hy h2

theorem presentTbl_filled : irregularVerbs.all (fun e => presentAllSlotsFilled e.2) = true := by
  decide

theorem pastTbl_filled : irregularPastVerbs.all (fun e => pastAllSlotsFilled e.2) = true := by
  decide

theorem pastHomographsTbl_filled :
    pastHomographs.all (fun e => e.2.all (fun q => pastAllSlotsFilled q.past)) = true := by
  decide

theorem applyPreToPresent_filled (pre : Str) (b : PresentT)
    (hb : presentAllSlotsFilled b = true) :
    presentAllSlotsFilled (applyPreToPresent pre b) = true := by
  simp only [presentAllSlotsFilled, Bool.and_eq_true, Bool.not_eq_true'] at hb
  obtain ⟨⟨⟨⟨⟨h1, h2⟩, h3⟩, h4⟩, h5⟩, h6⟩ := hb
  simp only [applyPreToPresent, presentAllSlotsFilled, Bool.and_eq_true, Bool.not_eq_true']
  and_intros <;>
    first
      | exact filled_append_of_right _ _ h1
      | exact filled_append_of_right _ _ h2
      | exact filled_append_of_right _ _ h3
      | exact filled_append_of_right _ _ h4
      | exact filled_append_of_right _ _ h5
      | exact filled_append_of_right _ _ h6

theorem applyPrefixToPast_filled (pre : Str) (b : PastT)
    (hb : pastAllSlotsFilled b = true) :
    pastAllSlotsFilled (applyPrefixToPast pre b) = true := by
  simp only [pastAllSlotsFilled, Bool.and_eq_true, Bool.not_eq_true'] at hb
  obtain ⟨⟨⟨⟨⟨⟨⟨⟨⟨⟨⟨⟨h1, h2⟩, h3⟩, h4⟩, h5⟩, h6⟩, h7⟩, h8⟩, h9⟩, h10⟩, h11⟩, h12⟩, h13⟩ := hb
  simp only [applyPrefixToPast, pastAllSlotsFilled, Bool.and_eq_true, Bool.not_eq_true']
  and_intros <;>
    first
      | exact filled_append_of_right _ _ h1
      | exact filled_append_of_right _ _ h2
      | exact filled_append_of_right _ _ h3
      | exact filled_append_of_right _ _ h4
      | exact filled_append_of_right _ _ h5
      | exact filled_append_of_right _ _ h6
      | exact filled_append_of_right _ _ h7
      | exact filled_append_of_right _ _ h8
      | exact filled_append_of_right _ _ h9
      | exact filled_append_of_right _ _ h10
      | exact filled_append_of_right _ _ h11
      | exact filled_append_of_right _ _ h12
      | exact filled_append_of_right _ _ h13

theorem buildPastTense_filled (stem : Str) :
    pastAllSlotsFilled (buildPastTense stem) = true := by
  simp only [buildPastTense, pastAllSlotsFilled, Bool.and_eq_true, Bool.not_eq_true']
  and_intros <;> exact filled_append _ _ (by decide)

theorem buildPastTenseNDropped_filled (stem inf : Str) :
    pastAllSlotsFilled (buildPastTenseNDropped stem inf) = true := by
  simp only [buildPastTenseNDropped, pastAllSlotsFilled, Bool.and_eq_true, Bool.not_eq_true']
  and_intros <;> exact filled_append _ _ (by decide)

theorem buildPastTenseMixedNDrop_filled (stem inf : Str) :
    pastAllSlotsFilled (buildPastTenseMixedNDrop stem inf) = true := by
  simp only [buildPastTenseMixedNDrop, pastAllSlotsFilled, Bool.and_eq_true, Bool.not_eq_true']
  and_intros <;> exact filled_append _ _ (by decide)

theorem buildPastTenseWithAlternation_filled (mascStem femStem : Str) :
    pastAllSlotsFilled (buildPastTenseWithAlternation mascStem femStem) = true := by
  simp only [buildPastTenseWithAlternation, pastAllSlotsFilled, Bool.and_eq_true,
    Bool.not_eq_true']
  and_intros <;> exact filled_append _ _ (by decide)

theorem buildJscPast_filled (pre : Str) :
    pastAllSlotsFilled (buildJscPast pre) = true := by
  simp only [buildJscPast, pastAllSlotsFilled, Bool.and_eq_true, Bool.not_eq_true']
  and_intros <;> exact filled_append _ _ (by decide)

theorem buildSchnacPast_filled (inf : Str) :
    pastAllSlotsFilled (buildSchnacPast inf) = true := by
  unfold buildSchnacPast
  dsimp only
  split
  · decide
  · simp only [pastAllSlotsFilled, Bool.and_eq_true, Bool.not_eq_true']
    and_intros <;> exact filled_append _ _ (by decide)

theorem buildDualFormNacParadigms_filled (inf : Str) :
    (buildDualFormNacParadigms inf).all (fun q => pastAllSlotsFilled q.past) = true := by
  simp only [buildDualFormNacParadigms, List.all_cons, List.all_nil, Bool.and_eq_true,
    and_true]
  constructor <;>
    (simp only [pastAllSlotsFilled, Bool.and_eq_true, Bool.not_eq_true']
     and_intros <;>
       first
         | exact filled_append _ _ (by decide)
         | (split <;> exact filled_append _ _ (by decide)))

/-! ## Heuristic-level slot-population lemmas and the C9 theorem -/

theorem pastFilled_Asc : ∀ inf p, heuristicPastAsc inf = some p →
    pastAllSlotsFilled p = true := by
  intro inf p h
  unfold heuristicPastAsc at h
  dsimp only at h
  repeat' split at h
  all_goals simp at h
  all_goals subst h
  all_goals
    (simp only [pastAllSlotsFilled, Bool.and_eq_true, Bool.not_eq_true']
     and_intros <;>
       first
         | exact filled_append _ _ (by decide)
         | decide)

theorem pastFilled_Czac : ∀ inf p, heuristicPastCzac inf = some p →
    pastAllSlotsFilled p = true := by
  intro inf p h
  unfold heuristicPastCzac at h
  dsimp only at h
  repeat' split at h
  all_goals simp at h
  all_goals subst h
  all_goals
    (simp only [pastAllSlotsFilled, Bool.and_eq_true, Bool.not_eq_true']
     and_intros <;>
       first
         | exact filled_append _ _ (by decide)
         | decide)

theorem pastFilled_Strzyc : ∀ inf p, heuristicPastStrzyc inf = some p →
    pastAllSlotsFilled p = true := by
  intro inf p h
  unfold heuristicPastStrzyc at h
  dsimp only at h
  repeat' split at h
  all_goals simp at h
  all_goals subst h
  all_goals
    (simp only [pastAllSlotsFilled, Bool.and_eq_true, Bool.not_eq_true']
     and_intros <;>
       first
         | exact filled_append _ _ (by decide)
         | decide)

theorem pastFilled_Bosc : ∀ inf p, heuristicPastBosc inf = some p →
    pastAllSlotsFilled p = true := by
  intro inf p h
  unfold heuristicPastBosc at h
  dsimp only at h
  repeat' split at h
  all_goals simp at h
  all_goals subst h
  all_goals
    (simp only [pastAllSlotsFilled, Bool.and_eq_true, Bool.not_eq_true']
     and_intros <;>
       first
         | exact filled_append _ _ (by decide)
         | decide)

theorem pastFilled_Sc : ∀ inf p, heuristicPastSc inf = some p →
    pastAllSlotsFilled p = true := by
  intro inf p h
  unfold heuristicPastSc at h
  dsimp only at h
  repeat' split at h
  all_goals simp at h
  all_goals subst h
  all_goals
    (simp only [pastAllSlotsFilled, Bool.and_eq_true, Bool.not_eq_true']
     and_intros <;>
       first
         | exact filled_append _ _ (by decide)
         | decide)

theorem pastFilled_C : ∀ inf p, heuristicPastC inf = some p →
    pastAllSlotsFilled p = true := by
  intro inf p h
  unfold heuristicPastC at h
  dsimp only at h
  repeat' split at h
  all_goals simp at h
  all_goals subst h
  all_goals
    (simp only [pastAllSlotsFilled, Bool.and_eq_true, Bool.not_eq_true']
     and_intros <;>
       first
         | exact filled_append _ _ (by decide)
         | decide)

theorem pastFilled_Ec : ∀ inf p, heuristicPastEc inf = some p →
    pastAllSlotsFilled p = true := by
  intro inf p h
  unfold heuristicPastEc at h
  dsimp only at h
  repeat' split at h
  all_goals simp at h
  all_goals subst h
  all_goals
    (simp only [pastAllSlotsFilled, Bool.and_eq_true, Bool.not_eq_true']
     and_intros <;>
       first
         | exact filled_append _ _ (by decide)
         | decide)

theorem pastFilled_Nac : ∀ inf p, heuristicPastNac inf = some p →
    pastAllSlotsFilled p = true := by
  intro inf p h
  unfold heuristicPastNac at h
  dsimp only at h
  repeat' split at h
  all_goals simp at h
  all_goals subst h
  · exact buildPastTenseMixedNDrop_filled _ _
  · exact buildPastTenseNDropped_filled _ _
  · exact buildPastTenseWithAlternation_filled _ _
  · exact buildPastTenseWithAlternation_filled _ _

theorem pastFilled_Owac : ∀ inf p, heuristicPastOwac inf = some p →
    pastAllSlotsFilled p = true := by
  intro inf p h
  unfold heuristicPastOwac at h
  dsimp only at h
  repeat' split at h
  all_goals simp at h
  all_goals subst h
  all_goals exact buildPastTense_filled _

theorem pastFilled_YwacIwac : ∀ inf p, heuristicPastYwacIwac inf = some p →
    pastAllSlotsFilled p = true := by
  intro inf p h
  unfold heuristicPastYwacIwac at h
  dsimp only at h
  repeat' split at h
  all_goals simp at h
  all_goals subst h
  all_goals exact buildPastTense_filled _

theorem pastFilled_Awac : ∀ inf p, heuristicPastAwac inf = some p →
    pastAllSlotsFilled p = true := by
  intro inf p h
  unfold heuristicPastAwac at h
  dsimp only at h
  repeat' split at h
  all_goals simp at h
  all_goals subst h
  all_goals exact buildPastTense_filled _

theorem pastFilled_Ic : ∀ inf p, heuristicPastIc inf = some p →
    pastAllSlotsFilled p = true := by
  intro inf p h
  unfold heuristicPastIc at h
  dsimp only at h
  repeat' split at h
  all_goals simp at h
  all_goals subst h
  all_goals exact buildPastTense_filled _

theorem pastFilled_Yc : ∀ inf p, heuristicPastYc inf = some p →
    pastAllSlotsFilled p = true := by
  intro inf p h
  unfold heuristicPastYc at h
  dsimp only at h
  repeat' split at h
  all_goals simp at h
  all_goals subst h
  all_goals exact buildPastTense_filled _

theorem pastFilled_Uc : ∀ inf p, heuristicPastUc inf = some p →
    pastAllSlotsFilled p = true := by
  intro inf p h
  unfold heuristicPastUc at h
  dsimp only at h
  repeat' split at h
  all_goals simp at h
  all_goals subst h
  all_goals exact buildPastTense_filled _

theorem pastFilled_Ac : ∀ inf p, heuristicPastAc inf = some p →
    pastAllSlotsFilled p = true := by
  intro inf p h
  unfold heuristicPastAc at h
  dsimp only at h
  repeat' split at h
  all_goals simp at h
  all_goals subst h
  all_goals exact buildPastTense_filled _
theorem presFilled_Owac : ∀ inf p, heuristicOwac inf = some p →
    presentAllSlotsFilled p = true := by
  intro inf p h
  unfold heuristicOwac at h
  dsimp only at h
  repeat' split at h
  all_goals simp at h
  all_goals subst h
  all_goals
    (simp only [presentIEIesz, presentEEsz, presentAllSlotsFilled,
       Bool.and_eq_true, Bool.not_eq_true']
     and_intros <;>
       first
         | exact filled_append _ _ (by decide)
         | decide)

theorem presFilled_Awac : ∀ inf p, heuristicAwac inf = some p →
    presentAllSlotsFilled p = true := by
  intro inf p h
  unfold heuristicAwac at h
  dsimp only at h
  repeat' split at h
  all_goals simp at h
  all_goals subst h
  all_goals
    (simp only [presentIEIesz, presentEEsz, presentAllSlotsFilled,
       Bool.and_eq_true, Bool.not_eq_true']
     and_intros <;>
       first
         | exact filled_append _ _ (by decide)
         | decide)

theorem presFilled_Otac : ∀ inf p, heuristicOtac inf = some p →
    presentAllSlotsFilled p = true := by
  intro inf p h
  unfold heuristicOtac at h
  dsimp only at h
  repeat' split at h
  all_goals simp at h
  all_goals subst h
  all_goals
    (simp only [presentIEIesz, presentEEsz, presentAllSlotsFilled,
       Bool.and_eq_true, Bool.not_eq_true']
     and_intros <;>
       first
         | exact filled_append _ _ (by decide)
         | decide)

theorem presFilled_Eptac : ∀ inf p, heuristicEptac inf = some p →
    presentAllSlotsFilled p = true := by
  intro inf p h
  unfold heuristicEptac at h
  dsimp only at h
  repeat' split at h
  all_goals simp at h
  all_goals subst h
  all_goals
    (simp only [presentIEIesz, presentEEsz, presentAllSlotsFilled,
       Bool.and_eq_true, Bool.not_eq_true']
     and_intros <;>
       first
         | exact filled_append _ _ (by decide)
         | decide)

theorem presFilled_Lamac : ∀ inf p, heuristicLamac inf = some p →
    presentAllSlotsFilled p = true := by
  intro inf p h
  unfold heuristicLamac at h
  dsimp only at h
  repeat' split at h
  all_goals simp at h
  all_goals subst h
  all_goals
    (simp only [presentIEIesz, presentEEsz, presentAllSlotsFilled,
       Bool.and_eq_true, Bool.not_eq_true']
     and_intros <;>
       first
         | exact filled_append _ _ (by decide)
         | decide)

theorem presFilled_AcAlternating : ∀ inf p, heuristicAcAlternating inf = some p →
    presentAllSlotsFilled p = true := by
  intro inf p h
  unfold heuristicAcAlternating at h
  dsimp only at h
  repeat' split at h
  all_goals simp at h
  all_goals subst h
  all_goals
    (simp only [presentIEIesz, presentEEsz, presentAllSlotsFilled,
       Bool.and_eq_true, Bool.not_eq_true']
     and_intros <;>
       first
         | exact filled_append _ _ (by decide)
         | decide)

theorem presFilled_Nac : ∀ inf p, heuristicNac inf = some p →
    presentAllSlotsFilled p = true := by
  intro inf p h
  unfold heuristicNac at h
  dsimp only at h
  repeat' split at h
  all_goals simp at h
  all_goals subst h
  all_goals
    (simp only [presentIEIesz, presentEEsz, presentAllSlotsFilled,
       Bool.and_eq_true, Bool.not_eq_true']
     and_intros <;>
       first
         | exact filled_append _ _ (by decide)
         | decide)

theorem presFilled_Asc : ∀ inf p, heuristicAsc inf = some p →
    presentAllSlotsFilled p = true := by
  intro inf p h
  unfold heuristicAsc at h
  dsimp only at h
  repeat' split at h
  all_goals simp at h
  all_goals subst h
  all_goals
    (simp only [presentIEIesz, presentEEsz, presentAllSlotsFilled,
       Bool.and_eq_true, Bool.not_eq_true']
     and_intros <;>
       first
         | exact filled_append _ _ (by decide)
         | decide)

theorem presFilled_Jsc : ∀ inf p, heuristicJsc inf = some p →
    presentAllSlotsFilled p = true := by
  intro inf p h
  unfold heuristicJsc at h
  dsimp only at h
  repeat' split at h
  all_goals simp at h
  all_goals subst h
  all_goals
    (simp only [presentIEIesz, presentEEsz, presentAllSlotsFilled,
       Bool.and_eq_true, Bool.not_eq_true']
     and_intros <;>
       first
         | exact filled_append _ _ (by decide)
         | decide)

theorem presFilled_Byc : ∀ inf p, heuristicByc inf = some p →
    presentAllSlotsFilled p = true := by
  intro inf p h
  unfold heuristicByc at h
  dsimp only at h
  repeat' split at h
  all_goals simp at h
  all_goals subst h
  all_goals
    (simp only [presentIEIesz, presentEEsz, presentAllSlotsFilled,
       Bool.and_eq_true, Bool.not_eq_true']
     and_intros <;>
       first
         | exact filled_append _ _ (by decide)
         | decide)

theorem presFilled_Ciac : ∀ inf p, heuristicCiac inf = some p →
    presentAllSlotsFilled p = true := by
  intro inf p h
  unfold heuristicCiac at h
  dsimp only at h
  repeat' split at h
  all_goals simp at h
  all_goals subst h
  all_goals
    (simp only [presentIEIesz, presentEEsz, presentAllSlotsFilled,
       Bool.and_eq_true, Bool.not_eq_true']
     and_intros <;>
       first
         | exact filled_append _ _ (by decide)
         | decide)

theorem presFilled_Giac : ∀ inf p, heuristicGiac inf = some p →
    presentAllSlotsFilled p = true := by
  intro inf p h
  unfold heuristicGiac at h
  dsimp only at h
  repeat' split at h
  all_goals simp at h
  all_goals subst h
  all_goals
    (simp only [presentIEIesz, presentEEsz, presentAllSlotsFilled,
       Bool.and_eq_true, Bool.not_eq_true']
     and_intros <;>
       first
         | exact filled_append _ _ (by decide)
         | decide)

theorem presFilled_Pasc : ∀ inf p, heuristicPasc inf = some p →
    presentAllSlotsFilled p = true := by
  intro inf p h
  unfold heuristicPasc at h
  dsimp only at h
  repeat' split at h
  all_goals simp at h
  all_goals subst h
  all_goals
    (simp only [presentIEIesz, presentEEsz, presentAllSlotsFilled,
       Bool.and_eq_true, Bool.not_eq_true']
     and_intros <;>
       first
         | exact filled_append _ _ (by decide)
         | decide)

theorem presFilled_StacNastal : ∀ inf p, heuristicStacNastal inf = some p →
    presentAllSlotsFilled p = true := by
  intro inf p h
  unfold heuristicStacNastal at h
  dsimp only at h
  repeat' split at h
  all_goals simp at h
  all_goals subst h
  all_goals
    (simp only [presentIEIesz, presentEEsz, presentAllSlotsFilled,
       Bool.and_eq_true, Bool.not_eq_true']
     and_intros <;>
       first
         | exact filled_append _ _ (by decide)
         | decide)

theorem presFilled_Biec : ∀ inf p, heuristicBiec inf = some p →
    presentAllSlotsFilled p = true := by
  intro inf p h
  unfold heuristicBiec at h
  dsimp only at h
  repeat' split at h
  all_goals simp at h
  all_goals subst h
  all_goals
    (simp only [presentIEIesz, presentEEsz, presentAllSlotsFilled,
       Bool.and_eq_true, Bool.not_eq_true']
     and_intros <;>
       first
         | exact filled_append _ _ (by decide)
         | decide)

theorem presFilled_Slac : ∀ inf p, heuristicSlac inf = some p →
    presentAllSlotsFilled p = true := by
  intro inf p h
  unfold heuristicSlac at h
  dsimp only at h
  repeat' split at h
  all_goals simp at h
  all_goals subst h
  all_goals
    (simp only [presentIEIesz, presentEEsz, presentAllSlotsFilled,
       Bool.and_eq_true, Bool.not_eq_true']
     and_intros <;>
       first
         | exact filled_append _ _ (by decide)
         | decide)

theorem presFilled_Trzec : ∀ inf p, heuristicTrzec inf = some p →
    presentAllSlotsFilled p = true := by
  intro inf p h
  unfold heuristicTrzec at h
  dsimp only at h
  repeat' split at h
  all_goals simp at h
  all_goals subst h
  all_goals
    (simp only [presentIEIesz, presentEEsz, presentAllSlotsFilled,
       Bool.and_eq_true, Bool.not_eq_true']
     and_intros <;>
       first
         | exact filled_append _ _ (by decide)
         | decide)

theorem presFilled_Sc : ∀ inf p, heuristicSc inf = some p →
    presentAllSlotsFilled p = true := by
  intro inf p h
  unfold heuristicSc at h
  dsimp only at h
  repeat' split at h
  all_goals simp at h
  all_goals subst h
  all_goals
    (simp only [presentIEIesz, presentEEsz, presentAllSlotsFilled,
       Bool.and_eq_true, Bool.not_eq_true']
     and_intros <;>
       first
         | exact filled_append _ _ (by decide)
         | decide)

theorem presFilled_C : ∀ inf p, heuristicC inf = some p →
    presentAllSlotsFilled p = true := by
  intro inf p h
  unfold heuristicC at h
  dsimp only at h
  repeat' split at h
  all_goals simp at h
  all_goals subst h
  all_goals
    (simp only [presentIEIesz, presentEEsz, presentAllSlotsFilled,
       Bool.and_eq_true, Bool.not_eq_true']
     and_intros <;>
       first
         | exact filled_append _ _ (by decide)
         | decide)

theorem presFilled_Ic : ∀ inf p, heuristicIc inf = some p →
    presentAllSlotsFilled p = true := by
  intro inf p h
  unfold heuristicIc at h
  dsimp only at h
  repeat' split at h
  all_goals simp at h
  all_goals subst h
  all_goals
    (simp only [presentIEIesz, presentEEsz, presentAllSlotsFilled,
       Bool.and_eq_true, Bool.not_eq_true']
     and_intros <;>
       first
         | exact filled_append _ _ (by decide)
         | decide)

theorem presFilled_Yc : ∀ inf p, heuristicYc inf = some p →
    presentAllSlotsFilled p = true := by
  intro inf p h
  unfold heuristicYc at h
  dsimp only at h
  repeat' split at h
  all_goals simp at h
  all_goals subst h
  all_goals
    (simp only [presentIEIesz, presentEEsz, presentAllSlotsFilled,
       Bool.and_eq_true, Bool.not_eq_true']
     and_intros <;>
       first
         | exact filled_append _ _ (by decide)
         | decide)
theorem presFilled_Ac : ∀ inf p, heuristicAc inf = some p →
    presentAllSlotsFilled p = true := by
  intro inf p h
  unfold heuristicAc at h
  dsimp only at h
  cases h1 : endsWith inf "ać".data with
  | false => simp [h1] at h
  | true =>
    obtain ⟨t, rfl⟩ := exists_of_endsWith h1
    simp [h1] at h
    subst h
    have hts : trimSuf (t ++ ['a', 'ć']) ['ć'] = t ++ ['a'] := by
      rw [show (t ++ ['a', 'ć'] : Str) = (t ++ ['a']) ++ ['ć'] by simp]
      exact trimSuf_append _ _
    simp only [presentAllSlotsFilled, Bool.and_eq_true, Bool.not_eq_true', hts]
    and_intros <;> exact filled_append _ _ (by decide)

theorem presFilled_YwacIwac : ∀ inf p, heuristicYwacIwac inf = some p →
    presentAllSlotsFilled p = true := by
  intro inf p h
  unfold heuristicYwacIwac at h
  dsimp only at h
  cases h1 : endsWith inf "ywać".data with
  | true =>
    obtain ⟨t, rfl⟩ := exists_of_endsWith h1
    simp [h1] at h
    split at h
    all_goals simp at h
    all_goals subst h
    · have hts : trimSuf (t ++ ['y', 'w', 'a', 'ć']) ['ć'] = t ++ ['y', 'w', 'a'] := by
        rw [show (t ++ ['y', 'w', 'a', 'ć'] : Str) = (t ++ ['y', 'w', 'a']) ++ ['ć'] by simp]
        exact trimSuf_append _ _
      simp only [presentAllSlotsFilled, Bool.and_eq_true, Bool.not_eq_true', hts]
      and_intros <;> exact filled_append _ _ (by decide)
    · simp only [presentAllSlotsFilled, Bool.and_eq_true, Bool.not_eq_true']
      and_intros <;> exact filled_append _ _ (by decide)
  | false =>
    cases h2 : endsWith inf "iwać".data with
    | true =>
      obtain ⟨t, rfl⟩ := exists_of_endsWith h2
      simp [h1, h2] at h
      split at h
      all_goals simp at h
      all_goals subst h
      · have hts : trimSuf (t ++ ['i', 'w', 'a', 'ć']) ['ć'] = t ++ ['i', 'w', 'a'] := by
          rw [show (t ++ ['i', 'w', 'a', 'ć'] : Str) = (t ++ ['i', 'w', 'a']) ++ ['ć'] by simp]
          exact trimSuf_append _ _
        simp only [presentAllSlotsFilled, Bool.and_eq_true, Bool.not_eq_true', hts]
        and_intros <;> exact filled_append _ _ (by decide)
      · simp only [presentAllSlotsFilled, Bool.and_eq_true, Bool.not_eq_true']
        and_intros <;> exact filled_append _ _ (by decide)
    | false => simp [h1, h2] at h

theorem presFilled_Ec : ∀ inf p, heuristicEc inf = some p →
    presentAllSlotsFilled p = true := by
  intro inf p h
  unfold heuristicEc at h
  dsimp only at h
  cases h1 : endsWith inf "eć".data with
  | false => simp [h1] at h
  | true =>
    rw [if_neg (by simp [h1])] at h
    by_cases h2 : endsWith inf "ieć".data = true
    · rw [if_pos h2] at h
      by_cases h3 : endsWith inf "umieć".data = true
      · rw [if_pos h3] at h
        simp at h
        subst h
        obtain ⟨t, rfl⟩ := exists_of_endsWith h3
        have hts : trimSuf (t ++ ['u', 'm', 'i', 'e', 'ć']) ['ć'] = t ++ ['u', 'm', 'i', 'e'] := by
          rw [show (t ++ ['u', 'm', 'i', 'e', 'ć'] : Str) = (t ++ ['u', 'm', 'i', 'e']) ++ ['ć'] by simp]
          exact trimSuf_append _ _
        simp only [presentAllSlotsFilled, Bool.and_eq_true, Bool.not_eq_true', hts]
        and_intros <;> exact filled_append _ _ (by decide)
      · rw [if_neg h3] at h
        by_cases h4 : endsWith inf "wiedzieć".data = true
        · rw [if_pos h4] at h
          simp at h
          subst h
          simp only [presentAllSlotsFilled, Bool.and_eq_true, Bool.not_eq_true']
          and_intros <;> exact filled_append _ _ (by decide)
        · rw [if_neg h4] at h
          by_cases h5 : inf = "śmieć".data ∨ endsWith inf "ośmieć".data = true
          · rw [if_pos h5] at h
            simp at h
            subst h
            rcases h5 with rfl | h5
            · decide
            · obtain ⟨t, rfl⟩ := exists_of_endsWith h5
              have hts : trimSuf (t ++ ['o', 'ś', 'm', 'i', 'e', 'ć']) ['ć'] =
                  t ++ ['o', 'ś', 'm', 'i', 'e'] := by
                rw [show (t ++ ['o', 'ś', 'm', 'i', 'e', 'ć'] : Str) =
                      (t ++ ['o', 'ś', 'm', 'i', 'e']) ++ ['ć'] by simp]
                exact trimSuf_append _ _
              simp only [presentAllSlotsFilled, Bool.and_eq_true, Bool.not_eq_true', hts]
              and_intros <;> exact filled_append _ _ (by decide)
          · rw [if_neg h5] at h
            by_cases h6 : endsWith inf "chcieć".data = true
            · rw [if_pos h6] at h
              simp at h
              subst h
              simp only [presentAllSlotsFilled, Bool.and_eq_true, Bool.not_eq_true']
              and_intros <;> exact filled_append _ _ (by decide)
            · rw [if_neg h6] at h
              by_cases h7 : inf = "mieć".data ∨ (endsWith inf "mieć".data ∧ ¬endsWith inf "umieć".data)
              · rw [if_pos h7] at h
                simp at h
              · rw [if_neg h7] at h
                simp at h
                subst h
                obtain ⟨t, rfl⟩ := exists_of_endsWith h2
                have hts : trimSuf (t ++ ['i', 'e', 'ć']) ['ć'] = t ++ ['i', 'e'] := by
                  rw [show (t ++ ['i', 'e', 'ć'] : Str) = (t ++ ['i', 'e']) ++ ['ć'] by simp]
                  exact trimSuf_append _ _
                simp only [presentAllSlotsFilled, Bool.and_eq_true, Bool.not_eq_true', hts]
                and_intros <;> exact filled_append _ _ (by decide)
    · rw [if_neg h2] at h
      by_cases h8 : (endsWith inf "leć".data || endsWith inf "szeć".data) = true
      · rw [if_pos h8] at h
        simp at h
        subst h
        simp only [presentAllSlotsFilled, Bool.and_eq_true, Bool.not_eq_true']
        and_intros <;> exact filled_append _ _ (by decide)
      · rw [if_neg h8] at h
        by_cases h9 : endsInSoftConsonant (trimSuf inf "eć".data) = true
        · rw [if_pos h9] at h
          simp at h
          subst h
          simp only [presentAllSlotsFilled, Bool.and_eq_true, Bool.not_eq_true']
          and_intros <;> exact filled_append _ _ (by decide)
        · rw [if_neg h9] at h
          simp at h
          subst h
          obtain ⟨t, rfl⟩ := exists_of_endsWith h1
          have hts : trimSuf (t ++ ['e', 'ć']) ['ć'] = t ++ ['e'] := by
            rw [show (t ++ ['e', 'ć'] : Str) = (t ++ ['e']) ++ ['ć'] by simp]
            exact trimSuf_append _ _
          simp only [presentAllSlotsFilled, Bool.and_eq_true, Bool.not_eq_true', hts]
          and_intros <;> exact filled_append _ _ (by decide)

theorem presentHeuristics_filled :
    ∀ g ∈ heuristics, ∀ inf p, g inf = some p → presentAllSlotsFilled p = true := by
  intro g hg
  simp only [heuristics, List.mem_cons, List.not_mem_nil, or_false] at hg
  rcases hg with rfl|rfl|rfl|rfl|rfl|rfl|rfl|rfl|rfl|rfl|rfl|rfl|rfl|rfl|rfl|rfl|rfl|rfl|rfl|rfl|rfl|rfl|rfl|rfl
  · exact presFilled_Owac
  · exact presFilled_YwacIwac
  · exact presFilled_Awac
  · exact presFilled_Otac
  · exact presFilled_Eptac
  · exact presFilled_Lamac
  · exact presFilled_AcAlternating
  · exact presFilled_Nac
  · exact presFilled_Asc
  · exact presFilled_Jsc
  · exact presFilled_Byc
  · exact presFilled_Ciac
  · exact presFilled_Giac
  · exact presFilled_Pasc
  · exact presFilled_StacNastal
  · exact presFilled_Biec
  · exact presFilled_Slac
  · exact presFilled_Trzec
  · exact presFilled_Sc
  · exact presFilled_C
  · exact presFilled_Ic
  · exact presFilled_Yc
  · exact presFilled_Ec
  · exact presFilled_Ac

theorem pastHeuristics_filled :
    ∀ g ∈ pastHeuristics, ∀ inf p, g inf = some p → pastAllSlotsFilled p = true := by
  intro g hg
  simp only [pastHeuristics, List.mem_cons, List.not_mem_nil, or_false] at hg
  rcases hg with rfl|rfl|rfl|rfl|rfl|rfl|rfl|rfl|rfl|rfl|rfl|rfl|rfl|rfl|rfl
  · exact pastFilled_Asc
  · exact pastFilled_Czac
  · exact pastFilled_Strzyc
  · exact pastFilled_Bosc
  · exact pastFilled_Nac
  · exact pastFilled_Sc
  · exact pastFilled_C
  · exact pastFilled_Owac
  · exact pastFilled_YwacIwac
  · exact pastFilled_Awac
  · exact pastFilled_Ic
  · exact pastFilled_Yc
  · exact pastFilled_Uc
  · exact pastFilled_Ec
  · exact pastFilled_Ac

theorem lookupIrregularWithPrefix_filled :
    ∀ inf p, lookupIrregularWithPrefix inf = some p → presentAllSlotsFilled p = true := by
  intro inf p h
  unfold lookupIrregularWithPrefix at h
  cases hd : lookupTbl irregularVerbs inf with
  | some q =>
    rw [hd] at h
    injection h with h
    subst h
    simpa using List.all_eq_true.mp presentTbl_filled _ (lookupTbl_mem hd)
  | none =>
    rw [hd] at h
    obtain ⟨pre, hpre, hsome⟩ := List.exists_of_findSome?_eq_some h
    dsimp only at hsome
    by_cases hg : pre.length < inf.length ∧ beginsWith inf pre = true
    · rw [if_pos hg] at hsome
      by_cases hmem : memStr prefixableVerbs (inf.drop pre.length) = true
      · rw [if_pos hmem] at hsome
        cases hb : lookupTbl irregularVerbs (inf.drop pre.length) with
        | none => rw [hb] at hsome; simp at hsome
        | some bp =>
          rw [hb] at hsome
          simp only [Option.map_some', Option.some.injEq] at hsome
          subst hsome
          exact applyPreToPresent_filled _ _
            (by simpa using List.all_eq_true.mp presentTbl_filled _ (lookupTbl_mem hb))
      · rw [if_neg hmem] at hsome
        simp at hsome
    · rw [if_neg hg] at hsome
      simp at hsome

theorem lookupPastIrregularWithPrefix_filled :
    ∀ inf p, lookupPastIrregularWithPrefix inf = some p → pastAllSlotsFilled p = true := by
  intro inf p h
  unfold lookupPastIrregularWithPrefix at h
  cases hd : lookupTbl irregularPastVerbs inf with
  | some q =>
    rw [hd] at h
    injection h with h
    subst h
    simpa using List.all_eq_true.mp pastTbl_filled _ (lookupTbl_mem hd)
  | none =>
    rw [hd] at h
    by_cases h1 : endsWith inf "nijść".data = true ∧ trimSuf inf "nijść".data ≠ []
    · rw [if_pos h1] at h
      injection h with h
      subst h
      exact buildJscPast_filled _
    · rw [if_neg h1] at h
      by_cases h2 : endsWith inf "jść".data = true ∧ trimSuf inf "jść".data ≠ []
      · rw [if_pos h2] at h
        injection h with h
        subst h
        exact buildJscPast_filled _
      · rw [if_neg h2] at h
        by_cases h3 : endsWith inf "niść".data = true ∧ trimSuf inf "niść".data ≠ []
        · rw [if_pos h3] at h
          injection h with h
          subst h
          exact buildJscPast_filled _
        · rw [if_neg h3] at h
          by_cases h4 : endsWith inf "schnąć".data = true ∧ inf ≠ "schnąć".data
          · rw [if_pos h4] at h
            injection h with h
            subst h
            exact buildSchnacPast_filled _
          · rw [if_neg h4] at h
            obtain ⟨pre, hpre, hsome⟩ := List.exists_of_findSome?_eq_some h
            dsimp only at hsome
            by_cases hg : pre.length < inf.length ∧ beginsWith inf pre = true
            · rw [if_pos hg] at hsome
              by_cases hmem : memStr pastPrefixableVerbs (inf.drop pre.length) = true
              · rw [if_pos hmem] at hsome
                cases hb : lookupTbl irregularPastVerbs (inf.drop pre.length) with
                | none => rw [hb] at hsome; simp at hsome
                | some bp =>
                  rw [hb] at hsome
                  simp only [Option.map_some', Option.some.injEq] at hsome
                  subst hsome
                  exact applyPrefixToPast_filled _ _
                    (by simpa using List.all_eq_true.mp pastTbl_filled _ (lookupTbl_mem hb))
              · rw [if_neg hmem] at hsome
                simp at hsome
            · rw [if_neg hg] at hsome
              simp at hsome

/-- Claim C9: whenever present-tense or past-tense resolution succeeds, every
slot of every returned paradigm is a non-empty string — all six present
slots and all thirteen past slots; no partially populated paradigm is ever
returned successfully. -/
theorem all_slots_filled_on_success :
    (∀ inf p, ConjugatePresent inf = .ok p → presentAllSlotsFilled p = true)
    ∧ (∀ inf ps, ConjugatePast inf = .ok ps →
        ps.all (fun q => pastAllSlotsFilled q.past) = true) := by
  constructor
  · intro inf p h
    unfold ConjugatePresent at h
    cases hl : lookupIrregularWithPrefix inf with
    | some q =>
      rw [hl] at h
      injection h with h
      subst h
      exact lookupIrregularWithPrefix_filled _ _ hl
    | none =>
      rw [hl] at h
      cases hf : heuristics.findSome? (fun g => g inf) with
      | some q =>
        rw [hf] at h
        injection h with h
        subst h
        obtain ⟨g, hgmem, hgq⟩ := List.exists_of_findSome?_eq_some hf
        exact presentHeuristics_filled g hgmem inf _ hgq
      | none =>
        rw [hf] at h
        exact absurd h (by simp)
  · intro inf ps h
    unfold ConjugatePast at h
    cases hh : lookupPastHomograph inf with
    | some l =>
      rw [hh] at h
      injection h with h
      subst h
      simpa using List.all_eq_true.mp pastHomographsTbl_filled _
        (lookupTbl_mem (hh : lookupTbl pastHomographs inf = some l))
    | none =>
      rw [hh] at h
      cases hl : lookupPastIrregularWithPrefix inf with
      | some q =>
        rw [hl] at h
        injection h with h
        subst h
        simpa using lookupPastIrregularWithPrefix_filled _ _ hl
      | none =>
        rw [hl] at h
        by_cases hdual : isDualFormNacVerb inf = true
        · rw [if_pos hdual] at h
          injection h with h
          subst h
          exact buildDualFormNacParadigms_filled inf
        · rw [if_neg hdual] at h
          cases hf : pastHeuristics.findSome? (fun g => g inf) with
          | some q =>
            rw [hf] at h
            injection h with h
            subst h
            obtain ⟨g, hgmem, hgq⟩ := List.exists_of_findSome?_eq_some hf
            simpa using pastHeuristics_filled g hgmem inf _ hgq
          | none =>
            rw [hf] at h
            exact absurd h (by simp)

/-- Claim C9 witness: the invariant applied at "czytać" (present) and
"kwitnąć" (past, a dual-form verb returning two paradigms). -/
theorem all_slots_filled_on_success_witness :
    presentAllSlotsFilled ⟨"czytam".data, "czytasz".data, "czyta".data,
      "czytamy".data, "czytacie".data, "czytają".data⟩ = true
    ∧ (buildDualFormNacParadigms "kwitnąć".data).all
        (fun q => pastAllSlotsFilled q.past) = true := by
  constructor
  · exact all_slots_filled_on_success.1 "czytać".data _ (by rfl)
  · exact all_slots_filled_on_success.2 "kwitnąć".data _ (by rfl)
